import Mathlib

/-!
# RentEase rental lifecycle

A shallow embedding of `src/services/rental.service.js` (the `RentalService`
object) and of the collaborators it calls, followed by theorems about the
rental lifecycle state machine.

Modelling conventions.

* A JavaScript number is a `JsNum`: an IEEE 754 double (`NaN`, an infinity or
  a finite value), and every arithmetic operation rounds to the nearest double,
  ties to even, as the language does.
* A request date is represented by the instant it denotes, in epoch
  milliseconds (an `Int`); `new Date(·)` gives it that time value when it lies
  within the range of `Date` and an Invalid Date otherwise.
* A value the service passes to `parseFloat` is a `JsValue`: a number, or a
  string together with the number `parseFloat` yields for it.
* Every asynchronous operation is a function from the world before the call to
  the pair of its result (`Except Thrown _`) and the world after the call.  The
  world carries the repository contents and the chronological trace of every
  call issued to a writing collaborator, whether or not that call succeeded.
* Whether a writing collaborator resolves or rejects is read from an
  `Outcomes` record supplied with each call.
* Two calls in flight at once are modelled for `approveRentalRequest`: the
  operation is cut at its `await`s into steps (`approveStep`), the steps run
  alone are the operation itself (`approveSteps_eq`), and a schedule interleaves
  the steps of two calls on one shared world.
-/

namespace RentEase

/-! ## Errors -/

/-- Symbolic names of the members of `httpStatusCodes` that the services and the
controller use. -/
inductive HttpStatus
  | BAD_REQUEST
  | NOT_FOUND
  | FORBIDDEN
  | INTERNAL_SERVER_ERROR
  | OK
  deriving DecidableEq, Repr

/-- The message templates of every `ApiError` thrown by `RentalService`, by
`RentalController.uploadPaymentProof`, by `ReviewService.createReview` and by
`ReviewModel.create`; a constructor argument is the value interpolated into the
template. -/
inductive ErrMsg
  | productNotAvailable
  | cannotRentOwnProduct
  | outOfStock
  | minimumDuration (days : Int)
  | maximumDuration (days : Int)
  | deliveryAddressRequired
  | invalidDeliveryAddress
  | rentalRequestNotFound
  | rentalNotFound
  | notAuthorizedToApprove
  | notPendingOwnerApproval (current : String)
  | productBecameUnavailable
  | notAuthorizedToReject
  | notAuthorizedForRental
  | notPendingPayment (current : String)
  | paymentProofRequired
  | failedToUploadProof
  | notAuthorizedToViewPaymentStatus
  | notAuthorizedToCancel
  | cannotBeCancelled (current : String)
  | notAuthorizedToView
  | notAuthorizedToProcessReturn
  | cannotProcessReturn (current : String)
  | notAuthorizedToVerifyPayment
  | paymentNotPendingVerification (current : String)
  | paymentProofFileRequired
  | reviewRentalNotFound
  | reviewOnlyOwnRentals
  | reviewOnlyCompletedRentals
  | reviewAlreadyExists
  | failedToCreateReview
  deriving DecidableEq, Repr

/-- The text of each message, as written in the source. -/
def ErrMsg.render : ErrMsg → String
  | .productNotAvailable => "Product not available or not found."
  | .cannotRentOwnProduct => "You cannot rent your own product."
  | .outOfStock => "Product is currently out of stock for rental."
  | .minimumDuration d => "Minimum rental duration is " ++ toString d ++ " days."
  | .maximumDuration d => "Maximum rental duration is " ++ toString d ++ " days."
  | .deliveryAddressRequired => "Delivery address is required for delivery pickup method."
  | .invalidDeliveryAddress => "Invalid delivery address ID."
  | .rentalRequestNotFound => "Rental request not found."
  | .rentalNotFound => "Rental not found."
  | .notAuthorizedToApprove => "You are not authorized to approve this rental."
  | .notPendingOwnerApproval s => "Rental is not pending owner approval. Current status: " ++ s
  | .productBecameUnavailable =>
      "Product became unavailable while pending approval. Please reject."
  | .notAuthorizedToReject => "You are not authorized to reject this rental."
  | .notAuthorizedForRental => "You are not authorized for this rental."
  | .notPendingPayment s => "Rental is not pending payment. Current status: " ++ s
  | .paymentProofRequired => "Payment proof image is required."
  | .failedToUploadProof => "Failed to upload payment proof."
  | .notAuthorizedToViewPaymentStatus =>
      "You are not authorized to view this rental's payment status."
  | .notAuthorizedToCancel => "You are not authorized to cancel this rental."
  | .cannotBeCancelled s => "Rental cannot be cancelled. Current status: " ++ s
  | .notAuthorizedToView => "You are not authorized to view this rental."
  | .notAuthorizedToProcessReturn =>
      "You are not authorized to process return for this rental."
  | .cannotProcessReturn s => "Cannot process return. Rental status is '" ++ s ++ "'."
  | .notAuthorizedToVerifyPayment =>
      "You are not authorized to verify payment for this rental."
  | .paymentNotPendingVerification s =>
      "Rental payment is not pending verification. Current status: " ++ s
  | .paymentProofFileRequired => "Payment proof image file is required."
  | .reviewRentalNotFound => "Rental not found"
  | .reviewOnlyOwnRentals => "You can only review rentals you have made"
  | .reviewOnlyCompletedRentals => "You can only review completed rentals"
  | .reviewAlreadyExists => "You have already reviewed this rental"
  | .failedToCreateReview => "Failed to create review"

/-- The collaborators whose promises may reject. -/
inductive Collaborator
  | RentalModel
  | RentalStatusHistoryModel
  | ProductModel
  | NotificationService
  | FileService
  | PaymentTransactionModel
  | supabase
  deriving DecidableEq, Repr

/-- What an operation of the service can reject with: an `ApiError` built by
the service itself, the rejection of an awaited collaborator call, or the
`TypeError` of reading a property of `null`. -/
inductive Thrown
  | apiError (statusCode : HttpStatus) (message : ErrMsg)
  | rejected (source : Collaborator)
  | typeError
  deriving DecidableEq, Repr

/-! ## JavaScript numbers -/

/-- A JavaScript number, an IEEE 754 binary64 value: `NaN`, an infinity, or a
finite value, given by the rational it denotes.  The two zeros are one value:
the service never divides by a variable and never inspects the sign of a zero.
Every operation rounds its exact result to the nearest double, so the finite
values an operation returns are doubles; a finite value that no double denotes
can only be given as an input. -/
inductive JsNum
  | nan
  | inf (negative : Bool)
  | fin (q : ℚ)
  deriving DecidableEq

namespace JsNum

instance (n : Nat) : OfNat JsNum n := ⟨.fin n⟩

/-- Round to the nearest integer, a tie to the even one. -/
def roundHalfEven (x : ℚ) : Int :=
  if x - ⌊x⌋ < 1 / 2 then ⌊x⌋
  else if 1 / 2 < x - ⌊x⌋ then ⌊x⌋ + 1
  else if ⌊x⌋ % 2 = 0 then ⌊x⌋ else ⌊x⌋ + 1

/-- The position of the leading bit of `n`, `⌊log₂ n⌋`, by repeated halving
(`fuel` bounds the number of halvings). -/
def log2Nat : Nat → Nat → Nat
  | 0, _ => 0
  | fuel + 1, n => if n < 2 then 0 else log2Nat fuel (n / 2) + 1

/-- The binary exponent of a positive rational `a`: the integer `e` with
`2 ^ e ≤ a < 2 ^ (e + 1)`, found from the bit lengths of the numerator and the
denominator. -/
def log2Floor (a : ℚ) : Int :=
  if (2 : ℚ) ^ ((log2Nat a.num.natAbs a.num.natAbs : Int) - (log2Nat a.den a.den : Int)) ≤ a then
    (log2Nat a.num.natAbs a.num.natAbs : Int) - (log2Nat a.den a.den : Int)
  else (log2Nat a.num.natAbs a.num.natAbs : Int) - (log2Nat a.den a.den : Int) - 1

/-- The exponent of the unit in the last place of a double of magnitude `a`:
53 significant bits, the subnormal range starting below `2 ^ (-1022)`. -/
def ulpExp (a : ℚ) : Int := max (log2Floor a) (-1022) - 52

/-- The magnitude `a` rounded to a multiple of its unit in the last place. -/
def roundMag (a : ℚ) : ℚ := roundHalfEven (a / 2 ^ ulpExp a) * 2 ^ ulpExp a

/-- Round to nearest, ties to even: the double an exact result becomes, an
infinity when the rounded magnitude reaches `2 ^ 1024`. -/
def round (q : ℚ) : JsNum :=
  if 2 ^ 1024 ≤ roundMag |q| then .inf (decide (q < 0))
  else .fin (if q < 0 then -roundMag |q| else roundMag |q|)

/-- Unary minus. -/
def neg : JsNum → JsNum
  | nan => nan
  | inf s => inf (!s)
  | fin q => fin (-q)

/-- The operator `+` on numbers. -/
def add : JsNum → JsNum → JsNum
  | nan, _ => nan
  | _, nan => nan
  | inf s, inf t => if s = t then inf s else nan
  | inf s, fin _ => inf s
  | fin _, inf t => inf t
  | fin x, fin y => round (x + y)

/-- The operator `-` on numbers. -/
def sub (a b : JsNum) : JsNum := add a (neg b)

/-- The operator `*`. -/
def mul : JsNum → JsNum → JsNum
  | nan, _ => nan
  | _, nan => nan
  | inf s, inf t => inf (s != t)
  | inf s, fin y => if y = 0 then nan else inf (s != decide (y < 0))
  | fin x, inf t => if x = 0 then nan else inf (decide (x < 0) != t)
  | fin x, fin y => round (x * y)

/-- The operator `/`; a zero divisor is taken as `+0` (the service divides by
the constants `100` and `86400000` only). -/
def div : JsNum → JsNum → JsNum
  | nan, _ => nan
  | _, nan => nan
  | inf _, inf _ => nan
  | inf s, fin y => inf (s != decide (y < 0))
  | fin _, inf _ => fin 0
  | fin x, fin y =>
    if y = 0 then (if x = 0 then nan else inf (decide (x < 0))) else round (x / y)

/-- The function `Math.ceil`. -/
def ceil : JsNum → JsNum
  | fin q => fin ⌈q⌉
  | x => x

/-- The operator `<`: false when an operand is `NaN`. -/
def lt : JsNum → JsNum → Bool
  | nan, _ => false
  | _, nan => false
  | inf s, inf t => s && !t
  | inf s, fin _ => s
  | fin _, inf t => !t
  | fin x, fin y => decide (x < y)

/-- The operator `<=`: false when an operand is `NaN`. -/
def le : JsNum → JsNum → Bool
  | nan, _ => false
  | _, nan => false
  | inf s, inf t => s || !t
  | inf s, fin _ => s
  | fin _, inf t => !t
  | fin x, fin y => decide (x ≤ y)

instance : LT JsNum := ⟨fun a b => lt a b = true⟩

instance : LE JsNum := ⟨fun a b => le a b = true⟩

instance (a b : JsNum) : Decidable (a < b) := inferInstanceAs (Decidable (lt a b = true))

instance (a b : JsNum) : Decidable (a ≤ b) := inferInstanceAs (Decidable (le a b = true))

/-- Truthiness: `0` and `NaN` are falsy. -/
def truthy : JsNum → Bool
  | nan => false
  | inf _ => true
  | fin q => q != 0

/-- The expression `x || 0`. -/
def orZero (x : JsNum) : JsNum := if x.truthy then x else 0

/-- The number an integer read from the database becomes. -/
def ofInt (n : Int) : JsNum := round n

/-- A value the type `number` holds: rounding leaves a finite value unchanged. -/
def isDouble : JsNum → Bool
  | fin q => decide (round q = fin q)
  | _ => true

end JsNum

/-- The time value of `new Date(x)` for an input that denotes the instant `t`
(epoch milliseconds): `t` within the range of `Date`, 8.64e15 milliseconds
either side of the epoch, and `NaN` (an Invalid Date) outside it.  An input
that denotes no instant at all is an Invalid Date too, and is represented by an
instant outside the range. -/
def Date.timeValue (t : Int) : JsNum :=
  if |t| ≤ 8640000000000000 then .fin t else .nan

/-- A request value the service tests for truthiness and passes to
`parseFloat`: a number, or a string `s` together with the number
`parseFloat(s)`.  The values `undefined` and `null` are `none` in an
`Option JsValue`. -/
inductive JsValue
  | number (n : JsNum)
  | string (s : String) (parsed : JsNum)
  deriving DecidableEq

/-- Truthiness of a request value: a number as `JsNum.truthy`, a string when it
is not empty. -/
def JsValue.truthy : JsValue → Bool
  | .number n => n.truthy
  | .string s _ => s != ""

/-- The call `parseFloat(v)`: a number is converted to a string and read back,
which gives the number itself. -/
def JsValue.parseFloat : JsValue → JsNum
  | .number n => n
  | .string _ parsed => parsed

/-! ## Data model -/

/-- A rental or product key as it arrives in a request: the numeric id or the
public string (uid, slug). -/
inductive Identifier
  | id (n : Nat)
  | text (s : String)
  deriving DecidableEq, Repr

/-- A row of the products table, restricted to the columns the service reads. -/
structure Product where
  id : Nat
  slug : String
  owner_id : Nat
  title : String
  availability_status : String
  admin_approval_status : String
  quantity : Int
  quantity_available : Int
  rental_price_per_day : JsNum
  security_deposit : Option JsNum
  min_rental_duration_days : Option Int
  max_rental_duration_days : Option Int
  deriving DecidableEq

/-- A row of the user addresses table. -/
structure UserAddress where
  id : Nat
  user_id : Nat
  deriving DecidableEq

/-- The product relation embedded in a loaded rental (`rental.product`). -/
structure JoinedProduct where
  id : Nat
  deriving DecidableEq

/-- A rental as `RentalModel.findByIdentifier` and `RentalModel.findById` return
it.  The last field is the property `status` of the row, which
`ReviewService.createReview` reads; no payload of `RentalService` has that key,
so the property is `undefined` (`none`) unless the row carries it for another
reason. -/
structure Rental where
  id : Nat
  rental_uid : String
  renter_id : Nat
  product_id : Option Nat
  owner_id : Nat
  start_date : Int
  end_date : Int
  rental_price_per_day_at_booking : JsNum
  security_deposit_at_booking : JsNum
  calculated_subtotal_rental_fee : JsNum
  delivery_fee : JsNum
  platform_fee_renter : JsNum
  platform_fee_owner : JsNum
  total_amount_due : JsNum
  pickup_method : String
  return_method : String
  delivery_address_id : Option Nat
  rental_status : String
  payment_status : String
  notes_from_renter : Option String
  return_condition_status : String
  cancellation_reason : Option String
  cancelled_at : Option String
  cancelled_by_user_id : Option Nat
  payment_proof_url : Option String
  final_amount_paid : Option JsNum
  actual_return_time : Option String
  notes_from_owner_on_return : Option String
  updated_at : Option String
  return_condition_image_urls : Option (List String)
  payment_verified_at : Option String
  payment_verified_by_user_id : Option Nat
  product : Option JoinedProduct
  status : Option String
  deriving DecidableEq

/-- The object literal handed to `RentalModel.create` and `RentalModel.update`:
a field is `some v` when the literal has that key with a value `v`, and `none`
when the key is absent (or its value is `null` or `undefined`). -/
structure RentalFields where
  renter_id : Option Nat := none
  product_id : Option Nat := none
  owner_id : Option Nat := none
  start_date : Option Int := none
  end_date : Option Int := none
  rental_price_per_day_at_booking : Option JsNum := none
  security_deposit_at_booking : Option JsNum := none
  calculated_subtotal_rental_fee : Option JsNum := none
  delivery_fee : Option JsNum := none
  platform_fee_renter : Option JsNum := none
  platform_fee_owner : Option JsNum := none
  total_amount_due : Option JsNum := none
  pickup_method : Option String := none
  return_method : Option String := none
  delivery_address_id : Option Nat := none
  rental_status : Option String := none
  payment_status : Option String := none
  notes_from_renter : Option String := none
  return_condition_status : Option String := none
  cancellation_reason : Option String := none
  cancelled_at : Option String := none
  cancelled_by_user_id : Option Nat := none
  payment_proof_url : Option String := none
  final_amount_paid : Option JsNum := none
  actual_return_time : Option String := none
  notes_from_owner_on_return : Option String := none
  updated_at : Option String := none
  return_condition_image_urls : Option (List String) := none
  payment_verified_at : Option String := none
  payment_verified_by_user_id : Option Nat := none
  deriving DecidableEq

/-- The persisted audit record `(rental_id, new_status, old_status,
actor_user_id, note)`. -/
structure StatusHistoryEntry where
  rental_id : Nat
  new_status : String
  actor_user_id : Nat
  note : String
  old_status : Option String
  deriving DecidableEq

/-- The argument of `NotificationService.createNotification`. -/
structure Notification where
  user_id : Nat
  type : String
  title : String
  message : String
  link_url : String
  related_entity_type : String
  related_entity_id : Nat
  related_entity_uid : String
  deriving DecidableEq

/-- The argument of `PaymentTransactionModel.create`. -/
structure PaymentTransaction where
  rental_id : Nat
  user_id : Nat
  transaction_type : String
  amount : JsNum
  currency : String
  status : String
  payment_method_name : String
  details_transaction_time : String
  details_proof_url : String
  transaction_time : String
  deriving DecidableEq

/-- An uploaded file object (multer), restricted to the field the service reads. -/
structure UploadedFile where
  originalname : String
  deriving DecidableEq

/-- One call issued to a writing collaborator. -/
inductive Effect
  | rentalCreate (payload : RentalFields)
  | rentalUpdate (id : Nat) (fields : RentalFields)
  | statusHistory (entry : StatusHistoryEntry)
  | quantityAdjust (product_id : Nat) (delta : Int)
  | notification (n : Notification)
  | upload (bucket : String) (path : String)
  | paymentTransaction (t : PaymentTransaction)
  deriving DecidableEq

/-- The three system settings the service reads, each as the number
`parseFloat(setting.setting_value)` yields (`NaN` when the value does not
parse); a setting that is not stored takes the default `'0'` passed to
`getSetting`, i.e. `0`. -/
structure Settings where
  default_delivery_fee : JsNum
  platform_fee_renter_percentage : JsNum
  platform_fee_owner_percentage : JsNum
  deriving DecidableEq

/-- The state the service runs against. -/
structure World where
  rentals : List Rental
  products : List Product
  addresses : List UserAddress
  settings : Settings
  trace : List Effect
  deriving DecidableEq

/-- How the writing collaborators answer during one call of the service. -/
structure Outcomes where
  rentalCreateOk : Bool
  generatedId : Nat
  generatedUid : String
  embedsProduct : Bool
  rentalUpdateOk : Bool
  historyOk : Bool
  notifyOk : Bool
  quantityOk : Bool
  paymentTransactionOk : Bool
  upload : UploadedFile → Option (Option String)
  nowMillis : Nat
  nowIso : String

/-- Record a call in the trace. -/
def World.emit (w : World) (e : Effect) : World :=
  { w with trace := w.trace ++ [e] }

/-- The calls issued between the world `w` and a later world `w'`. -/
def issued (w w' : World) : List Effect :=
  w'.trace.drop w.trace.length

/-! ## JavaScript truthiness -/

/-- Truthiness of a numeric id that may be `null`: `null`, `undefined` and `0`
are falsy. -/
def truthyId : Option Nat → Bool
  | some n => n != 0
  | none => false

/-- Truthiness of a string that may be `undefined`: the empty string is falsy. -/
def truthyStr : Option String → Bool
  | some s => s != ""
  | none => false

/-- Truthiness of an integer that may be `null`. -/
def truthyInt : Option Int → Bool
  | some n => n != 0
  | none => false

/-- Truthiness of a number that may be `null` or `undefined`: these, `0` and
`NaN` are falsy. -/
def truthyNum : Option JsNum → Bool
  | some x => x.truthy
  | none => false

/-- The expression `x || 0` on a number that may be `null`. -/
def orZero (x : Option JsNum) : JsNum :=
  if truthyNum x then x.getD 0 else 0

/-- Truthiness of a request value that may be `undefined` or `null`. -/
def truthyValue : Option JsValue → Bool
  | some v => v.truthy
  | none => false

/-- The expression `x || 1` on an integer that may be `null`. -/
def orOne (x : Option Int) : Int :=
  if truthyInt x then x.getD 1 else 1

/-! ## Collaborators -/

/-- The row a field literal produces when it is written over `r`. -/
def RentalFields.applyTo (f : RentalFields) (r : Rental) : Rental where
  id := r.id
  rental_uid := r.rental_uid
  renter_id := f.renter_id.getD r.renter_id
  product_id := f.product_id.or r.product_id
  owner_id := f.owner_id.getD r.owner_id
  start_date := f.start_date.getD r.start_date
  end_date := f.end_date.getD r.end_date
  rental_price_per_day_at_booking :=
    f.rental_price_per_day_at_booking.getD r.rental_price_per_day_at_booking
  security_deposit_at_booking := f.security_deposit_at_booking.getD r.security_deposit_at_booking
  calculated_subtotal_rental_fee :=
    f.calculated_subtotal_rental_fee.getD r.calculated_subtotal_rental_fee
  delivery_fee := f.delivery_fee.getD r.delivery_fee
  platform_fee_renter := f.platform_fee_renter.getD r.platform_fee_renter
  platform_fee_owner := f.platform_fee_owner.getD r.platform_fee_owner
  total_amount_due := f.total_amount_due.getD r.total_amount_due
  pickup_method := f.pickup_method.getD r.pickup_method
  return_method := f.return_method.getD r.return_method
  delivery_address_id := f.delivery_address_id.or r.delivery_address_id
  rental_status := f.rental_status.getD r.rental_status
  payment_status := f.payment_status.getD r.payment_status
  notes_from_renter := f.notes_from_renter.or r.notes_from_renter
  return_condition_status := f.return_condition_status.getD r.return_condition_status
  cancellation_reason := f.cancellation_reason.or r.cancellation_reason
  cancelled_at := f.cancelled_at.or r.cancelled_at
  cancelled_by_user_id := f.cancelled_by_user_id.or r.cancelled_by_user_id
  payment_proof_url := f.payment_proof_url.or r.payment_proof_url
  final_amount_paid := f.final_amount_paid.or r.final_amount_paid
  actual_return_time := f.actual_return_time.or r.actual_return_time
  notes_from_owner_on_return := f.notes_from_owner_on_return.or r.notes_from_owner_on_return
  updated_at := f.updated_at.or r.updated_at
  return_condition_image_urls := f.return_condition_image_urls.or r.return_condition_image_urls
  payment_verified_at := f.payment_verified_at.or r.payment_verified_at
  payment_verified_by_user_id := f.payment_verified_by_user_id.or r.payment_verified_by_user_id
  product := r.product
  status := r.status

/-- The empty row a newly created rental starts from, before the creation
payload is written over it. -/
def Rental.blank (id : Nat) (rental_uid : String) (product : Option JoinedProduct) : Rental where
  id := id
  rental_uid := rental_uid
  renter_id := 0
  product_id := none
  owner_id := 0
  start_date := 0
  end_date := 0
  rental_price_per_day_at_booking := 0
  security_deposit_at_booking := 0
  calculated_subtotal_rental_fee := 0
  delivery_fee := 0
  platform_fee_renter := 0
  platform_fee_owner := 0
  total_amount_due := 0
  pickup_method := ""
  return_method := ""
  delivery_address_id := none
  rental_status := ""
  payment_status := ""
  notes_from_renter := none
  return_condition_status := ""
  cancellation_reason := none
  cancelled_at := none
  cancelled_by_user_id := none
  payment_proof_url := none
  final_amount_paid := none
  actual_return_time := none
  notes_from_owner_on_return := none
  updated_at := none
  return_condition_image_urls := none
  payment_verified_at := none
  payment_verified_by_user_id := none
  product := product
  status := none

/-- Modelled from the spec: `RentalModel.findByIdentifier`
(`src/models/rental.model.js` is not among the sources).  The spec gives a
rental "an internal numeric id and a public opaque identifier (`rental_uid`),
either usable for lookup", and `findByIdentifier(idOrUid)` yields the "rental or
not-found". -/
def RentalModel.findByIdentifier (w : World) : Identifier → Option Rental
  | .id n => w.rentals.find? (fun r => decide (r.id = n))
  | .text s => w.rentals.find? (fun r => decide (r.rental_uid = s))

/-- Modelled from the spec: `RentalModel.update` (`src/models/rental.model.js`
is not among the sources): "update(id, partialFields) → updated rental".  The
call is recorded; when it resolves, the fields are written over the stored row
with that id and the updated row is returned. -/
def RentalModel.update (o : Outcomes) (w : World) (id : Nat) (fields : RentalFields) :
    Except Thrown Rental × World :=
  let w1 := w.emit (.rentalUpdate id fields)
  if o.rentalUpdateOk then
    match w.rentals.find? (fun r => decide (r.id = id)) with
    | some r =>
      (.ok (fields.applyTo r),
        { w1 with rentals := w.rentals.map (fun x => if x.id = id then fields.applyTo x else x) })
    | none => (.error (.rejected .RentalModel), w1)
  else (.error (.rejected .RentalModel), w1)

/-- Modelled from the spec: `RentalModel.create` (`src/models/rental.model.js`
is not among the sources): "create(payload) → persisted rental with generated
id/uid"; by the source comment at the call site it "will also log status
history" (the audit entry "created"). -/
def RentalModel.create (o : Outcomes) (w : World) (renterId : Nat) (payload : RentalFields) :
    Except Thrown Rental × World :=
  let w1 := w.emit (.rentalCreate payload)
  if o.rentalCreateOk then
    let row := payload.applyTo (Rental.blank o.generatedId o.generatedUid
      (if o.embedsProduct then payload.product_id.map JoinedProduct.mk else none))
    let w2 : World := { w1 with rentals := w1.rentals ++ [row] }
    (.ok row, w2.emit (.statusHistory
      { rental_id := row.id, new_status := row.rental_status, actor_user_id := renterId,
        note := "created", old_status := none }))
  else (.error (.rejected .RentalModel), w1)

/-- Modelled from the spec: `RentalStatusHistoryModel.create(rental_id,
new_status, actor, note, old_status)` (`src/models/rentalStatusHistory.model.js`
is not among the sources) appends one audit record of the shape
`(rental_id, new_status, old_status, actor_user_id, note, created_at)`. -/
def RentalStatusHistoryModel.create (o : Outcomes) (w : World) (rental_id : Nat)
    (new_status : String) (actor_user_id : Nat) (note : String) (old_status : String) :
    Except Thrown Unit × World :=
  let w1 := w.emit (.statusHistory
    { rental_id := rental_id, new_status := new_status, actor_user_id := actor_user_id,
      note := note, old_status := some old_status })
  if o.historyOk then (.ok (), w1) else (.error (.rejected .RentalStatusHistoryModel), w1)

/-- Modelled from the spec: `NotificationService.createNotification`
(`src/services/notification.service.js` is not among the sources): one delivery
attempt per call, which resolves or rejects. -/
def NotificationService.createNotification (o : Outcomes) (w : World) (n : Notification) :
    Except Thrown Unit × World :=
  let w1 := w.emit (.notification n)
  if o.notifyOk then (.ok (), w1) else (.error (.rejected .NotificationService), w1)

/-- Modelled from the spec: `ProductModel.findByIdOrSlug`
(`src/models/product.model.js` is not among the sources): the product with that
id or slug, or `null`. -/
def ProductModel.findByIdOrSlug (w : World) : Identifier → Option Product
  | .id n => w.products.find? (fun p => decide (p.id = n))
  | .text s => w.products.find? (fun p => decide (p.slug = s))

/-- Modelled from the spec: `ProductModel.updateQuantityAvailable(productId,
delta)` (`src/models/product.model.js` is not among the sources):
"adjustAvailableQuantity(productId, delta) where delta ∈ {+1, −1}; must not
drive quantity negative". -/
def ProductModel.updateQuantityAvailable (o : Outcomes) (w : World) (productId : Nat)
    (delta : Int) : Except Thrown Unit × World :=
  let w1 := w.emit (.quantityAdjust productId delta)
  if o.quantityOk then
    match w.products.find? (fun p => decide (p.id = productId)) with
    | some p =>
      if 0 ≤ p.quantity_available + delta then
        (.ok (), { w1 with products := w.products.map (fun x =>
          if x.id = productId then { x with quantity_available := x.quantity_available + delta }
          else x) })
      else (.error (.rejected .ProductModel), w1)
    | none => (.error (.rejected .ProductModel), w1)
  else (.error (.rejected .ProductModel), w1)

/-- Modelled from the spec: `UserAddressModel.findByIdAndUserId`
(`src/models/userAddress.model.js` is not among the sources): the address with
that id when it is "owned by renter", else `null`. -/
def UserAddressModel.findByIdAndUserId (w : World) (addressId userId : Nat) :
    Option UserAddress :=
  w.addresses.find? (fun a => decide (a.id = addressId ∧ a.user_id = userId))

/-- Modelled from the spec: `FileService.uploadFileToSupabaseStorage`
(`src/services/file.service.js` is not among the sources): the upload either
rejects or resolves to an object whose `publicUrl` may be missing. -/
def FileService.uploadFileToSupabaseStorage (o : Outcomes) (w : World) (file : UploadedFile)
    (bucket path : String) : Except Thrown (Option String) × World :=
  let w1 := w.emit (.upload bucket path)
  match o.upload file with
  | some publicUrl => (.ok publicUrl, w1)
  | none => (.error (.rejected .FileService), w1)

/-- Modelled from the spec: `PaymentTransactionModel.create`
(`src/models/payment_transaction.model.js` is not among the sources) stores "a
payment-transaction record". -/
def PaymentTransactionModel.create (o : Outcomes) (w : World) (t : PaymentTransaction) :
    Except Thrown Unit × World :=
  let w1 := w.emit (.paymentTransaction t)
  if o.paymentTransactionOk then (.ok (), w1)
  else (.error (.rejected .PaymentTransactionModel), w1)

/-! ## Request payloads -/

/-- The validated body of a rental request. -/
structure RentalRequestData where
  product_id : Identifier
  start_date : Int
  end_date : Int
  pickup_method : String
  delivery_address_id : Option Nat
  notes_from_renter : Option String

/-- The validated body sent along with a payment proof. -/
structure PaymentDetails where
  amount_paid : Option JsValue
  transaction_time : Option String

/-- The validated body of a return. -/
structure ReturnData where
  actual_return_time : Option String
  return_condition_status : String
  notes_from_owner_on_return : Option String
  initiate_claim : Bool

/-! ## RentalService -/

namespace RentalService

/-- The notification object every operation builds: the recipient, type, title
and message vary, the link and the related entity are those of the rental. -/
def rentalNotification (rental : Rental) (user_id : Nat) (type title message : String) :
    Notification where
  user_id := user_id
  type := type
  title := title
  message := message
  link_url := "/rentals/" ++ toString rental.id
  related_entity_type := "rental"
  related_entity_id := rental.id
  related_entity_uid := rental.rental_uid

/-- The text a product id takes inside a template literal. -/
def showId : Option Nat → String
  | some n => toString n
  | none => "null"

/-- Source lines 27-29: `new Date(start_date)`, `new Date(end_date)` and
`Math.ceil((endDateObj - startDateObj) / (1000 * 60 * 60 * 24)) + 1`; the
constant `1000 * 60 * 60 * 24` is `86400000` exactly. -/
def rentalDurationDays (start_date end_date : Int) : JsNum :=
  JsNum.add
    (JsNum.ceil
      (JsNum.div (JsNum.sub (Date.timeValue end_date) (Date.timeValue start_date)) 86400000))
    1

/-- Source lines 38-48: the delivery address that is stored with the rental. -/
def validDeliveryAddressId (w : World) (renterId : Nat) (d : RentalRequestData) :
    Except Thrown (Option Nat) :=
  if d.pickup_method = "delivery" then
    if truthyId d.delivery_address_id = false then
      .error (.apiError .BAD_REQUEST .deliveryAddressRequired)
    else
      match UserAddressModel.findByIdAndUserId w (d.delivery_address_id.getD 0) renterId with
      | none => .error (.apiError .BAD_REQUEST .invalidDeliveryAddress)
      | some address => .ok (some address.id)
  else .ok none

/-- Source line 50: `product.rental_price_per_day * rentalDurationDays`. -/
def subtotalRentalFee (product : Product) (days : JsNum) : JsNum :=
  JsNum.mul product.rental_price_per_day days

/-- Source lines 51-55: the delivery fee. -/
def deliveryFee (s : Settings) (pickup_method : String) : JsNum :=
  if pickup_method = "delivery" then s.default_delivery_fee.orZero else 0

/-- Source lines 58 and 64: `parseFloat(setting.setting_value) / 100 || 0`. -/
def platformFeePercent (setting : JsNum) : JsNum :=
  (JsNum.div setting 100).orZero

/-- Source lines 56-67: a platform fee, `0` unless the percentage is positive. -/
def platformFee (subtotal : JsNum) (setting : JsNum) : JsNum :=
  if platformFeePercent setting > 0 then JsNum.mul subtotal (platformFeePercent setting) else 0

/-- Source line 72: `const requiresOwnerApproval = true; // Default for now`. -/
def requiresOwnerApproval : Bool := true

/-- Source lines 76-87: the payload handed to `RentalModel.create`. -/
def rentalPayload (w : World) (renterId : Nat) (d : RentalRequestData) (product : Product)
    (validDeliveryAddressId : Option Nat) : RentalFields :=
  let days := rentalDurationDays d.start_date d.end_date
  let subtotal := subtotalRentalFee product days
  let delivery := deliveryFee w.settings d.pickup_method
  let platformFeeRenter := platformFee subtotal w.settings.platform_fee_renter_percentage
  let platformFeeOwner := platformFee subtotal w.settings.platform_fee_owner_percentage
  let securityDeposit := orZero product.security_deposit
  let totalAmountDue :=
    JsNum.add (JsNum.add (JsNum.add subtotal securityDeposit) delivery) platformFeeRenter
  { renter_id := some renterId
    product_id := some product.id
    owner_id := some product.owner_id
    start_date := some d.start_date
    end_date := some d.end_date
    rental_price_per_day_at_booking := some product.rental_price_per_day
    security_deposit_at_booking := some securityDeposit
    calculated_subtotal_rental_fee := some subtotal
    delivery_fee := some delivery
    platform_fee_renter := some platformFeeRenter
    platform_fee_owner := some platformFeeOwner
    total_amount_due := some totalAmountDue
    pickup_method := some d.pickup_method
    return_method := some (if d.pickup_method = "delivery" then "owner_pickup" else "self_return")
    delivery_address_id := validDeliveryAddressId
    rental_status :=
      some (if requiresOwnerApproval then "pending_owner_approval" else "pending_payment")
    payment_status := some "unpaid"
    notes_from_renter := d.notes_from_renter
    return_condition_status := some "not_yet_returned" }

/-- Source lines 13-89. -/
def createRentalRequest (o : Outcomes) (w : World) (renterId : Nat) (d : RentalRequestData) :
    Except Thrown Rental × World :=
  match ProductModel.findByIdOrSlug w d.product_id with
  | none => (.error (.apiError .BAD_REQUEST .productNotAvailable), w)
  | some product =>
    if product.availability_status ≠ "available" ∨ product.admin_approval_status ≠ "approved" then
      (.error (.apiError .BAD_REQUEST .productNotAvailable), w)
    else if product.owner_id = renterId then
      (.error (.apiError .BAD_REQUEST .cannotRentOwnProduct), w)
    else if product.quantity_available < 1 ∧ product.quantity > 0 then
      (.error (.apiError .BAD_REQUEST .outOfStock), w)
    else if rentalDurationDays d.start_date d.end_date <
        JsNum.ofInt (orOne product.min_rental_duration_days) then
      (.error (.apiError .BAD_REQUEST
        (.minimumDuration (orOne product.min_rental_duration_days))), w)
    else if truthyInt product.max_rental_duration_days = true ∧
        rentalDurationDays d.start_date d.end_date >
          JsNum.ofInt (product.max_rental_duration_days.getD 0) then
      (.error (.apiError .BAD_REQUEST
        (.maximumDuration (product.max_rental_duration_days.getD 0))), w)
    else
      match validDeliveryAddressId w renterId d with
      | .error e => (.error e, w)
      | .ok addressId => RentalModel.create o w renterId (rentalPayload w renterId d product addressId)

/-- Source lines 91-122. -/
def approveRentalRequest (o : Outcomes) (w : World) (rentalIdOrUid : Identifier)
    (ownerId : Nat) : Except Thrown Rental × World :=
  match RentalModel.findByIdentifier w rentalIdOrUid with
  | none => (.error (.apiError .NOT_FOUND .rentalRequestNotFound), w)
  | some rental =>
    if rental.owner_id ≠ ownerId then
      (.error (.apiError .FORBIDDEN .notAuthorizedToApprove), w)
    else if rental.rental_status ≠ "pending_owner_approval" then
      (.error (.apiError .BAD_REQUEST (.notPendingOwnerApproval rental.rental_status)), w)
    else
      match rental.product_id.bind (fun pid => ProductModel.findByIdOrSlug w (.id pid)) with
      | none => (.error .typeError, w)
      | some product =>
        if product.quantity_available < 1 ∧ product.quantity > 0 then
          (.error (.apiError .BAD_REQUEST .productBecameUnavailable), w)
        else
          match RentalModel.update o w rental.id { rental_status := some "pending_payment" } with
          | (.error e, w1) => (.error e, w1)
          | (.ok updatedRental, w1) =>
            match RentalStatusHistoryModel.create o w1 rental.id "pending_payment" ownerId
                "Rental approved by owner." rental.rental_status with
            | (.error e, w2) => (.error e, w2)
            | (.ok _, w2) =>
              match NotificationService.createNotification o w2
                  (rentalNotification rental rental.renter_id "rental_approved"
                    "คำขอเช่าของคุณได้รับการอนุมัติ"
                    ("คำขอเช่าสินค้า " ++ product.title ++ " ได้รับการอนุมัติ")) with
              | (.error e, w3) => (.error e, w3)
              | (.ok _, w3) => (.ok updatedRental, w3)

/-- Source lines 124-156. -/
def rejectRentalRequest (o : Outcomes) (w : World) (rentalIdOrUid : Identifier)
    (ownerId : Nat) (reason : String) : Except Thrown Rental × World :=
  match RentalModel.findByIdentifier w rentalIdOrUid with
  | none => (.error (.apiError .NOT_FOUND .rentalNotFound), w)
  | some rental =>
    if rental.owner_id ≠ ownerId then
      (.error (.apiError .FORBIDDEN .notAuthorizedToReject), w)
    else if rental.rental_status ≠ "pending_owner_approval" then
      (.error (.apiError .BAD_REQUEST (.notPendingOwnerApproval rental.rental_status)), w)
    else
      match RentalModel.update o w rental.id
          { rental_status := some "rejected_by_owner"
            cancellation_reason := some reason
            cancelled_at := some o.nowIso
            cancelled_by_user_id := some ownerId } with
      | (.error e, w1) => (.error e, w1)
      | (.ok updatedRental, w1) =>
        match RentalStatusHistoryModel.create o w1 rental.id "rejected_by_owner" ownerId
            ("Rejected: " ++ reason) rental.rental_status with
        | (.error e, w2) => (.error e, w2)
        | (.ok _, w2) =>
          match NotificationService.createNotification o w2
              (rentalNotification rental rental.renter_id "rental_rejected"
                "คำขอเช่าของคุณถูกปฏิเสธ"
                ("คำขอเช่าสินค้า " ++ showId rental.product_id ++ " ถูกปฏิเสธ: " ++ reason)) with
          | (.error e, w3) => (.error e, w3)
          | (.ok _, w3) => (.ok updatedRental, w3)

/-- The call `parseFloat(x)` on a request value that passed a truthiness test. -/
def parseFloat : Option JsValue → JsNum
  | some v => v.parseFloat
  | none => .nan

/-- Source line 182: the amount recorded with a payment proof,
`paymentDetails.amount_paid ? parseFloat(paymentDetails.amount_paid) :
rental.total_amount_due`. -/
def amountPaid (paymentDetails : PaymentDetails) (rental : Rental) : JsNum :=
  if truthyValue paymentDetails.amount_paid then parseFloat paymentDetails.amount_paid
  else rental.total_amount_due

/-- Source lines 158-217. -/
def submitPaymentProof (o : Outcomes) (w : World) (rentalIdOrUid : Identifier)
    (renterId : Nat) (fileObject : Option UploadedFile) (paymentDetails : PaymentDetails) :
    Except Thrown Rental × World :=
  match RentalModel.findByIdentifier w rentalIdOrUid with
  | none => (.error (.apiError .NOT_FOUND .rentalNotFound), w)
  | some rental =>
    if rental.renter_id ≠ renterId then
      (.error (.apiError .FORBIDDEN .notAuthorizedForRental), w)
    else if rental.rental_status ≠ "pending_payment" then
      (.error (.apiError .BAD_REQUEST (.notPendingPayment rental.rental_status)), w)
    else
      match fileObject with
      | none => (.error (.apiError .BAD_REQUEST .paymentProofRequired), w)
      | some file =>
        let fileName := "rental-" ++ toString rental.id ++ "-proof-" ++ toString o.nowMillis
          ++ "." ++ (file.originalname.splitOn ".").getLastD ""
        let filePath := "public/" ++ fileName
        match FileService.uploadFileToSupabaseStorage o w file "payment-proofs" filePath with
        | (.error e, w1) => (.error e, w1)
        | (.ok proofUrl, w1) =>
          if truthyStr proofUrl = false then
            (.error (.apiError .INTERNAL_SERVER_ERROR .failedToUploadProof), w1)
          else
            match RentalModel.update o w1 rental.id
                { payment_proof_url := proofUrl
                  rental_status := some "confirmed"
                  payment_status := some "pending_verification"
                  final_amount_paid := some (amountPaid paymentDetails rental) } with
            | (.error e, w2) => (.error e, w2)
            | (.ok updatedRental, w2) =>
              match RentalStatusHistoryModel.create o w2 rental.id "confirmed" renterId
                  "Payment proof submitted." rental.rental_status with
              | (.error e, w3) => (.error e, w3)
              | (.ok _, w3) =>
                match PaymentTransactionModel.create o w3
                    { rental_id := rental.id
                      user_id := renterId
                      transaction_type := "rental_payment"
                      amount := amountPaid paymentDetails rental
                      currency := "THB"
                      status := "pending"
                      payment_method_name := "manual_bank_transfer"
                      details_transaction_time :=
                        if truthyStr paymentDetails.transaction_time
                        then paymentDetails.transaction_time.getD "" else o.nowIso
                      details_proof_url := proofUrl.getD ""
                      transaction_time :=
                        if truthyStr paymentDetails.transaction_time
                        then paymentDetails.transaction_time.getD "" else o.nowIso } with
                | (.error e, w4) => (.error e, w4)
                | (.ok _, w4) => (.ok updatedRental, w4)

/-- Source lines 219-229: the object `checkRentalPaymentStatus` returns. -/
structure PaymentStatusInfo where
  payment_status : String
  rental_status : String
  deriving DecidableEq

/-- Source lines 219-229. -/
def checkRentalPaymentStatus (w : World) (rentalIdOrUid : Identifier) (userId : Nat) :
    Except Thrown PaymentStatusInfo × World :=
  match RentalModel.findByIdentifier w rentalIdOrUid with
  | none => (.error (.apiError .NOT_FOUND .rentalNotFound), w)
  | some rental =>
    if rental.renter_id ≠ userId ∧ rental.owner_id ≠ userId then
      (.error (.apiError .FORBIDDEN .notAuthorizedToViewPaymentStatus), w)
    else
      (.ok { payment_status := rental.payment_status, rental_status := rental.rental_status }, w)

/-- Source line 244. -/
def cancellableStatuses : List String :=
  ["pending_owner_approval", "pending_payment", "confirmed"]

/-- Source lines 259-266: the inventory restoration after a cancellation; a
rejection of the quantity update is caught and logged, never rethrown. -/
def restoreAfterCancel (o : Outcomes) (w : World) (rental : Rental) : World :=
  if rental.rental_status ∈ ["confirmed", "active"] ∧
      truthyId (rental.product.map (fun p => p.id)) = true then
    (ProductModel.updateQuantityAvailable o w ((rental.product.map (fun p => p.id)).getD 0) 1).2
  else w

/-- Source lines 231-280. -/
def cancelRentalByUser (o : Outcomes) (w : World) (rentalIdOrUid : Identifier)
    (userId : Nat) (reason : String) : Except Thrown Rental × World :=
  match RentalModel.findByIdentifier w rentalIdOrUid with
  | none => (.error (.apiError .NOT_FOUND .rentalNotFound), w)
  | some rental =>
    if rental.renter_id ≠ userId then
      (.error (.apiError .FORBIDDEN .notAuthorizedToCancel), w)
    else if rental.rental_status ∉ cancellableStatuses then
      (.error (.apiError .BAD_REQUEST (.cannotBeCancelled rental.rental_status)), w)
    else
      match RentalModel.update o w rental.id
          { rental_status := some "cancelled_by_renter"
            cancellation_reason := some reason
            cancelled_at := some o.nowIso
            cancelled_by_user_id := some userId } with
      | (.error e, w1) => (.error e, w1)
      | (.ok updatedRental, w1) =>
        match RentalStatusHistoryModel.create o w1 rental.id "cancelled_by_renter" userId
            ("Cancelled by renter: " ++ reason) rental.rental_status with
        | (.error e, w2) => (.error e, w2)
        | (.ok _, w2) =>
          match NotificationService.createNotification o (restoreAfterCancel o w2 rental)
              (rentalNotification rental rental.owner_id "rental_cancelled"
                "ผู้เช่ายกเลิกการเช่า"
                ("ผู้เช่ายกเลิกการเช่าสินค้า รหัส " ++ toString rental.id)) with
          | (.error e, w3) => (.error e, w3)
          | (.ok _, w3) => (.ok updatedRental, w3)

/-- Source lines 286-298. -/
def getRentalDetailsForUser (w : World) (rentalIdOrUid : Identifier) (userId : Nat) :
    Except Thrown Rental × World :=
  match RentalModel.findByIdentifier w rentalIdOrUid with
  | none => (.error (.apiError .NOT_FOUND .rentalNotFound), w)
  | some rental =>
    if rental.renter_id ≠ userId ∧ rental.owner_id ≠ userId then
      (.error (.apiError .FORBIDDEN .notAuthorizedToView), w)
    else (.ok rental, w)

/-- Source line 351. -/
def validStatusesForReturn : List String :=
  ["active", "return_pending", "late_return"]

/-- Source lines 365-368. -/
def newRentalStatus (returnData : ReturnData) : String :=
  if returnData.initiate_claim = true ∧
      (returnData.return_condition_status = "damaged" ∨
        returnData.return_condition_status = "lost") then "dispute"
  else "completed"

/-- Source lines 375-379: the upload loop over the return-condition images;
`imageUrls` accumulates the public urls that came back. -/
def uploadReturnImages (o : Outcomes) (rental : Rental) :
    List UploadedFile → World → List String → Except Thrown (List String) × World
  | [], w, imageUrls => (.ok imageUrls, w)
  | file :: rest, w, imageUrls =>
    let fileName := "rental-" ++ toString rental.id ++ "-return-" ++ toString o.nowMillis
      ++ "-" ++ file.originalname
    match FileService.uploadFileToSupabaseStorage o w file "return-condition-images"
        ("public/" ++ fileName) with
    | (.error e, w1) => (.error e, w1)
    | (.ok publicUrl, w1) =>
      uploadReturnImages o rental rest w1
        (if truthyStr publicUrl then imageUrls ++ [publicUrl.getD ""] else imageUrls)

/-- Source lines 372-381: the image urls added to the update payload. -/
def returnConditionImageUrls (o : Outcomes) (w : World) (rental : Rental)
    (imageFiles : List UploadedFile) : Except Thrown (Option (List String)) × World :=
  if imageFiles.length > 0 then
    match uploadReturnImages o rental imageFiles w [] with
    | (.error e, w1) => (.error e, w1)
    | (.ok imageUrls, w1) => (.ok (some imageUrls), w1)
  else (.ok none, w)

/-- Source lines 392-400: the inventory restoration after a completed return; a
rejection of the quantity update is caught and logged, never rethrown. -/
def restoreAfterReturn (o : Outcomes) (w : World) (rental : Rental) (status : String) : World :=
  if status = "completed" then
    if truthyId rental.product_id = true then
      (ProductModel.updateQuantityAvailable o w (rental.product_id.getD 0) 1).2
    else w
  else w

/-- Source lines 343-409. -/
def processReturn (o : Outcomes) (w : World) (rentalIdOrUid : Identifier) (ownerId : Nat)
    (returnData : ReturnData) (imageFiles : List UploadedFile) : Except Thrown Rental × World :=
  match RentalModel.findByIdentifier w rentalIdOrUid with
  | none => (.error (.apiError .NOT_FOUND .rentalNotFound), w)
  | some rental =>
    if rental.owner_id ≠ ownerId then
      (.error (.apiError .FORBIDDEN .notAuthorizedToProcessReturn), w)
    else if rental.rental_status ∉ validStatusesForReturn then
      (.error (.apiError .BAD_REQUEST (.cannotProcessReturn rental.rental_status)), w)
    else
      match returnConditionImageUrls o w rental imageFiles with
      | (.error e, w1) => (.error e, w1)
      | (.ok imageUrls, w1) =>
        match RentalModel.update o w1 rental.id
            { actual_return_time := returnData.actual_return_time
              return_condition_status := some returnData.return_condition_status
              notes_from_owner_on_return := returnData.notes_from_owner_on_return
              updated_at := some o.nowIso
              rental_status := some (newRentalStatus returnData)
              return_condition_image_urls := imageUrls } with
        | (.error e, w2) => (.error e, w2)
        | (.ok updatedRental, w2) =>
          match RentalStatusHistoryModel.create o w2 rental.id (newRentalStatus returnData)
              ownerId
              ("Return processed. Condition: " ++ returnData.return_condition_status
                ++ ". Notes: "
                ++ (if truthyStr returnData.notes_from_owner_on_return
                    then returnData.notes_from_owner_on_return.getD "" else ""))
              rental.rental_status with
          | (.error e, w3) => (.error e, w3)
          | (.ok _, w3) =>
            (.ok updatedRental, restoreAfterReturn o w3 rental (newRentalStatus returnData))

/-- Source line 426: the amount recorded when the owner verifies a payment,
`amount_paid ? parseFloat(amount_paid) : rental.final_amount_paid ||
rental.total_amount_due`. -/
def verifiedAmount (amount_paid : Option JsValue) (rental : Rental) : JsNum :=
  if truthyValue amount_paid then parseFloat amount_paid
  else if truthyNum rental.final_amount_paid then rental.final_amount_paid.getD 0
  else rental.total_amount_due

/-- Source lines 411-450. -/
def verifyRentalPaymentByOwner (o : Outcomes) (w : World) (rentalIdOrUid : Identifier)
    (ownerId : Nat) (amount_paid : Option JsValue) : Except Thrown Rental × World :=
  match RentalModel.findByIdentifier w rentalIdOrUid with
  | none => (.error (.apiError .NOT_FOUND .rentalNotFound), w)
  | some rental =>
    if rental.owner_id ≠ ownerId then
      (.error (.apiError .FORBIDDEN .notAuthorizedToVerifyPayment), w)
    else if rental.payment_status ≠ "pending_verification" then
      (.error (.apiError .BAD_REQUEST
        (.paymentNotPendingVerification rental.payment_status)), w)
    else
      let rental_status :=
        if rental.rental_status = "confirmed" then "active" else rental.rental_status
      match RentalModel.update o w rental.id
          { payment_status := some "paid"
            rental_status := some rental_status
            final_amount_paid := some (verifiedAmount amount_paid rental)
            payment_verified_at := some o.nowIso
            payment_verified_by_user_id := some ownerId } with
      | (.error e, w1) => (.error e, w1)
      | (.ok updatedRental, w1) =>
        match RentalStatusHistoryModel.create o w1 rental.id rental_status ownerId
            "Payment verified by owner." rental.rental_status with
        | (.error e, w2) => (.error e, w2)
        | (.ok _, w2) =>
          match NotificationService.createNotification o w2
              (rentalNotification rental rental.renter_id "payment_verified"
                "ชำระเงินสำเร็จ" "เจ้าของได้ยืนยันการชำระเงินของคุณแล้ว") with
          | (.error e, w3) => (.error e, w3)
          | (.ok _, w3) => (.ok updatedRental, w3)

end RentalService

/-! ## Lifecycle operations as one family -/

/-- A call of one of the six lifecycle operations on a rental, without the
rental identifier. -/
inductive Op
  | approveRentalRequest (ownerId : Nat)
  | rejectRentalRequest (ownerId : Nat) (reason : String)
  | submitPaymentProof (renterId : Nat) (fileObject : Option UploadedFile)
      (paymentDetails : PaymentDetails)
  | verifyRentalPaymentByOwner (ownerId : Nat) (amount_paid : Option JsValue)
  | cancelRentalByUser (userId : Nat) (reason : String)
  | processReturn (ownerId : Nat) (returnData : ReturnData) (imageFiles : List UploadedFile)

/-- Run a lifecycle operation on the rental with identifier `k`. -/
def Op.run (o : Outcomes) (w : World) (k : Identifier) : Op → Except Thrown Rental × World
  | .approveRentalRequest ownerId => RentalService.approveRentalRequest o w k ownerId
  | .rejectRentalRequest ownerId reason => RentalService.rejectRentalRequest o w k ownerId reason
  | .submitPaymentProof renterId fileObject paymentDetails =>
    RentalService.submitPaymentProof o w k renterId fileObject paymentDetails
  | .verifyRentalPaymentByOwner ownerId amount_paid =>
    RentalService.verifyRentalPaymentByOwner o w k ownerId amount_paid
  | .cancelRentalByUser userId reason => RentalService.cancelRentalByUser o w k userId reason
  | .processReturn ownerId returnData imageFiles =>
    RentalService.processReturn o w k ownerId returnData imageFiles

/-- The id of the user on whose behalf the operation is called. -/
def Op.actor : Op → Nat
  | .approveRentalRequest ownerId => ownerId
  | .rejectRentalRequest ownerId _ => ownerId
  | .submitPaymentProof renterId _ _ => renterId
  | .verifyRentalPaymentByOwner ownerId _ => ownerId
  | .cancelRentalByUser userId _ => userId
  | .processReturn ownerId _ _ => ownerId

/-! ## Observations on a trace -/

/-- The `rental_status` values written by the `RentalModel.update` calls of a trace. -/
def statusWrites (es : List Effect) : List String :=
  es.filterMap (fun e => match e with
    | .rentalUpdate _ f => f.rental_status
    | _ => none)

/-- The `RentalModel.update` calls of a trace. -/
def rentalUpdates (es : List Effect) : List (Nat × RentalFields) :=
  es.filterMap (fun e => match e with
    | .rentalUpdate id f => some (id, f)
    | _ => none)

/-- The audit entries written by a trace. -/
def historyEntries (es : List Effect) : List StatusHistoryEntry :=
  es.filterMap (fun e => match e with
    | .statusHistory entry => some entry
    | _ => none)

/-- The inventory adjustments attempted by a trace. -/
def quantityAdjustments (es : List Effect) : List (Nat × Int) :=
  es.filterMap (fun e => match e with
    | .quantityAdjust product_id delta => some (product_id, delta)
    | _ => none)

/-- The notifications dispatched by a trace. -/
def notifications (es : List Effect) : List Notification :=
  es.filterMap (fun e => match e with
    | .notification n => some n
    | _ => none)

/-- The number of inventory restorations (`+1`) attempted by a trace. -/
def restorations (es : List Effect) : Nat :=
  ((quantityAdjustments es).filter (fun a => decide (a.2 = 1))).length

/-- The number of inventory reservations (`-1`) attempted by a trace. -/
def reservations (es : List Effect) : Nat :=
  ((quantityAdjustments es).filter (fun a => decide (a.2 = -1))).length

/-! ## Guard-and-commit normal form

Every lifecycle operation checks its guards and then issues the same sequence
of calls: the uploads (if any), the rental update, the audit entry, and the
calls that follow the audit entry.  A `Plan` records what an operation is
going to do; the theorems `*_follows` below prove that the result, the calls
issued and the stored rentals of a run are those of its plan. -/

/-- What a lifecycle operation does once its guards have passed. -/
structure Commit where
  pre : List Effect
  id : Nat
  fields : RentalFields
  entry : StatusHistoryEntry
  post : List Effect
  postError : Option Thrown

/-- The normal form of a run: a failure before the rental update (after the
calls `pre`), or a commit. -/
inductive Plan
  | fail (pre : List Effect) (e : Thrown)
  | commit (c : Commit)

/-- The result of a plan on the stored row `r`. -/
def Plan.result (o : Outcomes) (r : Rental) : Plan → Except Thrown Rental
  | .fail _ e => .error e
  | .commit c =>
    if o.rentalUpdateOk then
      if o.historyOk then
        match c.postError with
        | some e => .error e
        | none => .ok (c.fields.applyTo r)
      else .error (.rejected .RentalStatusHistoryModel)
    else .error (.rejected .RentalModel)

/-- The calls a plan issues. -/
def Plan.effects (o : Outcomes) : Plan → List Effect
  | .fail pre _ => pre
  | .commit c =>
    c.pre ++ .rentalUpdate c.id c.fields ::
      (if o.rentalUpdateOk then
        .statusHistory c.entry :: (if o.historyOk then c.post else [])
      else [])

/-- The stored rentals after a plan. -/
def Plan.rentals (o : Outcomes) (w : World) : Plan → List Rental
  | .fail _ _ => w.rentals
  | .commit c =>
    if o.rentalUpdateOk then
      w.rentals.map (fun x => if x.id = c.id then c.fields.applyTo x else x)
    else w.rentals

/-- A run follows a plan when its result, the calls it issued and the rentals
it leaves are those of the plan. -/
def Follows (o : Outcomes) (w : World) (r : Rental) (res : Except Thrown Rental × World)
    (p : Plan) : Prop :=
  res.1 = p.result o r ∧ issued w res.2 = p.effects o ∧ res.2.rentals = p.rentals o w

/-- The rejection of the notification dispatch, if it rejects. -/
def notifyError (o : Outcomes) : Option Thrown :=
  if o.notifyOk then none else some (.rejected .NotificationService)

/-- Normal form of `approveRentalRequest` on a loaded rental. -/
def approvePlan (o : Outcomes) (w : World) (rental : Rental) (ownerId : Nat) : Plan :=
  if rental.owner_id ≠ ownerId then .fail [] (.apiError .FORBIDDEN .notAuthorizedToApprove)
  else if rental.rental_status ≠ "pending_owner_approval" then
    .fail [] (.apiError .BAD_REQUEST (.notPendingOwnerApproval rental.rental_status))
  else
    match rental.product_id.bind (fun pid => ProductModel.findByIdOrSlug w (.id pid)) with
    | none => .fail [] .typeError
    | some product =>
      if product.quantity_available < 1 ∧ product.quantity > 0 then
        .fail [] (.apiError .BAD_REQUEST .productBecameUnavailable)
      else
        .commit
          { pre := []
            id := rental.id
            fields := { rental_status := some "pending_payment" }
            entry :=
              { rental_id := rental.id, new_status := "pending_payment",
                actor_user_id := ownerId, note := "Rental approved by owner.",
                old_status := some rental.rental_status }
            post := [.notification (RentalService.rentalNotification rental rental.renter_id
              "rental_approved" "คำขอเช่าของคุณได้รับการอนุมัติ"
              ("คำขอเช่าสินค้า " ++ product.title ++ " ได้รับการอนุมัติ"))]
            postError := notifyError o }

/-- Normal form of `rejectRentalRequest` on a loaded rental. -/
def rejectPlan (o : Outcomes) (rental : Rental) (ownerId : Nat) (reason : String) : Plan :=
  if rental.owner_id ≠ ownerId then .fail [] (.apiError .FORBIDDEN .notAuthorizedToReject)
  else if rental.rental_status ≠ "pending_owner_approval" then
    .fail [] (.apiError .BAD_REQUEST (.notPendingOwnerApproval rental.rental_status))
  else
    .commit
      { pre := []
        id := rental.id
        fields :=
          { rental_status := some "rejected_by_owner"
            cancellation_reason := some reason
            cancelled_at := some o.nowIso
            cancelled_by_user_id := some ownerId }
        entry :=
          { rental_id := rental.id, new_status := "rejected_by_owner",
            actor_user_id := ownerId, note := "Rejected: " ++ reason,
            old_status := some rental.rental_status }
        post := [.notification (RentalService.rentalNotification rental rental.renter_id
          "rental_rejected" "คำขอเช่าของคุณถูกปฏิเสธ"
          ("คำขอเช่าสินค้า " ++ RentalService.showId rental.product_id ++ " ถูกปฏิเสธ: "
            ++ reason))]
        postError := notifyError o }

/-- The storage path of a payment proof (source lines 174-175). -/
def proofPath (o : Outcomes) (rental : Rental) (file : UploadedFile) : String :=
  "public/" ++ ("rental-" ++ toString rental.id ++ "-proof-" ++ toString o.nowMillis
    ++ "." ++ (file.originalname.splitOn ".").getLastD "")

/-- The payment-transaction record of `submitPaymentProof` (source lines 194-207). -/
def proofTransaction (o : Outcomes) (rental : Rental) (renterId : Nat)
    (paymentDetails : PaymentDetails) (proofUrl : Option String) : PaymentTransaction where
  rental_id := rental.id
  user_id := renterId
  transaction_type := "rental_payment"
  amount := RentalService.amountPaid paymentDetails rental
  currency := "THB"
  status := "pending"
  payment_method_name := "manual_bank_transfer"
  details_transaction_time :=
    if truthyStr paymentDetails.transaction_time
    then paymentDetails.transaction_time.getD "" else o.nowIso
  details_proof_url := proofUrl.getD ""
  transaction_time :=
    if truthyStr paymentDetails.transaction_time
    then paymentDetails.transaction_time.getD "" else o.nowIso

/-- Normal form of `submitPaymentProof` on a loaded rental. -/
def submitPlan (o : Outcomes) (rental : Rental) (renterId : Nat)
    (fileObject : Option UploadedFile) (paymentDetails : PaymentDetails) : Plan :=
  if rental.renter_id ≠ renterId then .fail [] (.apiError .FORBIDDEN .notAuthorizedForRental)
  else if rental.rental_status ≠ "pending_payment" then
    .fail [] (.apiError .BAD_REQUEST (.notPendingPayment rental.rental_status))
  else
    match fileObject with
    | none => .fail [] (.apiError .BAD_REQUEST .paymentProofRequired)
    | some file =>
      match o.upload file with
      | none => .fail [.upload "payment-proofs" (proofPath o rental file)] (.rejected .FileService)
      | some proofUrl =>
        if truthyStr proofUrl = false then
          .fail [.upload "payment-proofs" (proofPath o rental file)]
            (.apiError .INTERNAL_SERVER_ERROR .failedToUploadProof)
        else
          .commit
            { pre := [.upload "payment-proofs" (proofPath o rental file)]
              id := rental.id
              fields :=
                { payment_proof_url := proofUrl
                  rental_status := some "confirmed"
                  payment_status := some "pending_verification"
                  final_amount_paid := some (RentalService.amountPaid paymentDetails rental) }
              entry :=
                { rental_id := rental.id, new_status := "confirmed",
                  actor_user_id := renterId, note := "Payment proof submitted.",
                  old_status := some rental.rental_status }
              post := [.paymentTransaction
                (proofTransaction o rental renterId paymentDetails proofUrl)]
              postError :=
                if o.paymentTransactionOk then none
                else some (.rejected .PaymentTransactionModel) }

/-- The status `verifyRentalPaymentByOwner` writes (source line 425). -/
def verifiedStatus (rental : Rental) : String :=
  if rental.rental_status = "confirmed" then "active" else rental.rental_status

/-- Normal form of `verifyRentalPaymentByOwner` on a loaded rental. -/
def verifyPlan (o : Outcomes) (rental : Rental) (ownerId : Nat)
    (amount_paid : Option JsValue) :
    Plan :=
  if rental.owner_id ≠ ownerId then
    .fail [] (.apiError .FORBIDDEN .notAuthorizedToVerifyPayment)
  else if rental.payment_status ≠ "pending_verification" then
    .fail [] (.apiError .BAD_REQUEST (.paymentNotPendingVerification rental.payment_status))
  else
    .commit
      { pre := []
        id := rental.id
        fields :=
          { payment_status := some "paid"
            rental_status := some (verifiedStatus rental)
            final_amount_paid := some (RentalService.verifiedAmount amount_paid rental)
            payment_verified_at := some o.nowIso
            payment_verified_by_user_id := some ownerId }
        entry :=
          { rental_id := rental.id, new_status := verifiedStatus rental,
            actor_user_id := ownerId, note := "Payment verified by owner.",
            old_status := some rental.rental_status }
        post := [.notification (RentalService.rentalNotification rental rental.renter_id
          "payment_verified" "ชำระเงินสำเร็จ" "เจ้าของได้ยืนยันการชำระเงินของคุณแล้ว")]
        postError := notifyError o }

/-- The inventory call `cancelRentalByUser` issues after the audit entry. -/
def cancelRestoreEffects (rental : Rental) : List Effect :=
  if rental.rental_status ∈ ["confirmed", "active"] ∧
      truthyId (rental.product.map (fun p => p.id)) = true then
    [.quantityAdjust ((rental.product.map (fun p => p.id)).getD 0) 1]
  else []

/-- Normal form of `cancelRentalByUser` on a loaded rental. -/
def cancelPlan (o : Outcomes) (rental : Rental) (userId : Nat) (reason : String) : Plan :=
  if rental.renter_id ≠ userId then .fail [] (.apiError .FORBIDDEN .notAuthorizedToCancel)
  else if rental.rental_status ∉ RentalService.cancellableStatuses then
    .fail [] (.apiError .BAD_REQUEST (.cannotBeCancelled rental.rental_status))
  else
    .commit
      { pre := []
        id := rental.id
        fields :=
          { rental_status := some "cancelled_by_renter"
            cancellation_reason := some reason
            cancelled_at := some o.nowIso
            cancelled_by_user_id := some userId }
        entry :=
          { rental_id := rental.id, new_status := "cancelled_by_renter",
            actor_user_id := userId, note := "Cancelled by renter: " ++ reason,
            old_status := some rental.rental_status }
        post := cancelRestoreEffects rental ++
          [.notification (RentalService.rentalNotification rental rental.owner_id
            "rental_cancelled" "ผู้เช่ายกเลิกการเช่า"
            ("ผู้เช่ายกเลิกการเช่าสินค้า รหัส " ++ toString rental.id))]
        postError := notifyError o }

/-- The storage path of a return-condition image (source lines 376-377). -/
def returnImagePath (o : Outcomes) (rental : Rental) (file : UploadedFile) : String :=
  "public/" ++ ("rental-" ++ toString rental.id ++ "-return-" ++ toString o.nowMillis
    ++ "-" ++ file.originalname)

/-- The uploads issued by the loop over the return-condition images: the loop
stops at the first upload that rejects. -/
def uploadEffects (o : Outcomes) (rental : Rental) : List UploadedFile → List Effect
  | [] => []
  | file :: rest =>
    .upload "return-condition-images" (returnImagePath o rental file) ::
      (match o.upload file with
        | none => []
        | some _ => uploadEffects o rental rest)

/-- The result of the loop over the return-condition images. -/
def uploadOutcome (o : Outcomes) : List UploadedFile → List String → Except Thrown (List String)
  | [], imageUrls => .ok imageUrls
  | file :: rest, imageUrls =>
    match o.upload file with
    | none => .error (.rejected .FileService)
    | some publicUrl =>
      uploadOutcome o rest
        (if truthyStr publicUrl then imageUrls ++ [publicUrl.getD ""] else imageUrls)

/-- The inventory call `processReturn` issues after the audit entry. -/
def returnRestoreEffects (rental : Rental) (status : String) : List Effect :=
  if status = "completed" ∧ truthyId rental.product_id = true then
    [.quantityAdjust (rental.product_id.getD 0) 1]
  else []

/-- The audit note of `processReturn` (source line 388). -/
def returnNote (returnData : ReturnData) : String :=
  "Return processed. Condition: " ++ returnData.return_condition_status ++ ". Notes: "
    ++ (if truthyStr returnData.notes_from_owner_on_return
        then returnData.notes_from_owner_on_return.getD "" else "")

/-- Normal form of `processReturn` on a loaded rental. -/
def returnPlan (o : Outcomes) (rental : Rental) (ownerId : Nat) (returnData : ReturnData)
    (imageFiles : List UploadedFile) : Plan :=
  if rental.owner_id ≠ ownerId then
    .fail [] (.apiError .FORBIDDEN .notAuthorizedToProcessReturn)
  else if rental.rental_status ∉ RentalService.validStatusesForReturn then
    .fail [] (.apiError .BAD_REQUEST (.cannotProcessReturn rental.rental_status))
  else
    match uploadOutcome o imageFiles [] with
    | .error e => .fail (uploadEffects o rental imageFiles) e
    | .ok imageUrls =>
      .commit
        { pre := uploadEffects o rental imageFiles
          id := rental.id
          fields :=
            { actual_return_time := returnData.actual_return_time
              return_condition_status := some returnData.return_condition_status
              notes_from_owner_on_return := returnData.notes_from_owner_on_return
              updated_at := some o.nowIso
              rental_status := some (RentalService.newRentalStatus returnData)
              return_condition_image_urls :=
                if imageFiles.length > 0 then some imageUrls else none }
          entry :=
            { rental_id := rental.id, new_status := RentalService.newRentalStatus returnData,
              actor_user_id := ownerId, note := returnNote returnData,
              old_status := some rental.rental_status }
          post := returnRestoreEffects rental (RentalService.newRentalStatus returnData)
          postError := none }

/-- The normal form of each lifecycle operation on a loaded rental. -/
def Op.plan (o : Outcomes) (w : World) (rental : Rental) : Op → Plan
  | .approveRentalRequest ownerId => approvePlan o w rental ownerId
  | .rejectRentalRequest ownerId reason => rejectPlan o rental ownerId reason
  | .submitPaymentProof renterId fileObject paymentDetails =>
    submitPlan o rental renterId fileObject paymentDetails
  | .verifyRentalPaymentByOwner ownerId amount_paid => verifyPlan o rental ownerId amount_paid
  | .cancelRentalByUser userId reason => cancelPlan o rental userId reason
  | .processReturn ownerId returnData imageFiles =>
    returnPlan o rental ownerId returnData imageFiles

/-! ## The transition table of the spec -/

/-- The per-operation rows of the transition table of the spec (§4.1). -/
def specTransition : Op → String → String → Prop
  | .approveRentalRequest _, old, new =>
    old = "pending_owner_approval" ∧ new = "pending_payment"
  | .rejectRentalRequest _ _, old, new =>
    old = "pending_owner_approval" ∧ new = "rejected_by_owner"
  | .submitPaymentProof _ _ _, old, new => old = "pending_payment" ∧ new = "confirmed"
  | .verifyRentalPaymentByOwner _ _, old, new =>
    (old = "confirmed" ∧ new = "active") ∨ (old ≠ "confirmed" ∧ new = old)
  | .cancelRentalByUser _ _, old, new =>
    old ∈ ["pending_owner_approval", "pending_payment", "confirmed"] ∧
      new = "cancelled_by_renter"
  | .processReturn _ _ _, old, new =>
    old ∈ ["active", "return_pending", "late_return"] ∧ new ∈ ["completed", "dispute"]

/-- The edges of the transition table of the spec (§4.1), whatever the operation. -/
def specEdge (old new : String) : Prop :=
  (old = "pending_owner_approval" ∧ new = "pending_payment") ∨
  (old = "pending_owner_approval" ∧ new = "rejected_by_owner") ∨
  (old = "pending_payment" ∧ new = "confirmed") ∨
  (old = "confirmed" ∧ new = "active") ∨
  (old ∈ ["pending_owner_approval", "pending_payment", "confirmed"] ∧
    new = "cancelled_by_renter") ∨
  (old ∈ ["active", "return_pending", "late_return"] ∧ new ∈ ["completed", "dispute"])

/-- The current statuses the transition table of the spec (§4.1) allows an
operation to start from; payment verification is guarded by the payment status
only. -/
def specSource : Op → String → Prop
  | .approveRentalRequest _, s => s = "pending_owner_approval"
  | .rejectRentalRequest _ _, s => s = "pending_owner_approval"
  | .submitPaymentProof _ _ _, s => s = "pending_payment"
  | .verifyRentalPaymentByOwner _ _, _ => True
  | .cancelRentalByUser _ _, s => s ∈ ["pending_owner_approval", "pending_payment", "confirmed"]
  | .processReturn _ _ _, s => s ∈ ["active", "return_pending", "late_return"]

/-- A trace that consists of uploads only. -/
def OnlyUploads (es : List Effect) : Prop := ∀ e ∈ es, ∃ b p, e = Effect.upload b p

/-- The party the spec assigns each operation to: the owner for owner-actions
(approve, reject, verify payment, process return), the renter for renter-actions
(submit payment, cancel). -/
def specActor (rental : Rental) : Op → Nat
  | .approveRentalRequest _ => rental.owner_id
  | .rejectRentalRequest _ _ => rental.owner_id
  | .submitPaymentProof _ _ _ => rental.renter_id
  | .verifyRentalPaymentByOwner _ _ => rental.owner_id
  | .cancelRentalByUser _ _ => rental.renter_id
  | .processReturn _ _ _ => rental.owner_id

/-- The operations that dispatch a notification (`NotificationService.createNotification`). -/
def Op.notifies : Op → Prop
  | .approveRentalRequest _ => True
  | .rejectRentalRequest _ _ => True
  | .submitPaymentProof _ _ _ => False
  | .verifyRentalPaymentByOwner _ _ => True
  | .cancelRentalByUser _ _ => True
  | .processReturn _ _ _ => False

/-- The spec's formula `duration_days = ceil((end_date − start_date) / 1 day) + 1`, a day
being 86 400 000 milliseconds. -/
def specDurationDays (start_date end_date : Int) : Int :=
  Int.ceil (((end_date - start_date : Int) : ℚ) / 86400000) + 1

/-- The spec's formula `subtotal × percent / 100`, in exact arithmetic. -/
def specPlatformFee (subtotal percent : ℚ) : ℚ :=
  subtotal * percent / 100


/-! ## Sample data -/

/-- Collaborators that all resolve. -/
def allOk : Outcomes where
  rentalCreateOk := true
  generatedId := 1
  generatedUid := "R-0001"
  embedsProduct := true
  rentalUpdateOk := true
  historyOk := true
  notifyOk := true
  quantityOk := true
  paymentTransactionOk := true
  upload := fun _ => some (some "https://storage.example/proof.png")
  nowMillis := 1704067200000
  nowIso := "2024-01-01T00:00:00.000Z"

/-- A product owned by user 2, priced 100 per day with a deposit of 50. -/
def demoProduct : Product where
  id := 10
  slug := "camera"
  owner_id := 2
  title := "Camera"
  availability_status := "available"
  admin_approval_status := "approved"
  quantity := 1
  quantity_available := 1
  rental_price_per_day := 100
  security_deposit := some 50
  min_rental_duration_days := none
  max_rental_duration_days := none

/-- A rental of `demoProduct` by user 1 from user 2, in the given status and
payment status, with the given embedded product relation. -/
def demoRental (rental_status payment_status : String) (product : Option JoinedProduct) :
    Rental :=
  { Rental.blank 1 "R-0001" product with
    renter_id := 1
    product_id := some 10
    owner_id := 2
    start_date := 1704067200000
    end_date := 1704240000000
    rental_price_per_day_at_booking := 100
    security_deposit_at_booking := 50
    calculated_subtotal_rental_fee := 300
    platform_fee_renter := 15
    total_amount_due := 365
    pickup_method := "pickup"
    return_method := "self_return"
    rental_status := rental_status
    payment_status := payment_status
    return_condition_status := "not_yet_returned" }

/-- Settings with a renter fee of 5 percent, no owner fee and no delivery fee. -/
def demoSettings : Settings where
  default_delivery_fee := 0
  platform_fee_renter_percentage := 5
  platform_fee_owner_percentage := 0

/-- A world that stores the given rentals and `demoProduct`. -/
def demoWorld (rentals : List Rental) : World where
  rentals := rentals
  products := [demoProduct]
  addresses := []
  settings := demoSettings
  trace := []

/-- The request of the spec's pricing example: 2024-01-01 to 2024-01-03 (UTC
midnights, in epoch milliseconds), picked up by the renter. -/
def demoRequest : RentalRequestData where
  product_id := .id 10
  start_date := 1704067200000
  end_date := 1704240000000
  pickup_method := "pickup"
  delivery_address_id := none
  notes_from_renter := none

/-- A request whose end date, 2024-01-01, is two days before its start date,
2024-01-03. -/
def reversedRequest : RentalRequestData where
  product_id := .id 10
  start_date := 1704240000000
  end_date := 1704067200000
  pickup_method := "pickup"
  delivery_address_id := none
  notes_from_renter := none

/-- A request that starts at 2024-01-01T12:00:00Z and ends twelve hours earlier,
at 2024-01-01T00:00:00Z. -/
def lateRequest : RentalRequestData where
  product_id := .id 10
  start_date := 1704110400000
  end_date := 1704067200000
  pickup_method := "pickup"
  delivery_address_id := none
  notes_from_renter := none

/-- The empty demo world with the renter fee percentage set to `-5`. -/
def negativeFeeWorld : World :=
  { demoWorld [] with
    settings := { demoSettings with platform_fee_renter_percentage := .fin (-5) } }

/-- A product as `demoProduct`, with no deposit and a minimum duration of -1. -/
def negativeMinProduct : Product :=
  { demoProduct with security_deposit := some 0, min_rental_duration_days := some (-1) }

/-- The empty demo world with `negativeMinProduct` as its product. -/
def negativeMinWorld : World :=
  { demoWorld [] with products := [negativeMinProduct] }

/-- The empty demo world with the renter fee percentage set to `7`. -/
def sevenPercentWorld : World :=
  { demoWorld [] with
    settings := { demoSettings with platform_fee_renter_percentage := 7 } }

/-- A product as `demoProduct`, with a maximum duration of 0. -/
def zeroMaxProduct : Product :=
  { demoProduct with max_rental_duration_days := some 0 }

/-- The empty demo world with `zeroMaxProduct` as its product. -/
def zeroMaxWorld : World :=
  { demoWorld [] with products := [zeroMaxProduct] }

/-- The scenario of a rental that runs its whole course, step 1: user 1 requests
`demoProduct`. -/
def scenarioCreated : World :=
  (RentalService.createRentalRequest allOk (demoWorld []) 1 demoRequest).2

/-- Step 2: the owner, user 2, approves the request. -/
def scenarioApproved : World :=
  (RentalService.approveRentalRequest allOk scenarioCreated (.id 1) 2).2

/-- Step 3: the renter submits a payment proof. -/
def scenarioPaid : World :=
  (RentalService.submitPaymentProof allOk scenarioApproved (.id 1) 1 (some ⟨"slip.png"⟩)
    ⟨none, none⟩).2

/-- Step 4: the owner verifies the payment. -/
def scenarioActive : World :=
  (RentalService.verifyRentalPaymentByOwner allOk scenarioPaid (.id 1) 2 none).2

/-- Step 5: the owner processes the return of the item, in good condition. -/
def scenarioReturned : World :=
  (RentalService.processReturn allOk scenarioActive (.id 1) 2
    ⟨some "2024-01-03T10:00:00.000Z", "good", none, false⟩ []).2

/-! ## Further observations on a trace -/

/-- The payment-transaction records created by a trace. -/
def paymentTransactions (es : List Effect) : List PaymentTransaction :=
  es.filterMap (fun e => match e with
    | .paymentTransaction t => some t
    | _ => none)

/-! ## Creation-time fields -/

/-- The creation-time fields of a rental: the parties, the booked item, the
booking window and the financial snapshot. -/
def creationTimeFields : List String :=
  ["renter_id", "owner_id", "product_id", "start_date", "end_date",
    "rental_price_per_day_at_booking", "security_deposit_at_booking",
    "calculated_subtotal_rental_fee", "delivery_fee", "platform_fee_renter",
    "platform_fee_owner", "total_amount_due"]

/-- The creation-time keys that a field literal has. -/
def RentalFields.creationKeys (f : RentalFields) : List String :=
  (if f.renter_id.isSome then ["renter_id"] else []) ++
  (if f.owner_id.isSome then ["owner_id"] else []) ++
  (if f.product_id.isSome then ["product_id"] else []) ++
  (if f.start_date.isSome then ["start_date"] else []) ++
  (if f.end_date.isSome then ["end_date"] else []) ++
  (if f.rental_price_per_day_at_booking.isSome then ["rental_price_per_day_at_booking"]
    else []) ++
  (if f.security_deposit_at_booking.isSome then ["security_deposit_at_booking"] else []) ++
  (if f.calculated_subtotal_rental_fee.isSome then ["calculated_subtotal_rental_fee"]
    else []) ++
  (if f.delivery_fee.isSome then ["delivery_fee"] else []) ++
  (if f.platform_fee_renter.isSome then ["platform_fee_renter"] else []) ++
  (if f.platform_fee_owner.isSome then ["platform_fee_owner"] else []) ++
  (if f.total_amount_due.isSome then ["total_amount_due"] else [])

/-- The values of the creation-time fields of a stored rental, in the order of
`creationTimeFields`. -/
def Rental.creationSnapshot (r : Rental) :
    Nat × Nat × Option Nat × Int × Int × JsNum × JsNum × JsNum × JsNum × JsNum × JsNum ×
      JsNum :=
  (r.renter_id, r.owner_id, r.product_id, r.start_date, r.end_date,
    r.rental_price_per_day_at_booking, r.security_deposit_at_booking,
    r.calculated_subtotal_rental_fee, r.delivery_fee, r.platform_fee_renter,
    r.platform_fee_owner, r.total_amount_due)

/-! ## RentalController.uploadPaymentProof -/

/-- The parts of the request that `RentalController.uploadPaymentProof` reads:
`req.user.id`, `req.params.rental_id_or_uid`, `req.validatedData` and `req.file`. -/
structure UploadProofRequest where
  user_id : Nat
  rental_id_or_uid : Identifier
  validatedData : Option PaymentDetails
  file : Option UploadedFile

/-- The `ApiResponse` the controller sends. -/
structure ApiResponse where
  statusCode : HttpStatus
  data : Rental
  message : String
  deriving DecidableEq

/-- Source `src/controllers/rental.controller.js`, lines 38-51.  The handler is
wrapped in `asyncHandler`, which hands a thrown error on unchanged; the result
is the response sent or the error thrown. -/
def RentalController.uploadPaymentProof (o : Outcomes) (w : World) (req : UploadProofRequest) :
    Except Thrown ApiResponse × World :=
  let renterId := req.user_id
  let paymentDetails := req.validatedData.getD { amount_paid := none, transaction_time := none }
  match req.file with
  | none => (.error (.apiError .BAD_REQUEST .paymentProofFileRequired), w)
  | some file =>
    match RentalService.submitPaymentProof o w req.rental_id_or_uid renterId (some file)
        paymentDetails with
    | (.error e, w1) => (.error e, w1)
    | (.ok updatedRental, w1) =>
      (.ok { statusCode := .OK, data := updatedRental,
             message := "Payment proof submitted successfully." }, w1)

/-! ## ReviewService.createReview -/

/-- The body of a review request (`reviewData`). -/
structure ReviewData where
  rental_id : Nat
  rating_product : Nat
  rating_owner : Nat
  comment : Option String
  deriving DecidableEq

/-- A row of the reviews table. -/
structure Review where
  id : Nat
  rental_id : Nat
  rating_product : Nat
  rating_owner : Nat
  comment : Option String
  deriving DecidableEq

/-- How the Supabase client answers during one call of the review service:
whether the select and the insert come back with an error, and the id the
insert generates. -/
structure ReviewOutcomes where
  selectError : Bool
  insertError : Bool
  generatedId : Nat

/-- Modelled from the spec: `RentalModel.findById`
(`src/models/rental.model.js` is not among the sources): the rental with that
"internal numeric id", or `null`. -/
def RentalModel.findById (w : World) (id : Nat) : Option Rental :=
  w.rentals.find? (fun r => decide (r.id = id))

/-- Source `src/models/review.model.js`, lines 44-81.  The query asks for a
single row: with exactly one matching row the client returns it; with none or
several it returns the error `PGRST116`, for which the function returns `null`;
any other error is thrown as it is. -/
def ReviewModel.findByRentalId (ro : ReviewOutcomes) (reviews : List Review) (rentalId : Nat) :
    Except Thrown (Option Review) :=
  if ro.selectError then .error (.rejected .supabase)
  else
    match reviews.filter (fun r => decide (r.rental_id = rentalId)) with
    | [review] => .ok (some review)
    | _ => .ok none

/-- Source `src/models/review.model.js`, lines 6-42: the insert, which throws
"Failed to create review" when the client returns an error. -/
def ReviewModel.create (ro : ReviewOutcomes) (reviews : List Review) (reviewData : ReviewData) :
    Except Thrown Review × List Review :=
  if ro.insertError then
    (.error (.apiError .INTERNAL_SERVER_ERROR .failedToCreateReview), reviews)
  else
    let data : Review :=
      { id := ro.generatedId, rental_id := reviewData.rental_id,
        rating_product := reviewData.rating_product, rating_owner := reviewData.rating_owner,
        comment := reviewData.comment }
    (.ok data, reviews ++ [data])

/-- Source `src/services/review.service.js`, lines 7-45.  The completion check
reads the property `status` of the loaded rental. -/
def ReviewService.createReview (ro : ReviewOutcomes) (w : World) (reviews : List Review)
    (userId : Nat) (reviewData : ReviewData) : Except Thrown Review × List Review :=
  match RentalModel.findById w reviewData.rental_id with
  | none => (.error (.apiError .NOT_FOUND .reviewRentalNotFound), reviews)
  | some rental =>
    if rental.renter_id ≠ userId then
      (.error (.apiError .FORBIDDEN .reviewOnlyOwnRentals), reviews)
    else if rental.status ≠ some "completed" then
      (.error (.apiError .BAD_REQUEST .reviewOnlyCompletedRentals), reviews)
    else
      match ReviewModel.findByRentalId ro reviews reviewData.rental_id with
      | .error e => (.error e, reviews)
      | .ok (some _) => (.error (.apiError .BAD_REQUEST .reviewAlreadyExists), reviews)
      | .ok none => ReviewModel.create ro reviews { reviewData with rental_id := rental.id }

/-! ## Sequences of operations -/

/-- A call of any operation of `RentalService` that takes part in the lifecycle
of a rental or reads it. -/
inductive Step
  | createRentalRequest (renterId : Nat) (d : RentalRequestData)
  | lifecycle (k : Identifier) (op : Op)
  | checkRentalPaymentStatus (k : Identifier) (userId : Nat)
  | getRentalDetailsForUser (k : Identifier) (userId : Nat)

/-- The world a step leaves. -/
def Step.run (o : Outcomes) (w : World) : Step → World
  | .createRentalRequest renterId d => (RentalService.createRentalRequest o w renterId d).2
  | .lifecycle k op => (op.run o w k).2
  | .checkRentalPaymentStatus k userId => (RentalService.checkRentalPaymentStatus w k userId).2
  | .getRentalDetailsForUser k userId => (RentalService.getRentalDetailsForUser w k userId).2

/-- The world a sequence of steps leaves, each step with its own outcomes. -/
def runSteps : List (Outcomes × Step) → World → World
  | [], w => w
  | (o, s) :: rest, w => runSteps rest (s.run o w)

/-- The statuses the operations of `RentalService` write. -/
def engineStatuses : List String :=
  ["pending_owner_approval", "pending_payment", "confirmed", "active", "completed", "dispute",
    "rejected_by_owner", "cancelled_by_renter"]

/-- The terminal statuses of the spec. -/
def terminalStatuses : List String :=
  ["completed", "rejected_by_owner", "cancelled_by_renter", "cancelled_by_owner", "dispute"]

/-! ## Sample data for the review service and for sequences -/

/-- Supabase answers without error. -/
def reviewOk : ReviewOutcomes where
  selectError := false
  insertError := false
  generatedId := 1

/-- A review of rental 1. -/
def demoReview : ReviewData where
  rental_id := 1
  rating_product := 5
  rating_owner := 5
  comment := some "Great camera"

/-- The steps of the scenario `scenarioReturned`, followed by a second return. -/
def demoSteps : List (Outcomes × Step) :=
  [(allOk, .createRentalRequest 1 demoRequest),
   (allOk, .lifecycle (.id 1) (.approveRentalRequest 2)),
   (allOk, .lifecycle (.id 1) (.submitPaymentProof 1 (some ⟨"slip.png"⟩) ⟨none, none⟩)),
   (allOk, .lifecycle (.id 1) (.verifyRentalPaymentByOwner 2 none)),
   (allOk, .lifecycle (.id 1)
      (.processReturn 2 ⟨some "2024-01-03T10:00:00.000Z", "good", none, false⟩ []))]

/-! ## Two calls of `approveRentalRequest` in flight -/

/-- Where a call of `approveRentalRequest` stands between two of its `await`s
(source lines 91-122): before the load, holding the loaded rental, holding the
fetched product, holding the updated rental, after the audit write, and after
it returned or threw. -/
inductive ApproveCall
  | start
  | loaded (rental : Rental)
  | checked (rental : Rental) (product : Product)
  | updated (rental : Rental) (product : Product) (updatedRental : Rental)
  | logged (rental : Rental) (product : Product) (updatedRental : Rental)
  | finished (result : Except Thrown Rental)

/-- One step of a call of `approveRentalRequest`: the call it awaits next, made
against the state of that moment, and the synchronous code up to the following
`await`.  In order: `RentalModel.findByIdentifier` with the guards of lines
93-101, `ProductModel.findByIdOrSlug` with the stock guard of line 104,
`RentalModel.update` (line 108), `RentalStatusHistoryModel.create` (line 109),
`NotificationService.createNotification` (lines 111-120) and the return. -/
def approveStep (o : Outcomes) (rentalIdOrUid : Identifier) (ownerId : Nat) :
    ApproveCall → World → ApproveCall × World
  | .start, w =>
    match RentalModel.findByIdentifier w rentalIdOrUid with
    | none => (.finished (.error (.apiError .NOT_FOUND .rentalRequestNotFound)), w)
    | some rental =>
      if rental.owner_id ≠ ownerId then
        (.finished (.error (.apiError .FORBIDDEN .notAuthorizedToApprove)), w)
      else if rental.rental_status ≠ "pending_owner_approval" then
        (.finished (.error
          (.apiError .BAD_REQUEST (.notPendingOwnerApproval rental.rental_status))), w)
      else (.loaded rental, w)
  | .loaded rental, w =>
    match rental.product_id.bind (fun pid => ProductModel.findByIdOrSlug w (.id pid)) with
    | none => (.finished (.error .typeError), w)
    | some product =>
      if product.quantity_available < 1 ∧ product.quantity > 0 then
        (.finished (.error (.apiError .BAD_REQUEST .productBecameUnavailable)), w)
      else (.checked rental product, w)
  | .checked rental product, w =>
    match RentalModel.update o w rental.id { rental_status := some "pending_payment" } with
    | (.error e, w1) => (.finished (.error e), w1)
    | (.ok updatedRental, w1) => (.updated rental product updatedRental, w1)
  | .updated rental product updatedRental, w =>
    match RentalStatusHistoryModel.create o w rental.id "pending_payment" ownerId
        "Rental approved by owner." rental.rental_status with
    | (.error e, w2) => (.finished (.error e), w2)
    | (.ok _, w2) => (.logged rental product updatedRental, w2)
  | .logged rental product updatedRental, w =>
    match NotificationService.createNotification o w
        (RentalService.rentalNotification rental rental.renter_id "rental_approved"
          "คำขอเช่าของคุณได้รับการอนุมัติ"
          ("คำขอเช่าสินค้า " ++ product.title ++ " ได้รับการอนุมัติ")) with
    | (.error e, w3) => (.finished (.error e), w3)
    | (.ok _, w3) => (.finished (.ok updatedRental), w3)
  | .finished result, w => (.finished result, w)

/-- A call run for `n` steps with nothing else in between. -/
def approveSteps (o : Outcomes) (rentalIdOrUid : Identifier) (ownerId : Nat) :
    Nat → ApproveCall × World → ApproveCall × World
  | 0, s => s
  | n + 1, s => approveSteps o rentalIdOrUid ownerId n
      (approveStep o rentalIdOrUid ownerId s.1 s.2)

/-- Two calls of `approveRentalRequest` in flight and the state they share. -/
structure TwoCalls where
  a : ApproveCall
  b : ApproveCall
  world : World

/-- An interleaving of two calls with the same arguments: the schedule names,
step by step, the call that runs next (`true` the first call, `false` the
second). -/
def interleave (o : Outcomes) (rentalIdOrUid : Identifier) (ownerId : Nat) :
    List Bool → TwoCalls → TwoCalls
  | [], s => s
  | true :: rest, s =>
    interleave o rentalIdOrUid ownerId rest
      { s with a := (approveStep o rentalIdOrUid ownerId s.a s.world).1
               world := (approveStep o rentalIdOrUid ownerId s.a s.world).2 }
  | false :: rest, s =>
    interleave o rentalIdOrUid ownerId rest
      { s with b := (approveStep o rentalIdOrUid ownerId s.b s.world).1
               world := (approveStep o rentalIdOrUid ownerId s.b s.world).2 }

/-- The number of steps of one call that open a schedule, before the other call
takes its first step. -/
def leadingSteps (who : Bool) (s : List Bool) : Nat :=
  (s.takeWhile (fun x => x == who)).length

/-- The phase of a call of `approveRentalRequest` on a rental that is pending
owner approval, with its product in stock and every collaborator resolving. -/
inductive Phase
  | start
  | loaded
  | checked
  | updated
  | logged
  | succeeded
  | lost
  deriving DecidableEq

/-- The step of a call in phase `p` when `n` updates have been written. -/
def Phase.step : Phase → Nat → Phase × Nat
  | .start, n => (if n = 0 then .loaded else .lost, n)
  | .loaded, n => (.checked, n)
  | .checked, n => (.updated, n + 1)
  | .updated, n => (.logged, n)
  | .logged, n => (.succeeded, n)
  | .succeeded, n => (.succeeded, n)
  | .lost, n => (.lost, n)

/-- The phases of two calls under a schedule. -/
def Phase.run : List Bool → Phase × Phase × Nat → Phase × Phase × Nat
  | [], s => s
  | true :: rest, (a, b, n) => Phase.run rest ((Phase.step a n).1, b, (Phase.step a n).2)
  | false :: rest, (a, b, n) => Phase.run rest (a, (Phase.step b n).1, (Phase.step b n).2)

/-- The phases in which a complete schedule ends: a call has lost when the
first three steps of the other call open the schedule. -/
def Phase.expected (s : List Bool) : Phase × Phase × Nat :=
  (if 3 ≤ leadingSteps false s then .lost else .succeeded,
    if 3 ≤ leadingSteps true s then .lost else .succeeded,
    if 3 ≤ leadingSteps false s ∨ 3 ≤ leadingSteps true s then 1 else 2)

/-- All schedules of a given length. -/
def boolLists : Nat → List (List Bool)
  | 0 => [[]]
  | n + 1 => (boolLists n).map (fun s => true :: s) ++ (boolLists n).map (fun s => false :: s)

/-- A call in phase `p` holds a snapshot of the rental `rental0` taken while it
was pending owner approval. -/
def CallAt (rental0 : Rental) : Phase → ApproveCall → Prop
  | .start, .start => True
  | .loaded, .loaded r => r.id = rental0.id ∧ r.product_id = rental0.product_id
  | .checked, .checked r _ => r.id = rental0.id
  | .updated, .updated _ _ u => u.rental_status = "pending_payment"
  | .logged, .logged _ _ u => u.rental_status = "pending_payment"
  | .succeeded, .finished (.ok u) => u.rental_status = "pending_payment"
  | .lost, .finished (.error e) =>
    e = .apiError .BAD_REQUEST (.notPendingOwnerApproval "pending_payment")
  | _, _ => False

/-- The shared state after `n` updates of the rental `rental0`, starting from
the world `w0`. -/
def WorldAt (w0 : World) (k : Identifier) (ownerId : Nat) (rental0 : Rental) (n : Nat)
    (w : World) : Prop :=
  w.products = w0.products ∧
  (∃ row, RentalModel.findByIdentifier w k = some row ∧ row.id = rental0.id ∧
    row.owner_id = ownerId ∧ row.product_id = rental0.product_id ∧
    row.rental_status = (if n = 0 then "pending_owner_approval" else "pending_payment")) ∧
  (∃ r, w.rentals.find? (fun x => decide (x.id = rental0.id)) = some r) ∧
  (∃ t, w.trace = w0.trace ++ t ∧ statusWrites t = List.replicate n "pending_payment")

/-! ## Rounding to the nearest double -/

section Rounding

open JsNum

theorem roundHalfEven_intCast (n : Int) : roundHalfEven (n : ℚ) = n := by
  unfold roundHalfEven
  rw [Int.floor_intCast]
  simp

theorem floor_le_roundHalfEven (x : ℚ) : ⌊x⌋ ≤ roundHalfEven x := by
  unfold roundHalfEven
  split_ifs <;> omega

theorem roundHalfEven_le_floor_succ (x : ℚ) : roundHalfEven x ≤ ⌊x⌋ + 1 := by
  unfold roundHalfEven
  split_ifs <;> omega

theorem roundHalfEven_mono {x y : ℚ} (h : x ≤ y) : roundHalfEven x ≤ roundHalfEven y := by
  rcases lt_or_eq_of_le (Int.floor_mono h) with hf | hf
  · calc roundHalfEven x ≤ ⌊x⌋ + 1 := roundHalfEven_le_floor_succ x
      _ ≤ ⌊y⌋ := hf
      _ ≤ roundHalfEven y := floor_le_roundHalfEven y
  · have hxy : x - ⌊x⌋ ≤ y - ⌊y⌋ := by rw [hf]; linarith
    unfold roundHalfEven
    rw [hf]
    split_ifs <;> first | omega | linarith

theorem abs_roundHalfEven_sub_le (x : ℚ) : |(roundHalfEven x : ℚ) - x| ≤ 1 / 2 := by
  have h1 := Int.floor_le x
  have h2 := Int.lt_floor_add_one x
  unfold roundHalfEven
  rw [abs_le]
  split_ifs <;> push_cast <;> constructor <;> linarith

theorem two_zpow_pos (e : Int) : (0 : ℚ) < 2 ^ e := zpow_pos (by norm_num) e

theorem log2Nat_spec (fuel n : Nat) (h : n ≤ fuel) (hn : n ≠ 0) :
    2 ^ log2Nat fuel n ≤ n ∧ n < 2 ^ (log2Nat fuel n + 1) := by
  induction fuel generalizing n with
  | zero => omega
  | succ f ih =>
    unfold log2Nat
    by_cases h2 : n < 2
    · rw [if_pos h2]
      have : n = 1 := by omega
      subst this
      decide
    · rw [if_neg h2]
      obtain ⟨h3, h4⟩ := ih (n / 2) (by omega) (by omega)
      have e1 : 2 ^ (log2Nat f (n / 2) + 1) = 2 * 2 ^ log2Nat f (n / 2) := by ring
      have e2 : 2 ^ (log2Nat f (n / 2) + 1 + 1) = 4 * 2 ^ log2Nat f (n / 2) := by ring
      rw [e1] at h4
      rw [e1, e2]
      constructor <;> omega

theorem log2Floor_bounds {a : ℚ} (ha : 0 < a) :
    (2 : ℚ) ^ log2Floor a ≤ a ∧ a < 2 ^ (log2Floor a + 1) := by
  have hnum : 0 < a.num := Rat.num_pos.mpr ha
  have hn0 : a.num.natAbs ≠ 0 := by omega
  have hd0 : a.den ≠ 0 := a.den_nz
  obtain ⟨hn1, hn2⟩ := log2Nat_spec a.num.natAbs a.num.natAbs (le_refl _) hn0
  obtain ⟨hd1, hd2⟩ := log2Nat_spec a.den a.den (le_refl _) hd0
  have hdq : (0 : ℚ) < a.den := by exact_mod_cast Nat.pos_of_ne_zero hd0
  have hval : a = (a.num.natAbs : ℚ) / a.den := by
    have h1 : (a.num.natAbs : Int) = a.num := Int.natAbs_of_nonneg hnum.le
    have h2 : (a.num.natAbs : ℚ) = (a.num : ℚ) := by
      rw [← Int.cast_natCast, h1]
    rw [h2]
    exact (Rat.num_div_den a).symm
  have hn1q : (2 : ℚ) ^ (log2Nat a.num.natAbs a.num.natAbs : Int) ≤ a.num.natAbs := by
    rw [zpow_natCast]; exact_mod_cast hn1
  have hn2q : (a.num.natAbs : ℚ) < 2 ^ ((log2Nat a.num.natAbs a.num.natAbs : Int) + 1) := by
    have : ((log2Nat a.num.natAbs a.num.natAbs : Int) + 1) = ((log2Nat a.num.natAbs a.num.natAbs + 1 : Nat) : Int) := by
      push_cast; rfl
    rw [this, zpow_natCast]; exact_mod_cast hn2
  have hd1q : (2 : ℚ) ^ (log2Nat a.den a.den : Int) ≤ a.den := by
    rw [zpow_natCast]; exact_mod_cast hd1
  have hd2q : (a.den : ℚ) < 2 ^ ((log2Nat a.den a.den : Int) + 1) := by
    have : ((log2Nat a.den a.den : Int) + 1) = ((log2Nat a.den a.den + 1 : Nat) : Int) := by
      push_cast; rfl
    rw [this, zpow_natCast]; exact_mod_cast hd2
  unfold log2Floor
  generalize (log2Nat a.num.natAbs a.num.natAbs : Int) = ln at *
  generalize (log2Nat a.den a.den : Int) = ld at *
  have hupper : a < 2 ^ (ln - ld + 1) := by
    rw [hval, div_lt_iff₀ hdq]
    calc (a.num.natAbs : ℚ) < 2 ^ (ln + 1) := hn2q
      _ = 2 ^ (ln - ld + 1) * 2 ^ ld := by
        rw [← zpow_add₀ (by norm_num : (2 : ℚ) ≠ 0)]; congr 1; ring
      _ ≤ 2 ^ (ln - ld + 1) * a.den :=
        mul_le_mul_of_nonneg_left hd1q (two_zpow_pos _).le
  have hlower : (2 : ℚ) ^ (ln - ld - 1) ≤ a := by
    rw [hval, le_div_iff₀ hdq]
    calc (2 : ℚ) ^ (ln - ld - 1) * a.den ≤ 2 ^ (ln - ld - 1) * 2 ^ (ld + 1) :=
        mul_le_mul_of_nonneg_left hd2q.le (two_zpow_pos _).le
      _ = 2 ^ ln := by
        rw [← zpow_add₀ (by norm_num : (2 : ℚ) ≠ 0)]; congr 1; ring
      _ ≤ a.num.natAbs := hn1q
  by_cases h : (2 : ℚ) ^ (ln - ld) ≤ a
  · rw [if_pos h]; exact ⟨h, hupper⟩
  · rw [if_neg h]
    refine ⟨hlower, ?_⟩
    have : ln - ld - 1 + 1 = ln - ld := by ring
    rw [this]
    exact not_le.mp h

theorem log2Floor_eq_log {a : ℚ} (ha : 0 < a) : log2Floor a = Int.log 2 a := by
  obtain ⟨h1, h2⟩ := log2Floor_bounds ha
  have h1' : log2Floor a ≤ Int.log 2 a :=
    (Int.zpow_le_iff_le_log (b := 2) (by norm_num) ha).mp (by simpa using h1)
  have h2' : Int.log 2 a < log2Floor a + 1 :=
    (Int.lt_zpow_iff_log_lt (b := 2) (by norm_num) ha).mp (by simpa using h2)
  omega

theorem two_pow_mul_zpow (n : Nat) (e : Int) : (2 : ℚ) ^ n * 2 ^ e = 2 ^ (e + n) := by
  rw [zpow_add₀ (by norm_num : (2 : ℚ) ≠ 0), zpow_natCast, mul_comm]

theorem two_pow_mul_zpow' (n : Nat) (e : Int) (k : Int) (hk : k = e + n) :
    (2 : ℚ) ^ n * 2 ^ e = 2 ^ k := by
  rw [hk, two_pow_mul_zpow]

theorem ulpExp_mono {a b : ℚ} (ha : 0 < a) (h : a ≤ b) : ulpExp a ≤ ulpExp b := by
  unfold ulpExp
  have := Int.log_mono_right (b := 2) ha h
  rw [← log2Floor_eq_log ha, ← log2Floor_eq_log (lt_of_lt_of_le ha h)] at this
  omega

theorem two_zpow_log_le {a : ℚ} (ha : 0 < a) : (2 : ℚ) ^ log2Floor a ≤ a :=
  (log2Floor_bounds ha).1

theorem lt_two_zpow_log_succ (a : ℚ) : a < (2 : ℚ) ^ (log2Floor a + 1) := by
  by_cases ha : 0 < a
  · exact (log2Floor_bounds ha).2
  · exact lt_of_le_of_lt (not_lt.mp ha) (two_zpow_pos _)

theorem roundMag_nonneg {a : ℚ} (ha : 0 ≤ a) : 0 ≤ roundMag a := by
  unfold roundMag
  have hu := two_zpow_pos (ulpExp a)
  have h0 : (0 : Int) ≤ roundHalfEven (a / 2 ^ ulpExp a) :=
    le_trans (Int.floor_nonneg.mpr (div_nonneg ha hu.le)) (floor_le_roundHalfEven _)
  exact mul_nonneg (by exact_mod_cast h0) hu.le

/-- Below the next power of two. -/
theorem roundMag_le_zpow {a : ℚ} (e : Int) (h1 : ulpExp a + 53 ≤ e)
    (h2 : a < 2 ^ (ulpExp a + 53)) : roundMag a ≤ 2 ^ e := by
  unfold roundMag
  have hu := two_zpow_pos (ulpExp a)
  have hq : a / 2 ^ ulpExp a ≤ ((2 ^ 53 : Int) : ℚ) := by
    rw [div_le_iff₀ hu]
    have : ((2 ^ 53 : Int) : ℚ) * 2 ^ ulpExp a = 2 ^ (ulpExp a + 53) := by
      rw [show ((2 ^ 53 : Int) : ℚ) = (2 : ℚ) ^ 53 by norm_cast]
      exact two_pow_mul_zpow' 53 _ _ rfl
    rw [this]
    exact h2.le
  have hr := roundHalfEven_mono hq
  rw [roundHalfEven_intCast] at hr
  have hr' : (roundHalfEven (a / 2 ^ ulpExp a) : ℚ) ≤ 2 ^ 53 := by exact_mod_cast hr
  calc (roundHalfEven (a / 2 ^ ulpExp a) : ℚ) * 2 ^ ulpExp a
      ≤ 2 ^ 53 * 2 ^ ulpExp a := mul_le_mul_of_nonneg_right hr' hu.le
    _ = 2 ^ (ulpExp a + 53) := two_pow_mul_zpow' 53 _ _ rfl
    _ ≤ 2 ^ e := zpow_le_zpow_right₀ (by norm_num) h1

theorem lt_zpow_ulpExp {a : ℚ} : a < 2 ^ (ulpExp a + 53) := by
  refine lt_of_lt_of_le (lt_two_zpow_log_succ a) (zpow_le_zpow_right₀ (by norm_num) ?_)
  unfold ulpExp
  omega

theorem zpow_le_roundMag {a : ℚ} (ha : 0 < a) (hn : -1022 ≤ log2Floor a) :
    (2 : ℚ) ^ log2Floor a ≤ roundMag a := by
  have he : ulpExp a = log2Floor a - 52 := by unfold ulpExp; omega
  unfold roundMag
  have hu := two_zpow_pos (ulpExp a)
  have hq : ((2 ^ 52 : Int) : ℚ) ≤ a / 2 ^ ulpExp a := by
    rw [le_div_iff₀ hu]
    have : ((2 ^ 52 : Int) : ℚ) * 2 ^ ulpExp a = 2 ^ log2Floor a := by
      rw [show ((2 ^ 52 : Int) : ℚ) = (2 : ℚ) ^ 52 by norm_cast]
      exact two_pow_mul_zpow' 52 _ _ (by rw [he]; omega)
    rw [this]
    exact two_zpow_log_le ha
  have hr := roundHalfEven_mono hq
  rw [roundHalfEven_intCast] at hr
  have hr' : (2 ^ 52 : ℚ) ≤ (roundHalfEven (a / 2 ^ ulpExp a) : ℚ) := by exact_mod_cast hr
  calc (2 : ℚ) ^ log2Floor a = 2 ^ 52 * 2 ^ ulpExp a :=
        (two_pow_mul_zpow' 52 _ _ (by rw [he]; omega)).symm
    _ ≤ (roundHalfEven (a / 2 ^ ulpExp a) : ℚ) * 2 ^ ulpExp a :=
      mul_le_mul_of_nonneg_right hr' hu.le

theorem roundMag_mono {a b : ℚ} (ha : 0 < a) (h : a ≤ b) : roundMag a ≤ roundMag b := by
  have hb : 0 < b := lt_of_lt_of_le ha h
  rcases lt_or_eq_of_le (ulpExp_mono ha h) with he | he
  · have hlog : -1022 ≤ log2Floor b ∧ ulpExp a + 53 ≤ log2Floor b := by
      unfold ulpExp at he ⊢
      omega
    exact le_trans (roundMag_le_zpow _ hlog.2 lt_zpow_ulpExp) (zpow_le_roundMag hb hlog.1)
  · unfold roundMag
    rw [he]
    have hu := two_zpow_pos (ulpExp b)
    have hq : a / 2 ^ ulpExp b ≤ b / 2 ^ ulpExp b := div_le_div_of_nonneg_right h hu.le
    have hr : (roundHalfEven (a / 2 ^ ulpExp b) : ℚ) ≤ roundHalfEven (b / 2 ^ ulpExp b) := by
      exact_mod_cast roundHalfEven_mono hq
    exact mul_le_mul_of_nonneg_right hr hu.le

theorem roundMag_zero : roundMag 0 = 0 := by
  unfold roundMag
  simp [roundHalfEven]

theorem roundMag_mono' {a b : ℚ} (ha : 0 ≤ a) (h : a ≤ b) : roundMag a ≤ roundMag b := by
  rcases eq_or_lt_of_le ha with h0 | h0
  · rw [← h0, roundMag_zero]
    exact roundMag_nonneg (le_trans ha h)
  · exact roundMag_mono h0 h

theorem abs_roundMag_sub_le (a : ℚ) : |roundMag a - a| ≤ 2 ^ ulpExp a / 2 := by
  unfold roundMag
  have hu := two_zpow_pos (ulpExp a)
  have h := abs_roundHalfEven_sub_le (a / 2 ^ ulpExp a)
  have : (roundHalfEven (a / 2 ^ ulpExp a) : ℚ) * 2 ^ ulpExp a - a =
      ((roundHalfEven (a / 2 ^ ulpExp a) : ℚ) - a / 2 ^ ulpExp a) * 2 ^ ulpExp a := by
    field_simp
  rw [this, abs_mul, abs_of_pos hu]
  calc |(roundHalfEven (a / 2 ^ ulpExp a) : ℚ) - a / 2 ^ ulpExp a| * 2 ^ ulpExp a
      ≤ 1 / 2 * 2 ^ ulpExp a := mul_le_mul_of_nonneg_right h hu.le
    _ = 2 ^ ulpExp a / 2 := by ring

/-- A dyadic rational with a significand below `2 ^ 53` and an exponent of at
least `-1074` is left unchanged. -/
theorem roundMag_dyadic (m : Nat) (j : Int) (hm : m < 2 ^ 53) (hj : -1074 ≤ j) :
    roundMag ((m : ℚ) * 2 ^ j) = (m : ℚ) * 2 ^ j := by
  rcases Nat.eq_zero_or_pos m with h0 | hpos
  · subst h0; simp [roundMag_zero]
  have ha : (0 : ℚ) < (m : ℚ) * 2 ^ j := mul_pos (by exact_mod_cast hpos) (two_zpow_pos j)
  have hlt : (m : ℚ) * 2 ^ j < 2 ^ (j + 53) := by
    rw [← two_pow_mul_zpow' 53 j (j + 53) rfl]
    refine mul_lt_mul_of_pos_right ?_ (two_zpow_pos j)
    exact_mod_cast hm
  have hlog : log2Floor ((m : ℚ) * 2 ^ j) < j + 53 := by
    rw [log2Floor_eq_log ha]
    exact (Int.lt_zpow_iff_log_lt (b := 2) (by norm_num) ha).mp (by simpa using hlt)
  have he : ulpExp ((m : ℚ) * 2 ^ j) ≤ j := by unfold ulpExp; omega
  unfold roundMag
  generalize ulpExp ((m : ℚ) * 2 ^ j) = E at he
  obtain ⟨k, hk⟩ := Int.le.dest he
  have hj2 : (2 : ℚ) ^ j = 2 ^ k * 2 ^ E := by rw [two_pow_mul_zpow, hk]
  have hu := two_zpow_pos E
  have hdiv : (m : ℚ) * 2 ^ j / 2 ^ E = ((m * 2 ^ k : Int) : ℚ) := by
    rw [hj2]
    field_simp
    ring
  rw [hdiv, roundHalfEven_intCast, hj2]
  push_cast
  ring

theorem roundHalfEven_nonneg {x : ℚ} (hx : 0 ≤ x) : 0 ≤ roundHalfEven x :=
  le_trans (Int.floor_nonneg.mpr hx) (floor_le_roundHalfEven x)

theorem roundMag_idem {a : ℚ} (ha : 0 ≤ a) : roundMag (roundMag a) = roundMag a := by
  have hu := two_zpow_pos (ulpExp a)
  have hM0 : 0 ≤ roundHalfEven (a / 2 ^ ulpExp a) := roundHalfEven_nonneg (div_nonneg ha hu.le)
  have hM1 : roundHalfEven (a / 2 ^ ulpExp a) ≤ 2 ^ 53 := by
    have hq : a / 2 ^ ulpExp a ≤ ((2 ^ 53 : Int) : ℚ) := by
      rw [div_le_iff₀ hu, show ((2 ^ 53 : Int) : ℚ) = (2 : ℚ) ^ 53 by norm_cast,
        two_pow_mul_zpow' 53 _ _ rfl]
      exact lt_zpow_ulpExp.le
    have := roundHalfEven_mono hq
    rwa [roundHalfEven_intCast] at this
  have hE : -1074 ≤ ulpExp a := by unfold ulpExp; omega
  obtain ⟨M, hM⟩ := Int.eq_ofNat_of_zero_le hM0
  have hval : roundMag a = (M : ℚ) * 2 ^ ulpExp a := by
    unfold roundMag
    rw [hM]
    norm_cast
  rw [hval]
  rw [hM] at hM1
  rcases lt_or_eq_of_le hM1 with hlt | heq
  · exact roundMag_dyadic M _ (by exact_mod_cast hlt) hE
  · have hM53 : M = 2 ^ 53 := by exact_mod_cast heq
    have h1 := roundMag_dyadic 1 (ulpExp a + 53) (by norm_num) (by omega)
    have h2 : ((1 : Nat) : ℚ) * 2 ^ (ulpExp a + 53) = (M : ℚ) * 2 ^ ulpExp a := by
      rw [hM53, ← two_pow_mul_zpow' 53 (ulpExp a) (ulpExp a + 53) rfl]
      push_cast
      ring
    rw [h2] at h1
    exact h1

theorem round_of_nonneg {q : ℚ} (hq : 0 ≤ q) :
    JsNum.round q = if 2 ^ 1024 ≤ roundMag q then .inf false else .fin (roundMag q) := by
  unfold JsNum.round
  rw [abs_of_nonneg hq]
  simp [not_lt.mpr hq]

theorem round_of_neg {q : ℚ} (hq : q < 0) :
    JsNum.round q = if 2 ^ 1024 ≤ roundMag (-q) then .inf true else .fin (-roundMag (-q)) := by
  unfold JsNum.round
  rw [abs_of_neg hq]
  simp [hq]

theorem round_zero : JsNum.round 0 = .fin 0 := by
  rw [round_of_nonneg (le_refl 0), roundMag_zero]
  norm_num

/-- Rounding is monotone. -/
theorem round_le_round {x y : ℚ} (h : x ≤ y) : JsNum.le (JsNum.round x) (JsNum.round y) = true := by
  by_cases hx : 0 ≤ x
  · have hy : 0 ≤ y := le_trans hx h
    have hm := roundMag_mono' hx h
    rw [round_of_nonneg hx, round_of_nonneg hy]
    by_cases h1 : (2 : ℚ) ^ 1024 ≤ roundMag x
    · rw [if_pos h1, if_pos (le_trans h1 hm)]; rfl
    · rw [if_neg h1]
      by_cases h2 : (2 : ℚ) ^ 1024 ≤ roundMag y
      · rw [if_pos h2]; rfl
      · rw [if_neg h2]; simpa [JsNum.le] using hm
  · have hx' : x < 0 := not_le.mp hx
    rw [round_of_neg hx']
    by_cases hy : 0 ≤ y
    · rw [round_of_nonneg hy]
      have h0 := roundMag_nonneg (a := -x) (by linarith)
      have h0' := roundMag_nonneg hy
      by_cases h1 : (2 : ℚ) ^ 1024 ≤ roundMag (-x) <;> by_cases h2 : (2 : ℚ) ^ 1024 ≤ roundMag y
      · rw [if_pos h1, if_pos h2]; rfl
      · rw [if_pos h1, if_neg h2]; rfl
      · rw [if_neg h1, if_pos h2]; rfl
      · rw [if_neg h1, if_neg h2]
        simp only [JsNum.le, decide_eq_true_eq]
        linarith
    · have hy' : y < 0 := not_le.mp hy
      rw [round_of_neg hy']
      have hm := roundMag_mono' (a := -y) (b := -x) (by linarith) (by linarith)
      by_cases h1 : (2 : ℚ) ^ 1024 ≤ roundMag (-x)
      · rw [if_pos h1]
        by_cases h2 : (2 : ℚ) ^ 1024 ≤ roundMag (-y)
        · rw [if_pos h2]; rfl
        · rw [if_neg h2]; rfl
      · rw [if_neg h1, if_neg (fun h2 => h1 (le_trans h2 hm))]
        simp only [JsNum.le, decide_eq_true_eq]
        linarith

/-- Rounding leaves the result of a rounding unchanged. -/
theorem round_idem {q r : ℚ} (h : JsNum.round q = .fin r) : JsNum.round r = .fin r := by
  by_cases hq : 0 ≤ q
  · rw [round_of_nonneg hq] at h
    by_cases h1 : (2 : ℚ) ^ 1024 ≤ roundMag q
    · rw [if_pos h1] at h; cases h
    · rw [if_neg h1] at h
      have hr : r = roundMag q := (JsNum.fin.inj h).symm
      have h0 := roundMag_nonneg hq
      rw [hr, round_of_nonneg h0, roundMag_idem hq, if_neg h1]
  · have hq' : q < 0 := not_le.mp hq
    have hq0 : (0 : ℚ) ≤ -q := by linarith
    rw [round_of_neg hq'] at h
    by_cases h1 : (2 : ℚ) ^ 1024 ≤ roundMag (-q)
    · rw [if_pos h1] at h; cases h
    · rw [if_neg h1] at h
      have hr : r = -roundMag (-q) := (JsNum.fin.inj h).symm
      have h0 := roundMag_nonneg hq0
      rcases eq_or_lt_of_le h0 with hz | hpos
      · rw [hr, ← hz]; simpa using round_zero
      · rw [hr, round_of_neg (by linarith), neg_neg, roundMag_idem hq0, if_neg h1]

/-- Integers up to `2 ^ 53` in absolute value are doubles. -/
theorem round_intCast (z : Int) (hz : |z| ≤ 2 ^ 53) : JsNum.round (z : ℚ) = .fin z := by
  have key : ∀ n : Nat, n ≤ 2 ^ 53 → roundMag (n : ℚ) = n := by
    intro n hn
    rcases lt_or_eq_of_le hn with hlt | heq
    · simpa using roundMag_dyadic n 0 hlt (by norm_num)
    · have := roundMag_dyadic 1 53 (by norm_num) (by norm_num)
      rw [heq]
      norm_num at this ⊢
      exact this
  have hbig : ∀ n : Nat, n ≤ 2 ^ 53 → ¬ ((2 : ℚ) ^ 1024 ≤ (n : ℚ)) := by
    intro n hn h
    have h1 : (n : ℚ) ≤ 2 ^ 53 := by exact_mod_cast hn
    have h2 : (2 : ℚ) ^ 53 < 2 ^ 1024 := by norm_num
    linarith
  by_cases h0 : 0 ≤ z
  · obtain ⟨n, rfl⟩ := Int.eq_ofNat_of_zero_le h0
    have hn : n ≤ 2 ^ 53 := by
      rw [abs_of_nonneg h0] at hz
      exact_mod_cast hz
    rw [round_of_nonneg (by exact_mod_cast h0)]
    push_cast
    rw [key n hn, if_neg (hbig n hn)]
  · have hneg : z < 0 := not_le.mp h0
    obtain ⟨n, hn⟩ := Int.eq_ofNat_of_zero_le (show 0 ≤ -z by omega)
    have hn' : n ≤ 2 ^ 53 := by
      rw [abs_of_neg hneg, hn] at hz
      exact_mod_cast hz
    have hzq : (z : ℚ) = -(n : ℚ) := by
      have : z = -(n : Int) := by omega
      rw [this]; push_cast; ring
    rw [hzq, round_of_neg (by
      have : (0 : ℚ) < n := by
        have : (0 : Int) < n := by omega
        exact_mod_cast this
      linarith), neg_neg, key n hn', if_neg (hbig n hn')]

end Rounding

/-! ## Lemmas on the collaborators and the normal form -/

open RentalService

theorem find_id_of_loaded {w : World} {k : Identifier} {rental : Rental}
    (h : RentalModel.findByIdentifier w k = some rental) :
    ∃ r, w.rentals.find? (fun x => decide (x.id = rental.id)) = some r := by
  have hmem : rental ∈ w.rentals := by
    cases k <;> exact List.mem_of_find?_eq_some h
  have : (w.rentals.find? (fun x => decide (x.id = rental.id))).isSome := by
    rw [List.find?_isSome]
    exact ⟨rental, hmem, by simp⟩
  exact Option.isSome_iff_exists.mp this

theorem issued_self (w : World) : issued w w = [] := by simp [issued]

theorem follows_fail (o : Outcomes) (w : World) (r : Rental) (e : Thrown) :
    Follows o w r (.error e, w) (.fail [] e) := by
  simp [Follows, Plan.result, Plan.effects, Plan.rentals, issued_self]

theorem updateQuantityAvailable_trace (o : Outcomes) (w : World) (p : Nat) (d : Int) :
    (ProductModel.updateQuantityAvailable o w p d).2.trace = w.trace ++ [.quantityAdjust p d] := by
  unfold ProductModel.updateQuantityAvailable
  simp only [World.emit]
  split_ifs <;> (try split) <;> (try split_ifs) <;> rfl

theorem updateQuantityAvailable_rentals (o : Outcomes) (w : World) (p : Nat) (d : Int) :
    (ProductModel.updateQuantityAvailable o w p d).2.rentals = w.rentals := by
  unfold ProductModel.updateQuantityAvailable
  simp only [World.emit]
  split_ifs <;> (try split) <;> (try split_ifs) <;> rfl

theorem restoreAfterCancel_trace (o : Outcomes) (w : World) (rental : Rental) :
    (restoreAfterCancel o w rental).trace = w.trace ++ cancelRestoreEffects rental := by
  unfold restoreAfterCancel cancelRestoreEffects
  split_ifs <;> simp [updateQuantityAvailable_trace]

theorem restoreAfterCancel_rentals (o : Outcomes) (w : World) (rental : Rental) :
    (restoreAfterCancel o w rental).rentals = w.rentals := by
  unfold restoreAfterCancel
  split_ifs <;> simp [updateQuantityAvailable_rentals]

theorem restoreAfterReturn_trace (o : Outcomes) (w : World) (rental : Rental) (s : String) :
    (restoreAfterReturn o w rental s).trace = w.trace ++ returnRestoreEffects rental s := by
  unfold restoreAfterReturn returnRestoreEffects
  by_cases h1 : s = "completed" <;> by_cases h2 : truthyId rental.product_id = true <;>
    simp [h1, h2, updateQuantityAvailable_trace]

theorem restoreAfterReturn_rentals (o : Outcomes) (w : World) (rental : Rental) (s : String) :
    (restoreAfterReturn o w rental s).rentals = w.rentals := by
  unfold restoreAfterReturn
  split_ifs <;> simp [updateQuantityAvailable_rentals]

theorem uploadReturnImages_eq (o : Outcomes) (rental : Rental) (files : List UploadedFile) :
    ∀ (w : World) (acc : List String),
      uploadReturnImages o rental files w acc =
        (uploadOutcome o files acc,
          { w with trace := w.trace ++ uploadEffects o rental files }) := by
  induction files with
  | nil => intro w acc; simp [uploadReturnImages, uploadOutcome, uploadEffects]
  | cons file rest ih =>
    intro w acc
    cases hu : o.upload file with
    | none =>
      simp [uploadReturnImages, uploadOutcome, uploadEffects,
        FileService.uploadFileToSupabaseStorage, hu, World.emit, returnImagePath]
    | some url =>
      simp [uploadReturnImages, uploadOutcome, uploadEffects,
        FileService.uploadFileToSupabaseStorage, hu, World.emit, returnImagePath, ih]

theorem approve_follows (o : Outcomes) (w : World) (k : Identifier) (a : Nat) (rental r : Rental)
    (hfind : RentalModel.findByIdentifier w k = some rental)
    (hr : w.rentals.find? (fun x => decide (x.id = rental.id)) = some r) :
    Follows o w r (approveRentalRequest o w k a) (approvePlan o w rental a) := by
  unfold approveRentalRequest approvePlan
  simp only [hfind]
  by_cases h1 : rental.owner_id ≠ a
  · simp only [if_pos h1]; exact follows_fail ..
  by_cases h2 : rental.rental_status ≠ "pending_owner_approval"
  · simp only [if_neg h1, if_pos h2]; exact follows_fail ..
  simp only [if_neg h1, if_neg h2]
  cases hp : rental.product_id.bind (fun pid => ProductModel.findByIdOrSlug w (.id pid)) with
  | none => exact follows_fail ..
  | some product =>
    by_cases h3 : product.quantity_available < 1 ∧ product.quantity > 0
    · simp only [if_pos h3]; exact follows_fail ..
    simp only [if_neg h3]
    cases hu : o.rentalUpdateOk <;> cases hh : o.historyOk <;> cases hn : o.notifyOk <;>
      simp [Follows, RentalModel.update, hr, RentalStatusHistoryModel.create,
        NotificationService.createNotification, hu, hh, hn, Plan.result, Plan.effects,
        Plan.rentals, issued, World.emit, notifyError]

theorem reject_follows (o : Outcomes) (w : World) (k : Identifier) (a : Nat) (reason : String)
    (rental r : Rental)
    (hfind : RentalModel.findByIdentifier w k = some rental)
    (hr : w.rentals.find? (fun x => decide (x.id = rental.id)) = some r) :
    Follows o w r (rejectRentalRequest o w k a reason) (rejectPlan o rental a reason) := by
  unfold rejectRentalRequest rejectPlan
  simp only [hfind]
  by_cases h1 : rental.owner_id ≠ a
  · simp only [if_pos h1]; exact follows_fail ..
  by_cases h2 : rental.rental_status ≠ "pending_owner_approval"
  · simp only [if_neg h1, if_pos h2]; exact follows_fail ..
  simp only [if_neg h1, if_neg h2]
  cases hu : o.rentalUpdateOk <;> cases hh : o.historyOk <;> cases hn : o.notifyOk <;>
    simp [Follows, RentalModel.update, hr, RentalStatusHistoryModel.create,
      NotificationService.createNotification, hu, hh, hn, Plan.result, Plan.effects,
      Plan.rentals, issued, World.emit, notifyError]

theorem verify_follows (o : Outcomes) (w : World) (k : Identifier) (a : Nat)
    (amount_paid : Option JsValue) (rental r : Rental)
    (hfind : RentalModel.findByIdentifier w k = some rental)
    (hr : w.rentals.find? (fun x => decide (x.id = rental.id)) = some r) :
    Follows o w r (verifyRentalPaymentByOwner o w k a amount_paid)
      (verifyPlan o rental a amount_paid) := by
  unfold verifyRentalPaymentByOwner verifyPlan
  simp only [hfind]
  by_cases h1 : rental.owner_id ≠ a
  · simp only [if_pos h1]; exact follows_fail ..
  by_cases h2 : rental.payment_status ≠ "pending_verification"
  · simp only [if_neg h1, if_pos h2]; exact follows_fail ..
  simp only [if_neg h1, if_neg h2]
  cases hu : o.rentalUpdateOk <;> cases hh : o.historyOk <;> cases hn : o.notifyOk <;>
    simp [Follows, RentalModel.update, hr, RentalStatusHistoryModel.create,
      NotificationService.createNotification, hu, hh, hn, Plan.result, Plan.effects,
      Plan.rentals, issued, World.emit, notifyError, verifiedStatus]

theorem cancel_follows (o : Outcomes) (w : World) (k : Identifier) (a : Nat) (reason : String)
    (rental r : Rental)
    (hfind : RentalModel.findByIdentifier w k = some rental)
    (hr : w.rentals.find? (fun x => decide (x.id = rental.id)) = some r) :
    Follows o w r (cancelRentalByUser o w k a reason) (cancelPlan o rental a reason) := by
  unfold cancelRentalByUser cancelPlan
  simp only [hfind]
  by_cases h1 : rental.renter_id ≠ a
  · simp only [if_pos h1]; exact follows_fail ..
  by_cases h2 : rental.rental_status ∉ cancellableStatuses
  · simp only [if_neg h1, if_pos h2]; exact follows_fail ..
  simp only [if_neg h1, if_neg h2]
  cases hu : o.rentalUpdateOk <;> cases hh : o.historyOk <;> cases hn : o.notifyOk <;>
    simp [Follows, RentalModel.update, hr, RentalStatusHistoryModel.create,
      NotificationService.createNotification, hu, hh, hn, Plan.result, Plan.effects,
      Plan.rentals, issued, World.emit, notifyError, restoreAfterCancel_trace,
      restoreAfterCancel_rentals]

theorem submit_follows (o : Outcomes) (w : World) (k : Identifier) (a : Nat)
    (fileObject : Option UploadedFile) (d : PaymentDetails) (rental r : Rental)
    (hfind : RentalModel.findByIdentifier w k = some rental)
    (hr : w.rentals.find? (fun x => decide (x.id = rental.id)) = some r) :
    Follows o w r (submitPaymentProof o w k a fileObject d) (submitPlan o rental a fileObject d) := by
  unfold submitPaymentProof submitPlan
  simp only [hfind]
  by_cases h1 : rental.renter_id ≠ a
  · simp only [if_pos h1]; exact follows_fail ..
  by_cases h2 : rental.rental_status ≠ "pending_payment"
  · simp only [if_neg h1, if_pos h2]; exact follows_fail ..
  simp only [if_neg h1, if_neg h2]
  cases fileObject with
  | none => exact follows_fail ..
  | some file =>
    cases hup : o.upload file with
    | none =>
      simp [Follows, FileService.uploadFileToSupabaseStorage, hup, Plan.result, Plan.effects,
        Plan.rentals, issued, World.emit, proofPath]
    | some proofUrl =>
      by_cases h3 : truthyStr proofUrl = false
      · simp [Follows, FileService.uploadFileToSupabaseStorage, hup, h3, Plan.result,
          Plan.effects, Plan.rentals, issued, World.emit, proofPath]
      cases hu : o.rentalUpdateOk <;> cases hh : o.historyOk <;>
        cases hn : o.paymentTransactionOk <;>
        simp [Follows, FileService.uploadFileToSupabaseStorage, hup, h3, RentalModel.update, hr,
          RentalStatusHistoryModel.create, PaymentTransactionModel.create, hu, hh, hn,
          Plan.result, Plan.effects, Plan.rentals, issued, World.emit, proofPath,
          proofTransaction]

theorem return_follows (o : Outcomes) (w : World) (k : Identifier) (a : Nat)
    (d : ReturnData) (files : List UploadedFile) (rental r : Rental)
    (hfind : RentalModel.findByIdentifier w k = some rental)
    (hr : w.rentals.find? (fun x => decide (x.id = rental.id)) = some r) :
    Follows o w r (processReturn o w k a d files) (returnPlan o rental a d files) := by
  unfold processReturn returnPlan
  simp only [hfind]
  by_cases h1 : rental.owner_id ≠ a
  · simp only [if_pos h1]; exact follows_fail ..
  by_cases h2 : rental.rental_status ∉ validStatusesForReturn
  · simp only [if_neg h1, if_pos h2]; exact follows_fail ..
  simp only [if_neg h1, if_neg h2]
  cases files with
  | nil =>
    cases hu : o.rentalUpdateOk <;> cases hh : o.historyOk <;>
      simp [Follows, returnConditionImageUrls, uploadOutcome, uploadEffects, RentalModel.update,
        hr, RentalStatusHistoryModel.create, hu, hh, Plan.result, Plan.effects, Plan.rentals,
        issued, World.emit, restoreAfterReturn_trace, restoreAfterReturn_rentals, returnNote]
  | cons file rest =>
    cases hup : uploadOutcome o (file :: rest) [] with
    | error e =>
      simp [Follows, returnConditionImageUrls, uploadReturnImages_eq, hup, Plan.result,
        Plan.effects, Plan.rentals, issued]
    | ok urls =>
      cases hu : o.rentalUpdateOk <;> cases hh : o.historyOk <;>
        simp [Follows, returnConditionImageUrls, uploadReturnImages_eq, hup, RentalModel.update,
          hr, RentalStatusHistoryModel.create, hu, hh, Plan.result, Plan.effects, Plan.rentals,
          issued, World.emit, restoreAfterReturn_trace, restoreAfterReturn_rentals, returnNote]


theorem run_follows (o : Outcomes) (w : World) (k : Identifier) (op : Op) (rental : Rental)
    (hfind : RentalModel.findByIdentifier w k = some rental) :
    ∃ r, Follows o w r (op.run o w k) (op.plan o w rental) := by
  obtain ⟨r, hr⟩ := find_id_of_loaded hfind
  refine ⟨r, ?_⟩
  cases op with
  | approveRentalRequest a => exact approve_follows o w k a rental r hfind hr
  | rejectRentalRequest a reason => exact reject_follows o w k a reason rental r hfind hr
  | submitPaymentProof a f d => exact submit_follows o w k a f d rental r hfind hr
  | verifyRentalPaymentByOwner a amt => exact verify_follows o w k a amt rental r hfind hr
  | cancelRentalByUser a reason => exact cancel_follows o w k a reason rental r hfind hr
  | processReturn a d files => exact return_follows o w k a d files rental r hfind hr

theorem onlyUploads_uploadEffects (o : Outcomes) (rental : Rental) (files : List UploadedFile) :
    OnlyUploads (uploadEffects o rental files) := by
  induction files with
  | nil => intro e he; simp [uploadEffects] at he
  | cons f rest ih =>
    intro e he
    cases h : o.upload f with
    | none =>
      simp only [uploadEffects, h, List.mem_singleton] at he
      exact ⟨_, _, he⟩
    | some url =>
      simp only [uploadEffects, h, List.mem_cons] at he
      rcases he with he | he
      · exact ⟨_, _, he⟩
      · exact ih e he

theorem onlyUploads_nil : OnlyUploads [] := by
  intro e he; simp at he

theorem onlyUploads_singleton (b p : String) : OnlyUploads [Effect.upload b p] := by
  intro e he
  simp only [List.mem_singleton] at he
  exact ⟨b, p, he⟩

theorem statusWrites_onlyUploads {es : List Effect} (h : OnlyUploads es) :
    statusWrites es = [] := by
  unfold statusWrites
  rw [List.filterMap_eq_nil_iff]
  intro e he
  obtain ⟨b, p, rfl⟩ := h e he
  rfl

theorem rentalUpdates_onlyUploads {es : List Effect} (h : OnlyUploads es) :
    rentalUpdates es = [] := by
  unfold rentalUpdates
  rw [List.filterMap_eq_nil_iff]
  intro e he
  obtain ⟨b, p, rfl⟩ := h e he
  rfl

theorem historyEntries_onlyUploads {es : List Effect} (h : OnlyUploads es) :
    historyEntries es = [] := by
  unfold historyEntries
  rw [List.filterMap_eq_nil_iff]
  intro e he
  obtain ⟨b, p, rfl⟩ := h e he
  rfl

theorem quantityAdjustments_onlyUploads {es : List Effect} (h : OnlyUploads es) :
    quantityAdjustments es = [] := by
  unfold quantityAdjustments
  rw [List.filterMap_eq_nil_iff]
  intro e he
  obtain ⟨b, p, rfl⟩ := h e he
  rfl

theorem plan_success (o : Outcomes) (w : World) (rental r : Rental) (op : Op) (u : Rental)
    (h : (op.plan o w rental).result o r = .ok u) :
    ∃ c, op.plan o w rental = .commit c ∧ o.rentalUpdateOk = true ∧ o.historyOk = true ∧
      c.postError = none ∧ u = c.fields.applyTo r := by
  cases hp : op.plan o w rental with
  | fail pre e => simp [hp, Plan.result] at h
  | commit c =>
    refine ⟨c, rfl, ?_⟩
    simp only [hp, Plan.result] at h
    cases hu : o.rentalUpdateOk <;> cases hh : o.historyOk <;> cases he : c.postError <;>
      simp_all

theorem cancelRestoreEffects_obs (rental : Rental) :
    statusWrites (cancelRestoreEffects rental) = [] ∧
      rentalUpdates (cancelRestoreEffects rental) = [] ∧
      historyEntries (cancelRestoreEffects rental) = [] := by
  unfold cancelRestoreEffects
  split_ifs <;> simp [statusWrites, rentalUpdates, historyEntries]

theorem returnRestoreEffects_obs (rental : Rental) (s : String) :
    statusWrites (returnRestoreEffects rental s) = [] ∧
      rentalUpdates (returnRestoreEffects rental s) = [] ∧
      historyEntries (returnRestoreEffects rental s) = [] := by
  unfold returnRestoreEffects
  split_ifs <;> simp [statusWrites, rentalUpdates, historyEntries]

theorem newRentalStatus_mem (d : ReturnData) : newRentalStatus d ∈ ["completed", "dispute"] := by
  unfold newRentalStatus
  split_ifs <;> simp

theorem statusWrites_append (a b : List Effect) :
    statusWrites (a ++ b) = statusWrites a ++ statusWrites b := by
  simp [statusWrites, List.filterMap_append]

theorem rentalUpdates_append (a b : List Effect) :
    rentalUpdates (a ++ b) = rentalUpdates a ++ rentalUpdates b := by
  simp [rentalUpdates, List.filterMap_append]

theorem historyEntries_append (a b : List Effect) :
    historyEntries (a ++ b) = historyEntries a ++ historyEntries b := by
  simp [historyEntries, List.filterMap_append]

theorem quantityAdjustments_append (a b : List Effect) :
    quantityAdjustments (a ++ b) = quantityAdjustments a ++ quantityAdjustments b := by
  simp [quantityAdjustments, List.filterMap_append]

theorem plan_commit (o : Outcomes) (w : World) (rental : Rental) (op : Op) (c : Commit)
    (h : op.plan o w rental = .commit c) :
    c.id = rental.id ∧ OnlyUploads c.pre ∧
    statusWrites c.post = [] ∧ rentalUpdates c.post = [] ∧ historyEntries c.post = [] ∧
    ∃ new, c.fields.rental_status = some new ∧ specTransition op rental.rental_status new ∧
      c.entry.rental_id = rental.id ∧ c.entry.new_status = new ∧
      c.entry.old_status = some rental.rental_status ∧ c.entry.actor_user_id = op.actor := by
  cases op with
  | approveRentalRequest a =>
    simp only [Op.plan, approvePlan] at h
    by_cases h1 : rental.owner_id ≠ a
    · simp [if_pos h1] at h
    by_cases h2 : rental.rental_status ≠ "pending_owner_approval"
    · simp [if_neg h1, if_pos h2] at h
    simp only [if_neg h1, if_neg h2] at h
    cases hp : rental.product_id.bind (fun pid => ProductModel.findByIdOrSlug w (.id pid)) with
    | none => simp [hp] at h
    | some product =>
      simp only [hp] at h
      by_cases h3 : product.quantity_available < 1 ∧ product.quantity > 0
      · simp [if_pos h3] at h
      simp only [if_neg h3, Plan.commit.injEq] at h
      subst h
      exact ⟨rfl, onlyUploads_nil, rfl, rfl, rfl, _, rfl, ⟨not_not.mp h2, rfl⟩, rfl, rfl, rfl, rfl⟩
  | rejectRentalRequest a reason =>
    simp only [Op.plan, rejectPlan] at h
    by_cases h1 : rental.owner_id ≠ a
    · simp [if_pos h1] at h
    by_cases h2 : rental.rental_status ≠ "pending_owner_approval"
    · simp [if_neg h1, if_pos h2] at h
    simp only [if_neg h1, if_neg h2, Plan.commit.injEq] at h
    subst h
    exact ⟨rfl, onlyUploads_nil, rfl, rfl, rfl, _, rfl, ⟨not_not.mp h2, rfl⟩, rfl, rfl, rfl, rfl⟩
  | submitPaymentProof a f d =>
    simp only [Op.plan, submitPlan] at h
    by_cases h1 : rental.renter_id ≠ a
    · simp [if_pos h1] at h
    by_cases h2 : rental.rental_status ≠ "pending_payment"
    · simp [if_neg h1, if_pos h2] at h
    simp only [if_neg h1, if_neg h2] at h
    cases f with
    | none => simp at h
    | some file =>
      cases hup : o.upload file with
      | none => simp [hup] at h
      | some proofUrl =>
        simp only [hup] at h
        by_cases h3 : truthyStr proofUrl = false
        · simp [if_pos h3] at h
        simp only [if_neg h3, Plan.commit.injEq] at h
        subst h
        exact ⟨rfl, onlyUploads_singleton _ _, rfl, rfl, rfl, _, rfl, ⟨not_not.mp h2, rfl⟩,
          rfl, rfl, rfl, rfl⟩
  | verifyRentalPaymentByOwner a amt =>
    simp only [Op.plan, verifyPlan] at h
    by_cases h1 : rental.owner_id ≠ a
    · simp [if_pos h1] at h
    by_cases h2 : rental.payment_status ≠ "pending_verification"
    · simp [if_neg h1, if_pos h2] at h
    simp only [if_neg h1, if_neg h2, Plan.commit.injEq] at h
    subst h
    refine ⟨rfl, onlyUploads_nil, rfl, rfl, rfl, _, rfl, ?_, rfl, rfl, rfl, rfl⟩
    simp only [specTransition, verifiedStatus]
    by_cases hc : rental.rental_status = "confirmed" <;> simp [hc]
  | cancelRentalByUser a reason =>
    simp only [Op.plan, cancelPlan] at h
    by_cases h1 : rental.renter_id ≠ a
    · simp [if_pos h1] at h
    by_cases h2 : rental.rental_status ∉ cancellableStatuses
    · simp [if_neg h1, if_pos h2] at h
    simp only [if_neg h1, if_neg h2, Plan.commit.injEq] at h
    subst h
    obtain ⟨e1, e2, e3⟩ := cancelRestoreEffects_obs rental
    refine ⟨rfl, onlyUploads_nil, ?_, ?_, ?_, _, rfl, ⟨not_not.mp h2, rfl⟩, rfl, rfl, rfl, rfl⟩
    · rw [statusWrites_append, e1]; rfl
    · rw [rentalUpdates_append, e2]; rfl
    · rw [historyEntries_append, e3]; rfl
  | processReturn a d files =>
    simp only [Op.plan, returnPlan] at h
    by_cases h1 : rental.owner_id ≠ a
    · simp [if_pos h1] at h
    by_cases h2 : rental.rental_status ∉ validStatusesForReturn
    · simp [if_neg h1, if_pos h2] at h
    simp only [if_neg h1, if_neg h2] at h
    cases hup : uploadOutcome o files [] with
    | error e => simp [hup] at h
    | ok urls =>
      simp only [hup, Plan.commit.injEq] at h
      subst h
      obtain ⟨e1, e2, e3⟩ := returnRestoreEffects_obs rental (newRentalStatus d)
      exact ⟨rfl, onlyUploads_uploadEffects _ _ _, e1, e2, e3, _, rfl,
        ⟨not_not.mp h2, newRentalStatus_mem d⟩, rfl, rfl, rfl, rfl⟩

theorem plan_fail_of_not_source (o : Outcomes) (w : World) (rental : Rental) (op : Op)
    (h : ¬ specSource op rental.rental_status) :
    ∃ e, op.plan o w rental = .fail [] e := by
  cases op with
  | approveRentalRequest a =>
    simp only [specSource] at h
    simp only [Op.plan, approvePlan]
    split_ifs
    · exact ⟨_, rfl⟩
    · exact ⟨_, rfl⟩
  | rejectRentalRequest a reason =>
    simp only [specSource] at h
    simp only [Op.plan, rejectPlan]
    split_ifs
    · exact ⟨_, rfl⟩
    · exact ⟨_, rfl⟩
  | submitPaymentProof a f d =>
    simp only [specSource] at h
    simp only [Op.plan, submitPlan]
    split_ifs
    · exact ⟨_, rfl⟩
    · exact ⟨_, rfl⟩
  | verifyRentalPaymentByOwner a amt => simp [specSource] at h
  | cancelRentalByUser a reason =>
    simp only [specSource] at h
    simp only [Op.plan, cancelPlan, cancellableStatuses]
    split_ifs
    · exact ⟨_, rfl⟩
    · exact ⟨_, rfl⟩
  | processReturn a d files =>
    simp only [specSource] at h
    simp only [Op.plan, returnPlan, validStatusesForReturn]
    split_ifs
    · exact ⟨_, rfl⟩
    · exact ⟨_, rfl⟩


theorem findByIdentifier_after (w w' : World) (k : Identifier) (id : Nat) (f : RentalFields)
    (h : w'.rentals = w.rentals.map (fun x => if x.id = id then f.applyTo x else x)) :
    RentalModel.findByIdentifier w' k =
      (RentalModel.findByIdentifier w k).map (fun x => if x.id = id then f.applyTo x else x) := by
  cases k with
  | id n =>
    simp only [RentalModel.findByIdentifier, h, List.find?_map]
    congr 2
    funext x
    by_cases hx : x.id = id <;> simp [hx, RentalFields.applyTo]
  | text t =>
    simp only [RentalModel.findByIdentifier, h, List.find?_map]
    congr 2
    funext x
    by_cases hx : x.id = id <;> simp [hx, RentalFields.applyTo]

theorem applyTo_status (f : RentalFields) (r : Rental) (new : String)
    (h : f.rental_status = some new) : (f.applyTo r).rental_status = new := by
  simp [RentalFields.applyTo, h]

theorem plan_notify (o : Outcomes) (b : Bool) (w : World) (rental : Rental) (op : Op)
    (hn : op.notifies) (c : Commit)
    (h : op.plan { o with notifyOk := b } w rental = .commit c) :
    op.plan o w rental = .commit { c with postError := notifyError o } := by
  cases op with
  | approveRentalRequest a =>
    simp only [Op.plan, approvePlan] at h ⊢
    by_cases h1 : rental.owner_id ≠ a
    · simp [if_pos h1] at h
    by_cases h2 : rental.rental_status ≠ "pending_owner_approval"
    · simp [if_neg h1, if_pos h2] at h
    simp only [if_neg h1, if_neg h2] at h ⊢
    cases hp : rental.product_id.bind (fun pid => ProductModel.findByIdOrSlug w (.id pid)) with
    | none => simp [hp] at h
    | some product =>
      simp only [hp] at h ⊢
      by_cases h3 : product.quantity_available < 1 ∧ product.quantity > 0
      · simp [if_pos h3] at h
      simp only [if_neg h3, Plan.commit.injEq] at h ⊢
      subst h
      rfl
  | rejectRentalRequest a reason =>
    simp only [Op.plan, rejectPlan] at h ⊢
    by_cases h1 : rental.owner_id ≠ a
    · simp [if_pos h1] at h
    by_cases h2 : rental.rental_status ≠ "pending_owner_approval"
    · simp [if_neg h1, if_pos h2] at h
    simp only [if_neg h1, if_neg h2, Plan.commit.injEq] at h ⊢
    subst h
    rfl
  | submitPaymentProof a f d => exact absurd hn (by simp [Op.notifies])
  | verifyRentalPaymentByOwner a amt =>
    simp only [Op.plan, verifyPlan] at h ⊢
    by_cases h1 : rental.owner_id ≠ a
    · simp [if_pos h1] at h
    by_cases h2 : rental.payment_status ≠ "pending_verification"
    · simp [if_neg h1, if_pos h2] at h
    simp only [if_neg h1, if_neg h2, Plan.commit.injEq] at h ⊢
    subst h
    rfl
  | cancelRentalByUser a reason =>
    simp only [Op.plan, cancelPlan] at h ⊢
    by_cases h1 : rental.renter_id ≠ a
    · simp [if_pos h1] at h
    by_cases h2 : rental.rental_status ∉ cancellableStatuses
    · simp [if_neg h1, if_pos h2] at h
    simp only [if_neg h1, if_neg h2, Plan.commit.injEq] at h ⊢
    subst h
    rfl
  | processReturn a d files => exact absurd hn (by simp [Op.notifies])


theorem run_success (o : Outcomes) (w : World) (k : Identifier) (op : Op)
    (rental u : Rental) (hfind : RentalModel.findByIdentifier w k = some rental)
    (hok : (op.run o w k).1 = .ok u) :
    ∃ c new, op.plan o w rental = .commit c ∧ o.rentalUpdateOk = true ∧ o.historyOk = true ∧
      c.postError = none ∧
      specTransition op rental.rental_status new ∧
      statusWrites (issued w (op.run o w k).2) = [new] ∧
      historyEntries (issued w (op.run o w k).2) = [c.entry] ∧
      u.rental_status = new ∧
      (RentalModel.findByIdentifier (op.run o w k).2 k).map (fun r => r.rental_status)
        = some new ∧
      c.entry.rental_id = rental.id ∧ c.entry.new_status = new ∧
      c.entry.old_status = some rental.rental_status ∧ c.entry.actor_user_id = op.actor := by
  obtain ⟨r, hres, hiss, hrent⟩ := run_follows o w k op rental hfind
  rw [hres] at hok
  obtain ⟨c, hc, h1, h2, h3, rfl⟩ := plan_success o w rental r op u hok
  obtain ⟨hid, hpre, hp1, -, hp3, new, hnew, htr, e1, e2, e3, e4⟩ :=
    plan_commit o w rental op c hc
  refine ⟨c, new, hc, h1, h2, h3, htr, ?_, ?_, applyTo_status _ _ _ hnew, ?_, e1, e2, e3, e4⟩
  · rw [hiss, hc]
    simp only [Plan.effects, h1, h2, if_true]
    rw [statusWrites_append, statusWrites_onlyUploads hpre]
    simp [statusWrites, hnew]
    simpa [statusWrites] using hp1
  · rw [hiss, hc]
    simp only [Plan.effects, h1, h2, if_true]
    rw [historyEntries_append, historyEntries_onlyUploads hpre]
    simp [historyEntries]
    simpa [historyEntries] using hp3
  · rw [hc] at hrent
    simp only [Plan.rentals, h1, if_true] at hrent
    rw [findByIdentifier_after w _ k c.id c.fields hrent, hfind]
    simp [hid, applyTo_status _ _ _ hnew]

theorem specEdge_of_specTransition (op : Op) (old new : String)
    (h : specTransition op old new) : specEdge old new ∨ new = old := by
  cases op <;> simp only [specTransition] at h <;> simp only [specEdge]
  all_goals first
    | (rcases h with ⟨h1, h2⟩ | ⟨h1, h2⟩ <;> simp [h1, h2])
    | (obtain ⟨h1, h2⟩ := h; simp [h1, h2])

theorem createRentalRequest_checked (o : Outcomes) (w : World) (renterId : Nat)
    (d : RentalRequestData) (product : Product)
    (hprod : ProductModel.findByIdOrSlug w d.product_id = some product)
    (havail : product.availability_status = "available")
    (happ : product.admin_approval_status = "approved")
    (hown : product.owner_id ≠ renterId)
    (hstock : ¬ (product.quantity_available < 1 ∧ product.quantity > 0)) :
    createRentalRequest o w renterId d =
      if rentalDurationDays d.start_date d.end_date <
          JsNum.ofInt (orOne product.min_rental_duration_days) then
        (.error (.apiError .BAD_REQUEST
          (.minimumDuration (orOne product.min_rental_duration_days))), w)
      else if truthyInt product.max_rental_duration_days = true ∧
          rentalDurationDays d.start_date d.end_date >
        JsNum.ofInt (product.max_rental_duration_days.getD 0) then
        (.error (.apiError .BAD_REQUEST
          (.maximumDuration (product.max_rental_duration_days.getD 0))), w)
      else
        match validDeliveryAddressId w renterId d with
        | .error e => (.error e, w)
        | .ok addressId =>
          RentalModel.create o w renterId (rentalPayload w renterId d product addressId) := by
  unfold createRentalRequest
  simp only [hprod]
  simp only [if_neg hown, if_neg hstock, havail, happ, ne_eq, not_true_eq_false, or_self,
    if_false]

theorem validDeliveryAddressId_error (w : World) (renterId : Nat) (d : RentalRequestData)
    (e : Thrown) (h : validDeliveryAddressId w renterId d = .error e) :
    e = .apiError .BAD_REQUEST .deliveryAddressRequired ∨
      e = .apiError .BAD_REQUEST .invalidDeliveryAddress := by
  unfold validDeliveryAddressId at h
  by_cases h1 : d.pickup_method = "delivery"
  · rw [if_pos h1] at h
    by_cases h2 : truthyId d.delivery_address_id = false
    · rw [if_pos h2] at h
      left; simpa using h.symm
    · rw [if_neg h2] at h
      split at h
      · right; simpa using h.symm
      · simp at h
  · rw [if_neg h1] at h
    simp at h

theorem create_result (o : Outcomes) (w : World) (renterId : Nat) (payload : RentalFields) :
    (∃ u, (RentalModel.create o w renterId payload).1 = .ok u) ∨
      (RentalModel.create o w renterId payload).1 = .error (.rejected .RentalModel) := by
  unfold RentalModel.create
  cases o.rentalCreateOk
  · right; rfl
  · left; exact ⟨_, rfl⟩

theorem createRentalRequest_pass (o : Outcomes) (w : World) (renterId : Nat)
    (d : RentalRequestData) (product : Product) (addressId : Option Nat)
    (hprod : ProductModel.findByIdOrSlug w d.product_id = some product)
    (havail : product.availability_status = "available")
    (happ : product.admin_approval_status = "approved")
    (hown : product.owner_id ≠ renterId)
    (hstock : ¬ (product.quantity_available < 1 ∧ product.quantity > 0))
    (hmin : ¬ rentalDurationDays d.start_date d.end_date <
      JsNum.ofInt (orOne product.min_rental_duration_days))
    (hmax : ¬ (truthyInt product.max_rental_duration_days = true ∧
      rentalDurationDays d.start_date d.end_date >
        JsNum.ofInt (product.max_rental_duration_days.getD 0)))
    (haddr : validDeliveryAddressId w renterId d = .ok addressId) :
    createRentalRequest o w renterId d =
      RentalModel.create o w renterId (rentalPayload w renterId d product addressId) := by
  rw [createRentalRequest_checked o w renterId d product hprod havail happ hown hstock,
    if_neg hmin, if_neg hmax]
  simp only [haddr]

theorem create_success (o : Outcomes) (w : World) (renterId : Nat) (d : RentalRequestData)
    (u : Rental) (hok : (createRentalRequest o w renterId d).1 = .ok u) :
    ∃ product addressId, ProductModel.findByIdOrSlug w d.product_id = some product ∧
      createRentalRequest o w renterId d =
        RentalModel.create o w renterId (rentalPayload w renterId d product addressId) ∧
      o.rentalCreateOk = true ∧
      u = (rentalPayload w renterId d product addressId).applyTo
        (Rental.blank o.generatedId o.generatedUid
          (if o.embedsProduct then some ⟨product.id⟩ else none)) := by
  cases hprod : ProductModel.findByIdOrSlug w d.product_id with
  | none => simp [createRentalRequest, hprod] at hok
  | some product =>
    by_cases hav : product.availability_status ≠ "available" ∨
        product.admin_approval_status ≠ "approved"
    · simp [createRentalRequest, hprod, if_pos hav] at hok
    by_cases hown : product.owner_id = renterId
    · simp [createRentalRequest, hprod, if_neg hav, if_pos hown] at hok
    by_cases hstock : product.quantity_available < 1 ∧ product.quantity > 0
    · simp only [createRentalRequest, hprod, if_neg hav, if_neg hown, if_pos hstock] at hok
      simp at hok
    have hav' : product.availability_status = "available" ∧
        product.admin_approval_status = "approved" := by
      simpa [not_or] using hav
    have hc := createRentalRequest_checked o w renterId d product hprod hav'.1 hav'.2 hown hstock
    by_cases hmin : rentalDurationDays d.start_date d.end_date <
        JsNum.ofInt (orOne product.min_rental_duration_days)
    · rw [hc, if_pos hmin] at hok; simp at hok
    by_cases hmax : truthyInt product.max_rental_duration_days = true ∧
        rentalDurationDays d.start_date d.end_date >
        JsNum.ofInt (product.max_rental_duration_days.getD 0)
    · rw [hc, if_neg hmin, if_pos hmax] at hok; simp at hok
    cases haddr : validDeliveryAddressId w renterId d with
    | error e => rw [hc, if_neg hmin, if_neg hmax] at hok; simp [haddr] at hok
    | ok addressId =>
      have hp := createRentalRequest_pass o w renterId d product addressId hprod hav'.1 hav'.2
        hown hstock hmin hmax haddr
      refine ⟨product, addressId, rfl, hp, ?_⟩
      rw [hp] at hok
      unfold RentalModel.create at hok
      cases hcr : o.rentalCreateOk with
      | false => simp [hcr] at hok
      | true =>
        simp only [hcr, if_true] at hok
        refine ⟨rfl, ?_⟩
        have := Except.ok.inj hok
        rw [← this]
        simp [rentalPayload]

theorem demoRequest_pass (w : World) (hp : w.products = [demoProduct]) :
    createRentalRequest allOk w 1 demoRequest =
      RentalModel.create allOk w 1 (rentalPayload w 1 demoRequest demoProduct none) := by
  refine createRentalRequest_pass allOk w 1 demoRequest demoProduct none ?_ rfl rfl (by decide)
    (by decide) ?_ (by simp [demoProduct, truthyInt]) rfl
  · simp [ProductModel.findByIdOrSlug, hp, demoRequest, demoProduct]
  · decide!

theorem demoProduct_lookup (w : World) (hp : w.products = [demoProduct]) (p : Product)
    (h : ProductModel.findByIdOrSlug w demoRequest.product_id = some p) : p = demoProduct := by
  simp [ProductModel.findByIdOrSlug, hp, demoRequest, demoProduct] at h
  rw [← h]; rfl

theorem lateRequest_pass :
    createRentalRequest allOk (demoWorld []) 1 lateRequest =
      RentalModel.create allOk (demoWorld []) 1
        (rentalPayload (demoWorld []) 1 lateRequest demoProduct none) := by
  refine createRentalRequest_pass allOk (demoWorld []) 1 lateRequest demoProduct none rfl rfl rfl
    (by decide) (by decide) ?_ (by simp [demoProduct, truthyInt]) rfl
  decide!

theorem quantityAdjustments_cancelRestoreEffects (rental : Rental) :
    quantityAdjustments (cancelRestoreEffects rental) =
      if rental.rental_status ∈ ["confirmed", "active"] ∧
          truthyId (rental.product.map (fun p => p.id)) = true then
        [((rental.product.map (fun p => p.id)).getD 0, 1)]
      else [] := by
  unfold cancelRestoreEffects
  split_ifs <;> rfl

theorem quantityAdjustments_returnRestoreEffects (rental : Rental) (s : String) :
    quantityAdjustments (returnRestoreEffects rental s) =
      if s = "completed" ∧ truthyId rental.product_id = true then
        [(rental.product_id.getD 0, 1)]
      else [] := by
  unfold returnRestoreEffects
  split_ifs <;> rfl

theorem uploadOutcome_ok (o : Outcomes) (files : List UploadedFile)
    (h : ∀ f ∈ files, o.upload f ≠ none) :
    ∀ acc, ∃ urls, uploadOutcome o files acc = .ok urls := by
  induction files with
  | nil => intro acc; exact ⟨acc, rfl⟩
  | cons f rest ih =>
    intro acc
    cases hf : o.upload f with
    | none => exact absurd hf (h f (List.mem_cons_self _ _))
    | some url =>
      simp only [uploadOutcome, hf]
      exact ih (fun g hg => h g (List.mem_cons_of_mem _ hg)) _

theorem run_not_found (o : Outcomes) (w : World) (k : Identifier) (op : Op)
    (h : RentalModel.findByIdentifier w k = none) :
    ∃ m, op.run o w k = (.error (.apiError .NOT_FOUND m), w) := by
  cases op with
  | approveRentalRequest a =>
    exact ⟨.rentalRequestNotFound, by simp only [Op.run, approveRentalRequest, h]⟩
  | rejectRentalRequest a reason =>
    exact ⟨.rentalNotFound, by simp only [Op.run, rejectRentalRequest, h]⟩
  | submitPaymentProof a f d =>
    exact ⟨.rentalNotFound, by simp only [Op.run, submitPaymentProof, h]⟩
  | verifyRentalPaymentByOwner a amt =>
    exact ⟨.rentalNotFound, by simp only [Op.run, verifyRentalPaymentByOwner, h]⟩
  | cancelRentalByUser a reason =>
    exact ⟨.rentalNotFound, by simp only [Op.run, cancelRentalByUser, h]⟩
  | processReturn a d files =>
    exact ⟨.rentalNotFound, by simp only [Op.run, processReturn, h]⟩

theorem paymentTransactions_append (a b : List Effect) :
    paymentTransactions (a ++ b) = paymentTransactions a ++ paymentTransactions b := by
  simp [paymentTransactions, List.filterMap_append]

theorem paymentTransactions_onlyUploads {es : List Effect} (h : OnlyUploads es) :
    paymentTransactions es = [] := by
  unfold paymentTransactions
  rw [List.filterMap_eq_nil_iff]
  intro e he
  obtain ⟨b, p, rfl⟩ := h e he
  rfl

theorem rentalUpdates_commit (o : Outcomes) (c : Commit) (hpre : OnlyUploads c.pre)
    (hpost : rentalUpdates c.post = []) :
    rentalUpdates (Plan.effects o (.commit c)) = [(c.id, c.fields)] := by
  simp only [Plan.effects]
  rw [rentalUpdates_append, rentalUpdates_onlyUploads hpre]
  cases o.rentalUpdateOk <;> cases o.historyOk <;> simp [rentalUpdates]
  simpa [rentalUpdates] using hpost

theorem statusWrites_commit (o : Outcomes) (c : Commit) (new : String)
    (hpre : OnlyUploads c.pre) (hpost : statusWrites c.post = [])
    (hnew : c.fields.rental_status = some new) :
    statusWrites (Plan.effects o (.commit c)) = [new] := by
  simp only [Plan.effects]
  rw [statusWrites_append, statusWrites_onlyUploads hpre]
  cases o.rentalUpdateOk <;> cases o.historyOk <;> simp [statusWrites, hnew]
  simpa [statusWrites] using hpost

theorem findByIdentifier_congr (w w' : World) (k : Identifier) (h : w'.rentals = w.rentals) :
    RentalModel.findByIdentifier w' k = RentalModel.findByIdentifier w k := by
  cases k <;> simp only [RentalModel.findByIdentifier, h]

theorem reload_status (o : Outcomes) (w w' : World) (k : Identifier) (rental : Rental)
    (c : Commit) (new : String)
    (hfind : RentalModel.findByIdentifier w k = some rental)
    (hrent : w'.rentals = Plan.rentals o w (.commit c)) (hid : c.id = rental.id)
    (hnew : c.fields.rental_status = some new) :
    (RentalModel.findByIdentifier w' k).map (fun r => r.rental_status) =
      some (if o.rentalUpdateOk = true then new else rental.rental_status) := by
  cases hu : o.rentalUpdateOk with
  | false =>
    simp only [Plan.rentals, hu] at hrent
    rw [findByIdentifier_congr w w' k hrent, hfind]
    simp
  | true =>
    simp only [Plan.rentals, hu, if_true] at hrent
    rw [findByIdentifier_after w w' k c.id c.fields hrent, hfind]
    simp [hid, applyTo_status _ _ _ hnew]

theorem follows_fail_plan (o : Outcomes) (w : World) (r : Rental)
    (res : Except Thrown Rental × World) (pre : List Effect) (e : Thrown)
    (hf : Follows o w r res (.fail pre e)) (hpre : OnlyUploads pre) :
    res.1 = .error e ∧ rentalUpdates (issued w res.2) = [] ∧
      historyEntries (issued w res.2) = [] ∧ paymentTransactions (issued w res.2) = [] ∧
      quantityAdjustments (issued w res.2) = [] ∧ res.2.rentals = w.rentals := by
  obtain ⟨h1, h2, h3⟩ := hf
  simp only [Plan.effects] at h2
  rw [h2]
  exact ⟨h1, rentalUpdates_onlyUploads hpre, historyEntries_onlyUploads hpre,
    paymentTransactions_onlyUploads hpre, quantityAdjustments_onlyUploads hpre, h3⟩

theorem plan_fail_pre (o : Outcomes) (w : World) (rental : Rental) (op : Op)
    (pre : List Effect) (e : Thrown) (h : op.plan o w rental = .fail pre e) :
    OnlyUploads pre := by
  cases op with
  | approveRentalRequest a =>
    simp only [Op.plan, approvePlan] at h
    split at h
    · cases h; exact onlyUploads_nil
    split at h
    · cases h; exact onlyUploads_nil
    split at h
    · cases h; exact onlyUploads_nil
    split at h
    · cases h; exact onlyUploads_nil
    · cases h
  | rejectRentalRequest a reason =>
    simp only [Op.plan, rejectPlan] at h
    split at h
    · cases h; exact onlyUploads_nil
    split at h
    · cases h; exact onlyUploads_nil
    · cases h
  | submitPaymentProof a f d =>
    simp only [Op.plan, submitPlan] at h
    split at h
    · cases h; exact onlyUploads_nil
    split at h
    · cases h; exact onlyUploads_nil
    split at h
    · cases h; exact onlyUploads_nil
    split at h
    · cases h; exact onlyUploads_singleton _ _
    split at h
    · cases h; exact onlyUploads_singleton _ _
    · cases h
  | verifyRentalPaymentByOwner a amt =>
    simp only [Op.plan, verifyPlan] at h
    split at h
    · cases h; exact onlyUploads_nil
    split at h
    · cases h; exact onlyUploads_nil
    · cases h
  | cancelRentalByUser a reason =>
    simp only [Op.plan, cancelPlan] at h
    split at h
    · cases h; exact onlyUploads_nil
    split at h
    · cases h; exact onlyUploads_nil
    · cases h
  | processReturn a d files =>
    simp only [Op.plan, returnPlan] at h
    split at h
    · cases h; exact onlyUploads_nil
    split at h
    · cases h; exact onlyUploads_nil
    split at h
    · cases h; exact onlyUploads_uploadEffects _ _ _
    · cases h

theorem plan_commit_frame (o : Outcomes) (w : World) (rental : Rental) (op : Op) (c : Commit)
    (h : op.plan o w rental = .commit c) : c.fields.creationKeys = [] := by
  cases op with
  | approveRentalRequest a =>
    simp only [Op.plan, approvePlan] at h
    split at h
    · cases h
    split at h
    · cases h
    split at h
    · cases h
    split at h
    · cases h
    · cases h; rfl
  | rejectRentalRequest a reason =>
    simp only [Op.plan, rejectPlan] at h
    split at h
    · cases h
    split at h
    · cases h
    · cases h; rfl
  | submitPaymentProof a f d =>
    simp only [Op.plan, submitPlan] at h
    split at h
    · cases h
    split at h
    · cases h
    split at h
    · cases h
    split at h
    · cases h
    split at h
    · cases h
    · cases h; rfl
  | verifyRentalPaymentByOwner a amt =>
    simp only [Op.plan, verifyPlan] at h
    split at h
    · cases h
    split at h
    · cases h
    · cases h; rfl
  | cancelRentalByUser a reason =>
    simp only [Op.plan, cancelPlan] at h
    split at h
    · cases h
    split at h
    · cases h
    · cases h; rfl
  | processReturn a d files =>
    simp only [Op.plan, returnPlan] at h
    split at h
    · cases h
    split at h
    · cases h
    split at h
    · cases h
    · cases h; rfl

theorem applyTo_creationSnapshot (f : RentalFields) (r : Rental)
    (h : f.creationKeys = []) : (f.applyTo r).creationSnapshot = r.creationSnapshot := by
  simp [RentalFields.creationKeys] at h
  obtain ⟨h1, h2, h3, h4, h5, h6, h7, h8, h9, h10, h11, h12⟩ := h
  simp [Rental.creationSnapshot, RentalFields.applyTo, h1, h2, h3, h4, h5, h6, h7, h8, h9, h10,
    h11, h12]


theorem terminal_transition (op : Op) (old new : String) (ht : old ∈ terminalStatuses)
    (h : specTransition op old new) : new = old := by
  simp only [terminalStatuses, List.mem_cons, List.mem_singleton, List.not_mem_nil,
    or_false] at ht
  cases op <;> simp only [specTransition] at h
  · rcases ht with ht | ht | ht | ht | ht <;> rw [ht] at h <;> simp at h
  · rcases ht with ht | ht | ht | ht | ht <;> rw [ht] at h <;> simp at h
  · rcases ht with ht | ht | ht | ht | ht <;> rw [ht] at h <;> simp at h
  · rcases h with ⟨h1, -⟩ | ⟨-, h2⟩
    · rcases ht with ht | ht | ht | ht | ht <;> rw [ht] at h1 <;> simp at h1
    · exact h2
  · rcases ht with ht | ht | ht | ht | ht <;> rw [ht] at h <;> simp at h
  · rcases ht with ht | ht | ht | ht | ht <;> rw [ht] at h <;> simp at h

theorem engine_transition (op : Op) (old new : String) (ho : old ∈ engineStatuses)
    (h : specTransition op old new) : new ∈ engineStatuses := by
  cases op <;> simp only [specTransition] at h
  · rw [h.2]; decide
  · rw [h.2]; decide
  · rw [h.2]; decide
  · rcases h with ⟨-, h2⟩ | ⟨-, h2⟩
    · rw [h2]; decide
    · rw [h2]; exact ho
  · rw [h.2]; decide
  · have h2 := h.2
    simp only [List.mem_cons, List.mem_singleton, List.not_mem_nil, or_false] at h2
    rcases h2 with h2 | h2 <;> rw [h2] <;> decide

theorem create_cases (o : Outcomes) (w : World) (renterId : Nat) (d : RentalRequestData) :
    (∃ e, createRentalRequest o w renterId d = (.error e, w)) ∨
      ∃ product addressId, ProductModel.findByIdOrSlug w d.product_id = some product ∧
        createRentalRequest o w renterId d =
          RentalModel.create o w renterId (rentalPayload w renterId d product addressId) := by
  cases hprod : ProductModel.findByIdOrSlug w d.product_id with
  | none => exact Or.inl ⟨_, by simp only [createRentalRequest, hprod]; rfl⟩
  | some product =>
    by_cases hav : product.availability_status ≠ "available" ∨
        product.admin_approval_status ≠ "approved"
    · exact Or.inl ⟨_, by simp only [createRentalRequest, hprod, if_pos hav]; rfl⟩
    by_cases hown : product.owner_id = renterId
    · exact Or.inl ⟨_, by
        simp only [createRentalRequest, hprod, if_neg hav, if_pos hown]; rfl⟩
    by_cases hstock : product.quantity_available < 1 ∧ product.quantity > 0
    · exact Or.inl ⟨_, by
        simp only [createRentalRequest, hprod, if_neg hav, if_neg hown, if_pos hstock]; rfl⟩
    have hav' : product.availability_status = "available" ∧
        product.admin_approval_status = "approved" := by
      simpa [not_or] using hav
    have hc := createRentalRequest_checked o w renterId d product hprod hav'.1 hav'.2 hown hstock
    by_cases hmin : rentalDurationDays d.start_date d.end_date <
        JsNum.ofInt (orOne product.min_rental_duration_days)
    · exact Or.inl ⟨_, by rw [hc, if_pos hmin]⟩
    by_cases hmax : truthyInt product.max_rental_duration_days = true ∧
        rentalDurationDays d.start_date d.end_date >
        JsNum.ofInt (product.max_rental_duration_days.getD 0)
    · exact Or.inl ⟨_, by rw [hc, if_neg hmin, if_pos hmax]⟩
    cases haddr : validDeliveryAddressId w renterId d with
    | error e => exact Or.inl ⟨e, by rw [hc, if_neg hmin, if_neg hmax]; simp only [haddr]⟩
    | ok addressId =>
      exact Or.inr ⟨product, addressId, rfl,
        createRentalRequest_pass o w renterId d product addressId hprod hav'.1 hav'.2 hown
          hstock hmin hmax haddr⟩

theorem create_rentals (o : Outcomes) (w : World) (renterId : Nat) (d : RentalRequestData) :
    (createRentalRequest o w renterId d).2.rentals = w.rentals ∨
      ∃ u, u.rental_status = "pending_owner_approval" ∧
        (createRentalRequest o w renterId d).2.rentals = w.rentals ++ [u] := by
  rcases create_cases o w renterId d with ⟨e, he⟩ | ⟨product, addressId, -, hp⟩
  · left; rw [he]
  · rw [hp]
    unfold RentalModel.create
    cases hcr : o.rentalCreateOk with
    | false => left; simp [World.emit]
    | true =>
      right
      refine ⟨(rentalPayload w renterId d product addressId).applyTo
        (Rental.blank o.generatedId o.generatedUid
          (if o.embedsProduct then
            (rentalPayload w renterId d product addressId).product_id.map JoinedProduct.mk
          else none)), ?_, ?_⟩
      · simp [RentalFields.applyTo, rentalPayload, requiresOwnerApproval]
      · simp [World.emit]

theorem op_preserves (o : Outcomes) (w : World) (k : Identifier) (op : Op)
    (h : ∀ r ∈ w.rentals, r.rental_status ∈ engineStatuses) :
    (∀ r ∈ (op.run o w k).2.rentals, r.rental_status ∈ engineStatuses) ∧
      ∀ s ∈ statusWrites (issued w (op.run o w k).2), s ∈ engineStatuses := by
  cases hfind : RentalModel.findByIdentifier w k with
  | none =>
    obtain ⟨m, hm⟩ := run_not_found o w k op hfind
    rw [hm]
    refine ⟨h, ?_⟩
    intro s hs
    rw [issued_self] at hs
    simp [statusWrites] at hs
  | some rental =>
    have hmem : rental ∈ w.rentals := by
      cases k <;> exact List.mem_of_find?_eq_some hfind
    obtain ⟨r, -, hiss, hrent⟩ := run_follows o w k op rental hfind
    cases hplan : op.plan o w rental with
    | fail pre e =>
      rw [hplan] at hiss hrent
      have hpre := plan_fail_pre o w rental op pre e hplan
      refine ⟨by rw [hrent]; exact h, ?_⟩
      intro s hs
      rw [hiss] at hs
      simp only [Plan.effects, statusWrites_onlyUploads hpre] at hs
      simp at hs
    | commit c =>
      rw [hplan] at hiss hrent
      obtain ⟨-, hpre, hpost, -, -, new, hnew, htr, -⟩ := plan_commit o w rental op c hplan
      have hin : new ∈ engineStatuses := engine_transition op _ _ (h rental hmem) htr
      refine ⟨?_, ?_⟩
      · intro x hx
        rw [hrent] at hx
        simp only [Plan.rentals] at hx
        split_ifs at hx
        · rw [List.mem_map] at hx
          obtain ⟨y, hy, rfl⟩ := hx
          split_ifs
          · rw [applyTo_status _ _ _ hnew]; exact hin
          · exact h y hy
        · exact h x hx
      · intro s hs
        rw [hiss, statusWrites_commit o c new hpre hpost hnew] at hs
        simp only [List.mem_singleton] at hs
        rw [hs]; exact hin

theorem step_preserves (o : Outcomes) (w : World) (s : Step)
    (h : ∀ r ∈ w.rentals, r.rental_status ∈ engineStatuses) :
    ∀ r ∈ (s.run o w).rentals, r.rental_status ∈ engineStatuses := by
  cases s with
  | createRentalRequest renterId d =>
    simp only [Step.run]
    rcases create_rentals o w renterId d with hc | ⟨u, hu, hc⟩
    · rw [hc]; exact h
    · rw [hc]
      intro r hr
      rw [List.mem_append, List.mem_singleton] at hr
      rcases hr with hr | hr
      · exact h r hr
      · rw [hr, hu]; decide
  | lifecycle k op => exact (op_preserves o w k op h).1
  | checkRentalPaymentStatus k userId =>
    simp only [Step.run]
    unfold checkRentalPaymentStatus
    split
    · exact h
    · split_ifs <;> exact h
  | getRentalDetailsForUser k userId =>
    simp only [Step.run]
    unfold getRentalDetailsForUser
    split
    · exact h
    · split_ifs <;> exact h

theorem runSteps_preserves (steps : List (Outcomes × Step)) :
    ∀ w : World, (∀ r ∈ w.rentals, r.rental_status ∈ engineStatuses) →
      ∀ r ∈ (runSteps steps w).rentals, r.rental_status ∈ engineStatuses := by
  induction steps with
  | nil => intro w h; exact h
  | cons p rest ih =>
    intro w h
    obtain ⟨o, s⟩ := p
    exact ih (s.run o w) (step_preserves o w s h)

theorem scenarioReturned_rental :
    (RentalModel.findById scenarioReturned 1).map
        (fun r => (r.rental_status, r.status, r.renter_id)) = some ("completed", none, 1) := by
  unfold scenarioReturned scenarioActive scenarioPaid scenarioApproved scenarioCreated
  rw [demoRequest_pass (demoWorld []) rfl]
  decide

theorem op_keeps_status_unset (o : Outcomes) (w : World) (k : Identifier) (op : Op)
    (h : ∀ r ∈ w.rentals, r.status = none) :
    ∀ r ∈ (op.run o w k).2.rentals, r.status = none := by
  cases hfind : RentalModel.findByIdentifier w k with
  | none =>
    obtain ⟨m, hm⟩ := run_not_found o w k op hfind
    rw [hm]
    exact h
  | some rental =>
    obtain ⟨r, -, -, hrent⟩ := run_follows o w k op rental hfind
    rw [hrent]
    cases op.plan o w rental with
    | fail pre e => exact h
    | commit c =>
      intro x hx
      simp only [Plan.rentals] at hx
      split_ifs at hx
      · rw [List.mem_map] at hx
        obtain ⟨y, hy, rfl⟩ := hx
        split_ifs
        · exact h y hy
        · exact h y hy
      · exact h x hx

theorem create_keeps_status_unset (o : Outcomes) (w : World) (renterId : Nat)
    (d : RentalRequestData) (h : ∀ r ∈ w.rentals, r.status = none) :
    ∀ r ∈ (createRentalRequest o w renterId d).2.rentals, r.status = none := by
  rcases create_cases o w renterId d with ⟨e, he⟩ | ⟨product, addressId, -, hp⟩
  · rw [he]; exact h
  · rw [hp]
    unfold RentalModel.create
    cases hcr : o.rentalCreateOk with
    | false => simpa [World.emit] using h
    | true =>
      intro r hr
      simp only [World.emit, if_true, List.mem_append, List.mem_singleton] at hr
      rcases hr with hr | hr
      · exact h r hr
      · rw [hr]; rfl

theorem step_keeps_status_unset (o : Outcomes) (w : World) (s : Step)
    (h : ∀ r ∈ w.rentals, r.status = none) :
    ∀ r ∈ (s.run o w).rentals, r.status = none := by
  cases s with
  | createRentalRequest renterId d => exact create_keeps_status_unset o w renterId d h
  | lifecycle k op => exact op_keeps_status_unset o w k op h
  | checkRentalPaymentStatus k userId =>
    simp only [Step.run]
    unfold checkRentalPaymentStatus
    split
    · exact h
    · split_ifs <;> exact h
  | getRentalDetailsForUser k userId =>
    simp only [Step.run]
    unfold getRentalDetailsForUser
    split
    · exact h
    · split_ifs <;> exact h

theorem runSteps_keeps_status_unset (steps : List (Outcomes × Step)) :
    ∀ w : World, (∀ r ∈ w.rentals, r.status = none) →
      ∀ r ∈ (runSteps steps w).rentals, r.status = none := by
  induction steps with
  | nil => intro w h; exact h
  | cons p rest ih =>
    intro w h
    obtain ⟨o, s⟩ := p
    exact ih (s.run o w) (step_keeps_status_unset o w s h)

theorem create_success_duration (o : Outcomes) (w : World) (renterId : Nat)
    (d : RentalRequestData) (u : Rental) (product : Product)
    (hok : (createRentalRequest o w renterId d).1 = .ok u)
    (hprod : ProductModel.findByIdOrSlug w d.product_id = some product) :
    ¬ rentalDurationDays d.start_date d.end_date <
      JsNum.ofInt (orOne product.min_rental_duration_days) := by
  intro hmin
  by_cases hav : product.availability_status ≠ "available" ∨
      product.admin_approval_status ≠ "approved"
  · simp [createRentalRequest, hprod, if_pos hav] at hok
  by_cases hown : product.owner_id = renterId
  · simp [createRentalRequest, hprod, if_neg hav, if_pos hown] at hok
  by_cases hstock : product.quantity_available < 1 ∧ product.quantity > 0
  · simp only [createRentalRequest, hprod, if_neg hav, if_neg hown, if_pos hstock] at hok
    simp at hok
  have hav' : product.availability_status = "available" ∧
      product.admin_approval_status = "approved" := by
    simpa [not_or] using hav
  have hc := createRentalRequest_checked o w renterId d product hprod hav'.1 hav'.2 hown hstock
  rw [hc, if_pos hmin] at hok
  simp at hok

theorem reversedRequest_negativeMin :
    createRentalRequest allOk negativeMinWorld 1 reversedRequest =
      RentalModel.create allOk negativeMinWorld 1
        (rentalPayload negativeMinWorld 1 reversedRequest negativeMinProduct none) := by
  refine createRentalRequest_pass allOk negativeMinWorld 1 reversedRequest negativeMinProduct
    none rfl rfl rfl (by decide) (by decide) ?_
    (by simp [negativeMinProduct, demoProduct, truthyInt]) rfl
  decide!

/-! ## Doubles in the service -/

theorem round_ne_nan (q : ℚ) : JsNum.round q ≠ .nan := by
  unfold JsNum.round
  split_ifs <;> simp

theorem round_between {q lo hi : ℚ} (hlo : JsNum.round lo = .fin lo)
    (hhi : JsNum.round hi = .fin hi) (h1 : lo ≤ q) (h2 : q ≤ hi) :
    ∃ r, JsNum.round q = .fin r ∧ lo ≤ r ∧ r ≤ hi := by
  have a := round_le_round h1
  have b := round_le_round h2
  rw [hlo] at a
  rw [hhi] at b
  cases hq : JsNum.round q with
  | nan => exact absurd hq (round_ne_nan q)
  | inf s =>
    rw [hq] at a b
    simp only [JsNum.le] at a b
    cases s <;> simp at a b
  | fin r =>
    rw [hq] at a b
    simp only [JsNum.le, decide_eq_true_eq] at a b
    exact ⟨r, rfl, a, b⟩

/-- A dyadic rational with a significand below `2 ^ 53` in absolute value and
an exponent from `-1074` to `971` is a double. -/
theorem round_dyadic (m : Int) (j : Int) (hm : |m| < 2 ^ 53) (hj : -1074 ≤ j) (hj2 : j ≤ 971) :
    JsNum.round ((m : ℚ) * 2 ^ j) = .fin ((m : ℚ) * 2 ^ j) := by
  have hu := two_zpow_pos j
  have hbig : ∀ n : Nat, n < 2 ^ 53 → ¬ ((2 : ℚ) ^ 1024 ≤ (n : ℚ) * 2 ^ j) := by
    intro n hn h
    have h1 : (n : ℚ) < 2 ^ 53 := by exact_mod_cast hn
    have h2 : (n : ℚ) * 2 ^ j < 2 ^ 53 * 2 ^ j := mul_lt_mul_of_pos_right h1 hu
    have h3 : (2 : ℚ) ^ 53 * 2 ^ j ≤ 2 ^ ((1024 : Nat) : Int) := by
      rw [two_pow_mul_zpow' 53 j (j + 53) rfl]
      exact zpow_le_zpow_right₀ (by norm_num) (by omega)
    rw [zpow_natCast] at h3
    linarith
  by_cases h0 : 0 ≤ m
  · obtain ⟨n, rfl⟩ := Int.eq_ofNat_of_zero_le h0
    have hn : n < 2 ^ 53 := by
      rw [abs_of_nonneg h0] at hm
      exact_mod_cast hm
    have hnn : (0 : ℚ) ≤ ((n : Int) : ℚ) * 2 ^ j :=
      mul_nonneg (by exact_mod_cast h0) hu.le
    rw [round_of_nonneg hnn]
    push_cast
    rw [roundMag_dyadic n j hn hj, if_neg (hbig n hn)]
  · have hneg : m < 0 := not_le.mp h0
    obtain ⟨n, hn⟩ := Int.eq_ofNat_of_zero_le (show 0 ≤ -m by omega)
    have hn' : n < 2 ^ 53 := by
      rw [abs_of_neg hneg, hn] at hm
      exact_mod_cast hm
    have hnpos : (0 : ℚ) < n := by
      have : (0 : Int) < n := by omega
      exact_mod_cast this
    have hmq : (m : ℚ) * 2 ^ j = -((n : ℚ) * 2 ^ j) := by
      have : m = -(n : Int) := by omega
      rw [this]; push_cast; ring
    rw [hmq, round_of_neg (by
      have := mul_pos hnpos hu
      linarith), neg_neg, roundMag_dyadic n j hn' hj, if_neg (hbig n hn')]

theorem isDouble_round (q : ℚ) : (JsNum.round q).isDouble = true := by
  cases h : JsNum.round q with
  | nan => rfl
  | inf s => rfl
  | fin r => simp [JsNum.isDouble, round_idem h]

theorem le_round_of_isDouble {x q : ℚ} (hx : (JsNum.fin x).isDouble = true) (h : x ≤ q) :
    JsNum.le (.fin x) (JsNum.round q) = true := by
  have := round_le_round h
  simp only [JsNum.isDouble, decide_eq_true_eq] at hx
  rwa [hx] at this

theorem jsnum_le_trans {a b c : JsNum} (h1 : JsNum.le a b = true) (h2 : JsNum.le b c = true) :
    JsNum.le a c = true := by
  cases a with
  | nan => simp [JsNum.le] at h1
  | inf x =>
    cases b with
    | nan => simp [JsNum.le] at h1
    | inf y =>
      cases c with
      | nan => simp [JsNum.le] at h2
      | inf z => cases x <;> cases y <;> cases z <;> simp_all [JsNum.le]
      | fin z => cases x <;> cases y <;> simp_all [JsNum.le]
    | fin y =>
      cases c with
      | nan => simp [JsNum.le] at h2
      | inf z => cases x <;> cases z <;> simp_all [JsNum.le]
      | fin z => simp_all [JsNum.le]
  | fin x =>
    cases b with
    | nan => simp [JsNum.le] at h1
    | inf y =>
      cases c with
      | nan => simp [JsNum.le] at h2
      | inf z => cases y <;> cases z <;> simp_all [JsNum.le]
      | fin z => cases y <;> simp_all [JsNum.le]
    | fin y =>
      cases c with
      | nan => simp [JsNum.le] at h2
      | inf z => simp_all [JsNum.le]
      | fin z =>
        simp only [JsNum.le, decide_eq_true_eq] at h1 h2 ⊢
        linarith


theorem timeValue_valid (t : Int) (h : |t| ≤ 8640000000000000) :
    Date.timeValue t = .fin t := if_pos h

theorem sub_timeValue (s e : Int) (hs : |s| ≤ 8640000000000000)
    (he : |e| ≤ 8640000000000000) :
    JsNum.sub (Date.timeValue e) (Date.timeValue s) = JsNum.round ((e - s : Int) : ℚ) := by
  rw [timeValue_valid s hs, timeValue_valid e he]
  simp only [JsNum.sub, JsNum.neg, JsNum.add]
  congr 1
  push_cast
  ring

theorem add_one_intCast (c : Int) (hc : |c| ≤ 2 ^ 52) :
    JsNum.add (.fin c) 1 = .fin ((c + 1 : Int) : ℚ) := by
  show JsNum.round ((c : ℚ) + ((1 : Nat) : ℚ)) = _
  have : (c : ℚ) + ((1 : Nat) : ℚ) = ((c + 1 : Int) : ℚ) := by push_cast; ring
  rw [this]
  refine round_intCast _ ?_
  have h1 := abs_add c 1
  have h2 : |(1 : Int)| = 1 := abs_one
  have : (2 : Int) ^ 52 + 1 ≤ 2 ^ 53 := by norm_num
  omega

theorem div_day (r : ℚ) :
    JsNum.div (.fin r) 86400000 = JsNum.round (r / 86400000) := by
  show JsNum.div (.fin r) (.fin ((86400000 : Nat) : ℚ)) = _
  simp only [JsNum.div]
  rw [if_neg (by norm_num)]
  norm_num

/-- Below `2 ^ 27` in absolute value a number rounds to a double no further
than `2 ^ (-27)` away. -/
theorem round_err_small (q : ℚ) (hq : |q| < 2 ^ 27) :
    ∃ r, JsNum.round q = .fin r ∧ |r - q| ≤ 1 / 2 ^ 27 := by
  have key : ∀ a : ℚ, 0 ≤ a → a < 2 ^ 27 →
      |JsNum.roundMag a - a| ≤ 1 / 2 ^ 27 ∧ ¬ ((2 : ℚ) ^ 1024 ≤ JsNum.roundMag a) := by
    intro a ha0 ha
    have herr : |JsNum.roundMag a - a| ≤ 1 / 2 ^ 27 := by
      rcases eq_or_lt_of_le ha0 with h0 | hpos
      · rw [← h0, roundMag_zero]; norm_num
      · have hlog : JsNum.log2Floor a ≤ 26 := by
          by_contra hcon
          have h27 : (27 : Int) ≤ JsNum.log2Floor a := by omega
          have h1 : (2 : ℚ) ^ ((27 : Nat) : Int) ≤ 2 ^ JsNum.log2Floor a :=
            zpow_le_zpow_right₀ (by norm_num) (by simpa using h27)
          rw [zpow_natCast] at h1
          have h2 := two_zpow_log_le hpos
          linarith
        have hulp : JsNum.ulpExp a ≤ -26 := by unfold JsNum.ulpExp; omega
        have h3 : (2 : ℚ) ^ JsNum.ulpExp a ≤ 2 ^ (-((26 : Nat) : Int)) :=
          zpow_le_zpow_right₀ (by norm_num) (by simpa using hulp)
        rw [zpow_neg, zpow_natCast] at h3
        have h4 := abs_roundMag_sub_le a
        have h5 : ((2 : ℚ) ^ 26)⁻¹ / 2 = 1 / 2 ^ 27 := by norm_num
        linarith
    refine ⟨herr, ?_⟩
    intro hbig
    have h1 := (abs_le.mp herr).2
    have h2 : (2 : ℚ) ^ 28 ≤ 2 ^ 1024 := pow_le_pow_right₀ (by norm_num) (by norm_num)
    have h3 : (1 : ℚ) / 2 ^ 27 ≤ 2 ^ 27 := by norm_num
    have h4 : (2 : ℚ) ^ 28 = 2 ^ 27 + 2 ^ 27 := by norm_num
    linarith
  by_cases h0 : 0 ≤ q
  · rw [abs_of_nonneg h0] at hq
    obtain ⟨h1, h2⟩ := key q h0 hq
    rw [round_of_nonneg h0, if_neg h2]
    exact ⟨_, rfl, h1⟩
  · have hneg : q < 0 := not_le.mp h0
    rw [abs_of_neg hneg] at hq
    obtain ⟨h1, h2⟩ := key (-q) (by linarith) hq
    rw [round_of_neg hneg, if_neg h2]
    refine ⟨_, rfl, ?_⟩
    have : -JsNum.roundMag (-q) - q = -(JsNum.roundMag (-q) - -q) := by ring
    rw [this, abs_neg]
    exact h1

/-- The duration the service computes from a difference of at most `2 ^ 53`
milliseconds is the exact one. -/
theorem duration_exact (n : Int) (hn : |n| ≤ 2 ^ 53) :
    JsNum.add (JsNum.ceil (JsNum.div (JsNum.round (n : ℚ)) 86400000)) 1 =
      .fin ((⌈(n : ℚ) / 86400000⌉ + 1 : Int) : ℚ) := by
  rw [round_intCast n hn, div_day]
  have hnq : |(n : ℚ)| ≤ 9007199254740992 := by
    have : ((|n| : Int) : ℚ) ≤ (((2 : Int) ^ 53 : Int) : ℚ) := by exact_mod_cast hn
    simpa using this
  obtain ⟨hq1, hq2⟩ := abs_le.mp hnq
  have hqlo : ((-104249992 : Int) : ℚ) ≤ (n : ℚ) / 86400000 := by
    rw [le_div_iff₀ (by norm_num)]; push_cast; linarith
  have hqhi : (n : ℚ) / 86400000 ≤ ((104249992 : Int) : ℚ) := by
    rw [div_le_iff₀ (by norm_num)]; push_cast; linarith
  have hk1 : (-104249992 : Int) ≤ ⌈(n : ℚ) / 86400000⌉ := by
    have := Int.ceil_mono hqlo
    rwa [Int.ceil_intCast] at this
  have hk2 : ⌈(n : ℚ) / 86400000⌉ ≤ (104249992 : Int) := by
    have := Int.ceil_mono hqhi
    rwa [Int.ceil_intCast] at this
  have hqabs : |(n : ℚ) / 86400000| < 2 ^ 27 := by
    rw [abs_lt]
    push_cast at hqlo hqhi
    constructor <;> linarith [show (104249992 : ℚ) < 2 ^ 27 by norm_num]
  generalize hk : ⌈(n : ℚ) / 86400000⌉ = k at hk1 hk2 ⊢
  have hkabs : |k| ≤ 2 ^ 53 := by
    rw [abs_le]; norm_num; constructor <;> omega
  have hk1abs : |k - 1| ≤ 2 ^ 53 := by
    rw [abs_le]; norm_num; constructor <;> omega
  have hceil := Int.ceil_eq_iff.mp hk
  have hrk : ∃ r, JsNum.round ((n : ℚ) / 86400000) = .fin r ∧ ⌈r⌉ = k := by
    by_cases hqk : (n : ℚ) / 86400000 = k
    · rw [hqk, round_intCast k hkabs]
      exact ⟨k, rfl, Int.ceil_intCast k⟩
    · have hlt : (n : ℚ) / 86400000 < k := lt_of_le_of_ne hceil.2 hqk
      -- the quotient is a multiple of 1/86400000 strictly between k - 1 and k
      have hstep : ((k - 1 : Int) : ℚ) + 1 / 86400000 ≤ (n : ℚ) / 86400000 := by
        have h1 : ((k - 1 : Int) : ℚ) < (n : ℚ) / 86400000 := by
          have := hceil.1; push_cast; linarith
        rw [lt_div_iff₀ (by norm_num)] at h1
        have h2 : (k - 1) * 86400000 < n := by exact_mod_cast h1
        have h3 : (k - 1) * 86400000 + 1 ≤ n := by omega
        rw [le_div_iff₀ (by norm_num)]
        have h4 : (((k - 1) * 86400000 + 1 : Int) : ℚ) ≤ (n : ℚ) := by exact_mod_cast h3
        push_cast at h4 ⊢
        linarith
      obtain ⟨r, hr, hr1, hr2⟩ := round_between (round_intCast (k - 1) hk1abs)
        (round_intCast k hkabs) (by push_cast at hstep ⊢; linarith) hlt.le
      obtain ⟨r', hr', herr⟩ := round_err_small _ hqabs
      rw [hr] at hr'
      cases hr'
      refine ⟨r, hr, Int.ceil_eq_iff.mpr ⟨?_, hr2⟩⟩
      have h5 := (abs_le.mp herr).1
      have h6 : (1 : ℚ) / 2 ^ 27 < 1 / 86400000 := by norm_num
      push_cast at hstep ⊢
      linarith
  obtain ⟨r, hr, hrk'⟩ := hrk
  rw [hr]
  simp only [JsNum.ceil, hrk']
  exact add_one_intCast k (by
    rw [abs_le]; norm_num; constructor <;> omega)

/-- Whatever the rounding, the duration computed from a difference of two valid
dates is an integer, and it is at most `0` when the difference is minus one day
or less. -/
theorem duration_bounds (n : Int) (hn : |n| ≤ 17280000000000000) :
    ∃ c : Int, JsNum.add (JsNum.ceil (JsNum.div (JsNum.round (n : ℚ)) 86400000)) 1 =
        .fin (c : ℚ) ∧ |c| < 2 ^ 53 ∧ (n ≤ -86400000 → c ≤ 0) := by
  have hnq : |(n : ℚ)| ≤ 17280000000000000 := by
    have : ((|n| : Int) : ℚ) ≤ ((17280000000000000 : Int) : ℚ) := by exact_mod_cast hn
    simpa using this
  obtain ⟨hq1, hq2⟩ := abs_le.mp hnq
  have hlo := round_dyadic (-1) 54 (by norm_num) (by norm_num) (by norm_num)
  have hhi := round_dyadic 1 54 (by norm_num) (by norm_num) (by norm_num)
  have e54 : (2 : ℚ) ^ (54 : Int) = 18014398509481984 := by
    rw [show (54 : Int) = ((54 : Nat) : Int) by rfl, zpow_natCast]; norm_num
  rw [e54] at hlo hhi
  obtain ⟨r1, hr1, ha, hb⟩ := round_between hlo hhi (q := (n : ℚ))
    (by push_cast; linarith) (by push_cast; linarith)
  have hneg1 : n ≤ -86400000 → r1 ≤ -86400000 := by
    intro h
    have hq : (n : ℚ) ≤ ((-86400000 : Int) : ℚ) := by exact_mod_cast h
    obtain ⟨r, hr, -, hr2⟩ := round_between hlo (round_intCast (-86400000) (by norm_num))
      (q := (n : ℚ)) (by push_cast; linarith) hq
    rw [hr1] at hr
    cases hr
    exact_mod_cast hr2
  rw [hr1, div_day]
  push_cast at ha hb
  have hdlo : (((-268435456 : Int) : ℚ)) ≤ r1 / 86400000 := by
    rw [le_div_iff₀ (by norm_num)]; push_cast; linarith
  have hdhi : r1 / 86400000 ≤ ((268435456 : Int) : ℚ) := by
    rw [div_le_iff₀ (by norm_num)]; push_cast; linarith
  obtain ⟨r2, hr2, hc, hd⟩ := round_between (round_intCast _ (by norm_num))
    (round_intCast _ (by norm_num)) hdlo hdhi
  have hneg2 : n ≤ -86400000 → r2 ≤ -1 := by
    intro h
    have h1 := hneg1 h
    have hq : r1 / 86400000 ≤ ((-1 : Int) : ℚ) := by
      rw [div_le_iff₀ (by norm_num)]; push_cast; linarith
    obtain ⟨r, hr, -, hr3⟩ := round_between (round_intCast _ (by norm_num))
      (round_intCast (-1) (by norm_num)) hdlo hq
    rw [hr2] at hr
    cases hr
    exact_mod_cast hr3
  rw [hr2]
  simp only [JsNum.ceil]
  have hc1 : (-268435456 : Int) ≤ ⌈r2⌉ := by
    have := Int.ceil_mono hc
    rwa [Int.ceil_intCast] at this
  have hc2 : ⌈r2⌉ ≤ (268435456 : Int) := by
    have := Int.ceil_mono hd
    rwa [Int.ceil_intCast] at this
  refine ⟨⌈r2⌉ + 1, add_one_intCast _ (by rw [abs_le]; norm_num; constructor <;> omega),
    by rw [abs_lt]; norm_num; constructor <;> omega, ?_⟩
  intro h
  have : ⌈r2⌉ ≤ (-1 : Int) := by
    have := Int.ceil_mono (hneg2 h)
    rwa [show ((-1 : ℚ)) = (((-1 : Int)) : ℚ) by norm_num, Int.ceil_intCast] at this
  omega

theorem rentalDurationDays_exact (s e : Int) (hs : |s| ≤ 8640000000000000)
    (he : |e| ≤ 8640000000000000) (hd : |e - s| ≤ 2 ^ 53) :
    rentalDurationDays s e = .fin (specDurationDays s e : ℚ) := by
  unfold rentalDurationDays specDurationDays
  rw [sub_timeValue s e hs he]
  exact duration_exact _ hd

theorem rentalDurationDays_valid (s e : Int) (hs : |s| ≤ 8640000000000000)
    (he : |e| ≤ 8640000000000000) :
    ∃ c : Int, rentalDurationDays s e = .fin (c : ℚ) ∧ |c| < 2 ^ 53 ∧
      (e + 86400000 ≤ s → c ≤ 0) := by
  unfold rentalDurationDays
  rw [sub_timeValue s e hs he]
  obtain ⟨c, h1, h3, h2⟩ := duration_bounds (e - s) (by
    have h1 := abs_le.mp hs
    have h2 := abs_le.mp he
    rw [abs_le]; constructor <;> omega)
  exact ⟨c, h1, h3, fun h => h2 (by omega)⟩


theorem jsZero_eq : (0 : JsNum) = .fin 0 := by
  show JsNum.fin ((0 : Nat) : ℚ) = _
  norm_num

theorem jsRound_nonneg {q : ℚ} (hq : 0 ≤ q) : JsNum.le 0 (JsNum.round q) = true := by
  have := round_le_round hq
  rwa [round_zero, ← jsZero_eq] at this

theorem jsRound_nonpos {q : ℚ} (hq : q ≤ 0) : JsNum.le (JsNum.round q) 0 = true := by
  have := round_le_round hq
  rwa [round_zero, ← jsZero_eq] at this

theorem jsnum_not_lt_of_le {a b : JsNum} (h : JsNum.le a b = true) : JsNum.lt b a = false := by
  cases a with
  | nan => simp [JsNum.le] at h
  | inf s =>
    cases b with
    | nan => simp [JsNum.le] at h
    | inf t => cases s <;> cases t <;> simp_all [JsNum.le, JsNum.lt]
    | fin y => cases s <;> simp_all [JsNum.le, JsNum.lt]
  | fin x =>
    cases b with
    | nan => simp [JsNum.le] at h
    | inf t => cases t <;> simp_all [JsNum.le, JsNum.lt]
    | fin y =>
      simp only [JsNum.le, JsNum.lt, decide_eq_true_eq, decide_eq_false_iff_not, not_lt] at h ⊢
      exact h

/-- Comparing an integer-valued double with an integer read from the database
is comparing the integers. -/
theorem fin_lt_ofInt (k m : Int) (hk : |k| < 2 ^ 53) :
    JsNum.lt (.fin k) (JsNum.ofInt m) = decide (k < m) := by
  unfold JsNum.ofInt
  by_cases h : k < m
  · have h1 : ((k + 1 : Int) : ℚ) ≤ (m : ℚ) := by exact_mod_cast (by omega : k + 1 ≤ m)
    have h2 := round_le_round h1
    rw [round_intCast (k + 1) (by
      have := abs_add k 1
      have h3 : |(1 : Int)| = 1 := abs_one
      omega)] at h2
    rw [decide_eq_true h]
    cases hm : JsNum.round (m : ℚ) with
    | nan => exact absurd hm (round_ne_nan _)
    | inf s => rw [hm] at h2; cases s <;> simp_all [JsNum.le, JsNum.lt]
    | fin r =>
      rw [hm] at h2
      simp only [JsNum.le, JsNum.lt, decide_eq_true_eq] at h2 ⊢
      push_cast at h2
      linarith
  · have h1 : (m : ℚ) ≤ (k : ℚ) := by exact_mod_cast (by omega : m ≤ k)
    have h2 := round_le_round h1
    rw [round_intCast k hk.le] at h2
    rw [decide_eq_false h]
    exact jsnum_not_lt_of_le h2

theorem ofInt_lt_fin (k m : Int) (hk : |k| < 2 ^ 53) :
    JsNum.lt (JsNum.ofInt m) (.fin k) = decide (m < k) := by
  unfold JsNum.ofInt
  by_cases h : m < k
  · have h1 : (m : ℚ) ≤ ((k - 1 : Int) : ℚ) := by exact_mod_cast (by omega : m ≤ k - 1)
    have h2 := round_le_round h1
    rw [round_intCast (k - 1) (by
      have := abs_sub k 1
      have h3 : |(1 : Int)| = 1 := abs_one
      omega)] at h2
    rw [decide_eq_true h]
    cases hm : JsNum.round (m : ℚ) with
    | nan => exact absurd hm (round_ne_nan _)
    | inf s => rw [hm] at h2; cases s <;> simp_all [JsNum.le, JsNum.lt]
    | fin r =>
      rw [hm] at h2
      simp only [JsNum.le, JsNum.lt, decide_eq_true_eq] at h2 ⊢
      push_cast at h2
      linarith
  · have h1 : (k : ℚ) ≤ (m : ℚ) := by exact_mod_cast (by omega : k ≤ m)
    have h2 := round_le_round h1
    rw [round_intCast k hk.le] at h2
    rw [decide_eq_false h]
    exact jsnum_not_lt_of_le h2

theorem isDouble_add (a b : JsNum) : (JsNum.add a b).isDouble = true := by
  cases a <;> cases b <;> simp only [JsNum.add] <;> first
    | rfl
    | exact isDouble_round _
    | (split_ifs <;> rfl)

theorem isDouble_mul (a b : JsNum) : (JsNum.mul a b).isDouble = true := by
  cases a <;> cases b <;> simp only [JsNum.mul] <;> first
    | rfl
    | exact isDouble_round _
    | (split_ifs <;> rfl)

theorem jsnum_le_mul_of_one_le (p : JsNum) (c : Int) (hp : JsNum.le 0 p = true)
    (hd : p.isDouble = true) (hc : 1 ≤ c) : JsNum.le p (JsNum.mul p (.fin c)) = true := by
  rw [jsZero_eq] at hp
  have hcq : (1 : ℚ) ≤ (c : ℚ) := by exact_mod_cast hc
  cases p with
  | nan => simp [JsNum.le] at hp
  | inf s =>
    cases s
    · have : ¬ ((c : ℚ) = 0) := by linarith
      have h2 : ¬ ((c : ℚ) < 0) := by linarith
      simp [JsNum.mul, JsNum.le, this, h2]
    · simp [JsNum.le] at hp
  | fin x =>
    simp only [JsNum.le, decide_eq_true_eq] at hp
    simp only [JsNum.mul]
    refine le_round_of_isDouble hd ?_
    nlinarith

theorem jsnum_le_add_of_nonneg (a b : JsNum) (ha : JsNum.le 0 a = true) (hd : a.isDouble = true)
    (hb : JsNum.le 0 b = true) : JsNum.le a (JsNum.add a b) = true := by
  rw [jsZero_eq] at ha hb
  cases a with
  | nan => simp [JsNum.le] at ha
  | inf s =>
    cases b with
    | nan => simp [JsNum.le] at hb
    | inf t => cases s <;> cases t <;> simp_all [JsNum.le, JsNum.add]
    | fin y => cases s <;> simp_all [JsNum.le, JsNum.add]
  | fin x =>
    cases b with
    | nan => simp [JsNum.le] at hb
    | inf t => cases t <;> simp_all [JsNum.le, JsNum.add]
    | fin y =>
      simp only [JsNum.le, decide_eq_true_eq] at hb
      simp only [JsNum.add]
      exact le_round_of_isDouble hd (by linarith)

theorem jsOrZero_nonneg (x : JsNum) (h : JsNum.lt x 0 = false) :
    JsNum.le 0 x.orZero = true := by
  rw [jsZero_eq] at h
  unfold JsNum.orZero
  split_ifs with ht
  · rw [jsZero_eq]
    cases x with
    | nan => simp [JsNum.truthy] at ht
    | inf s => cases s <;> simp_all [JsNum.le, JsNum.lt]
    | fin q =>
      simp only [JsNum.lt, decide_eq_false_iff_not, not_lt] at h
      simpa [JsNum.le] using h
  · rw [jsZero_eq]; simp [JsNum.le]

theorem orZero_nonneg (x : Option JsNum) (h : ∀ v, x = some v → JsNum.lt v 0 = false) :
    JsNum.le 0 (orZero x) = true := by
  cases x with
  | none => simp [orZero, truthyNum, jsZero_eq, JsNum.le]
  | some v =>
    have := jsOrZero_nonneg v (h v rfl)
    unfold JsNum.orZero at this
    simpa [orZero, truthyNum] using this


theorem jsHundred_eq : (100 : JsNum) = .fin 100 := by
  show JsNum.fin ((100 : Nat) : ℚ) = _
  norm_num

theorem div_hundred (x : ℚ) : JsNum.div (.fin x) 100 = JsNum.round (x / 100) := by
  rw [jsHundred_eq]
  simp only [JsNum.div]
  rw [if_neg (by norm_num)]

theorem jsOrZero_eq (x : JsNum) : x.orZero = if x = .nan then 0 else x := by
  cases x with
  | nan => simp [JsNum.orZero, JsNum.truthy]
  | inf s => simp [JsNum.orZero, JsNum.truthy]
  | fin q =>
    by_cases hq : q = 0
    · subst hq; simp [JsNum.orZero, JsNum.truthy, jsZero_eq]
    · simp [JsNum.orZero, JsNum.truthy, hq]

theorem orZero_eq (x : Option JsNum) :
    orZero x = match x with
      | some v => if v = .nan then 0 else v
      | none => 0 := by
  cases x with
  | none => simp [orZero, truthyNum]
  | some v =>
    have := jsOrZero_eq v
    unfold JsNum.orZero at this
    simpa [orZero, truthyNum] using this

theorem jsnum_pos_iff (x : JsNum) : (0 < x) ↔ JsNum.lt 0 x = true := Iff.rfl

theorem jsnum_lt_def (a b : JsNum) : (a < b) ↔ JsNum.lt a b = true := Iff.rfl

/-- The fraction `p / 100 || 0` of a percentage that is not positive is not
positive. -/
theorem platformFeePercent_not_pos (p : JsNum) (hp : ¬ 0 < p) :
    ¬ platformFeePercent p > 0 := by
  rw [gt_iff_lt, jsnum_pos_iff] at *
  rw [jsZero_eq] at *
  unfold platformFeePercent
  cases p with
  | nan => simp [JsNum.div, JsNum.orZero, JsNum.truthy, jsZero_eq, JsNum.lt]
  | inf s =>
    cases s
    · simp [JsNum.lt] at hp
    · simp [jsHundred_eq, JsNum.div, JsNum.orZero, JsNum.truthy, JsNum.lt]
  | fin x =>
    simp only [JsNum.lt, decide_eq_true_eq, not_lt] at hp
    rw [div_hundred]
    have h := jsRound_nonpos (show x / 100 ≤ 0 by
      apply div_nonpos_of_nonpos_of_nonneg hp; norm_num)
    rw [jsZero_eq] at h
    cases hr : JsNum.round (x / 100) with
    | nan => exact absurd hr (round_ne_nan _)
    | inf s =>
      rw [hr] at h
      cases s
      · simp [JsNum.le] at h
      · simp [JsNum.orZero, JsNum.truthy, JsNum.lt]
    | fin r =>
      rw [hr] at h
      simp only [JsNum.le, decide_eq_true_eq] at h
      unfold JsNum.orZero
      split_ifs
      · simp only [JsNum.lt, decide_eq_true_eq, not_lt]; exact h
      · simp [jsZero_eq, JsNum.lt]

theorem platformFee_of_not_pos (sub p : JsNum) (hp : ¬ 0 < p) : platformFee sub p = 0 := by
  unfold platformFee
  rw [if_neg (platformFeePercent_not_pos p hp)]

theorem platformFee_of_pos (sub p : JsNum) (s : ℚ) (hs : sub = .fin s) (hp : 0 < p) :
    platformFee sub p = JsNum.mul sub (JsNum.div p 100) := by
  subst hs
  rw [jsnum_pos_iff, jsZero_eq] at hp
  unfold platformFee platformFeePercent
  cases p with
  | nan => simp [JsNum.lt] at hp
  | inf t =>
    cases t
    · have hdiv : JsNum.div (.inf false) 100 = .inf false := by
        rw [jsHundred_eq]
        simp only [JsNum.div]
        norm_num
      rw [hdiv]
      simp [JsNum.orZero, JsNum.truthy, gt_iff_lt, jsnum_lt_def, jsZero_eq, JsNum.lt]
    · simp [JsNum.lt] at hp
  | fin x =>
    simp only [JsNum.lt, decide_eq_true_eq] at hp
    rw [div_hundred]
    have h := jsRound_nonneg (show 0 ≤ x / 100 by positivity)
    rw [jsZero_eq] at h
    cases hr : JsNum.round (x / 100) with
    | nan => exact absurd hr (round_ne_nan _)
    | inf t =>
      rw [hr] at h
      cases t
      · simp [JsNum.orZero, JsNum.truthy, gt_iff_lt, jsnum_lt_def, jsZero_eq, JsNum.lt]
      · simp [JsNum.le] at h
    | fin r =>
      rw [hr] at h
      simp only [JsNum.le, decide_eq_true_eq] at h
      rcases eq_or_lt_of_le h with h0 | hpos
      · subst h0
        simp [JsNum.orZero, JsNum.truthy, gt_iff_lt, jsnum_lt_def, jsZero_eq, JsNum.lt,
          JsNum.mul, round_zero]
      · have hne : r ≠ 0 := ne_of_gt hpos
        simp [JsNum.orZero, JsNum.truthy, gt_iff_lt, jsnum_lt_def, jsZero_eq, JsNum.lt,
          hne, hpos]

/-- A positive fraction `p / 100 || 0` is `+Infinity` or a positive double. -/
theorem platformFeePercent_pos_cases (p : JsNum) (h : platformFeePercent p > 0) :
    platformFeePercent p = .inf false ∨ ∃ r : ℚ, 0 < r ∧ platformFeePercent p = .fin r := by
  rw [gt_iff_lt, jsnum_pos_iff, jsZero_eq] at h
  cases hq : platformFeePercent p with
  | nan => rw [hq] at h; simp [JsNum.lt] at h
  | inf t =>
    rw [hq] at h
    cases t
    · exact Or.inl rfl
    · simp [JsNum.lt] at h
  | fin r =>
    rw [hq] at h
    simp only [JsNum.lt, decide_eq_true_eq] at h
    exact Or.inr ⟨r, h, rfl⟩

theorem platformFee_not_neg (sub p : JsNum) (h : ¬ sub < 0) : ¬ platformFee sub p < 0 := by
  change ¬ (JsNum.lt sub 0 = true) at h
  change ¬ (JsNum.lt (platformFee sub p) 0 = true)
  rw [jsZero_eq] at *
  unfold platformFee
  by_cases hpos : platformFeePercent p > 0
  · rw [if_pos hpos]
    rcases platformFeePercent_pos_cases p hpos with hq | ⟨r, hr, hq⟩
    · rw [hq]
      cases sub with
      | nan => simp [JsNum.mul, JsNum.lt]
      | inf t => cases t <;> simp_all [JsNum.mul, JsNum.lt]
      | fin s =>
        simp only [JsNum.lt, decide_eq_true_eq, not_lt] at h
        simp only [JsNum.mul]
        split_ifs with h0
        · simp [JsNum.lt]
        · simp [JsNum.lt, not_lt.mpr h]
    · rw [hq]
      cases sub with
      | nan => simp [JsNum.mul, JsNum.lt]
      | inf t =>
        cases t
        · simp [JsNum.mul, JsNum.lt, ne_of_gt hr, not_lt.mpr hr.le]
        · simp [JsNum.lt] at h
      | fin s =>
        simp only [JsNum.lt, decide_eq_true_eq, not_lt] at h
        simp only [JsNum.mul]
        have := jsnum_not_lt_of_le (jsRound_nonneg (mul_nonneg h hr.le))
        rw [jsZero_eq] at this
        simp [this]
  · rw [if_neg hpos, jsZero_eq]
    simp [JsNum.lt]

theorem platformFee_nonneg (sub p : JsNum) (hsub : 0 ≤ sub) (hd : p.isDouble = true)
    (hinf : p ≠ .inf false) : 0 ≤ platformFee sub p := by
  change JsNum.le 0 sub = true at hsub
  change JsNum.le 0 (platformFee sub p) = true
  by_cases hp : 0 < p
  · have hp' := hp
    rw [jsnum_pos_iff, jsZero_eq] at hp'
    cases p with
    | nan => simp [JsNum.lt] at hp'
    | inf t =>
      cases t
      · exact absurd rfl hinf
      · simp [JsNum.lt] at hp'
    | fin x =>
      simp only [JsNum.lt, decide_eq_true_eq] at hp'
      simp only [JsNum.isDouble, decide_eq_true_eq] at hd
      obtain ⟨r, hr, hr0, -⟩ := round_between round_zero hd
        (show (0 : ℚ) ≤ x / 100 by positivity) (show x / 100 ≤ x by
          rw [div_le_iff₀ (by norm_num)]; linarith)
      unfold platformFee platformFeePercent
      rw [div_hundred, hr]
      rcases eq_or_lt_of_le hr0 with h0 | hpos
      · subst h0
        simp [JsNum.orZero, JsNum.truthy, gt_iff_lt, jsnum_lt_def, jsZero_eq, JsNum.lt,
          JsNum.le]
      · have hne : r ≠ 0 := ne_of_gt hpos
        simp only [JsNum.orZero, JsNum.truthy, bne_iff_ne, ne_eq, hne, not_false_eq_true,
          if_true, gt_iff_lt, jsnum_lt_def, jsZero_eq, JsNum.lt, decide_eq_true_eq, hpos]
        rw [jsZero_eq] at hsub
        cases sub with
        | nan => simp [JsNum.le] at hsub
        | inf t =>
          cases t
          · simp [JsNum.mul, JsNum.le, hne, not_lt.mpr hpos.le]
          · simp [JsNum.le] at hsub
        | fin s =>
          simp only [JsNum.le, decide_eq_true_eq] at hsub
          simp only [JsNum.mul]
          have := jsRound_nonneg (mul_nonneg hsub hpos.le)
          rwa [jsZero_eq] at this
  · rw [platformFee_of_not_pos sub p hp, jsZero_eq]
    simp [JsNum.le]

/-! ## Rejected uploads -/

theorem uploadOutcome_error (o : Outcomes) (files : List UploadedFile)
    (h : ∃ f ∈ files, o.upload f = none) :
    ∀ acc, uploadOutcome o files acc = .error (.rejected .FileService) := by
  induction files with
  | nil => obtain ⟨f, hf, -⟩ := h; simp at hf
  | cons f rest ih =>
    intro acc
    cases hf : o.upload f with
    | none => simp only [uploadOutcome, hf]
    | some url =>
      simp only [uploadOutcome, hf]
      refine ih ?_ _
      obtain ⟨g, hg, hgn⟩ := h
      rcases List.mem_cons.mp hg with rfl | hg'
      · rw [hf] at hgn; cases hgn
      · exact ⟨g, hg', hgn⟩

/-! ## Two calls in flight -/

theorem approveSteps_finished (o : Outcomes) (k : Identifier) (ownerId : Nat) (n : Nat)
    (r : Except Thrown Rental) (w : World) :
    approveSteps o k ownerId n (.finished r, w) = (.finished r, w) := by
  induction n with
  | zero => rfl
  | succ n ih => simp only [approveSteps, approveStep, ih]

/-- Run on its own, the five steps of a call are `approveRentalRequest`. -/
theorem approveSteps_eq (o : Outcomes) (w : World) (k : Identifier) (ownerId : Nat) :
    approveSteps o k ownerId 5 (.start, w) =
      (.finished (approveRentalRequest o w k ownerId).1,
        (approveRentalRequest o w k ownerId).2) := by
  unfold approveRentalRequest
  rw [approveSteps]
  simp only [approveStep]
  cases hfind : RentalModel.findByIdentifier w k with
  | none => simp only [approveSteps_finished]
  | some rental =>
    simp only []
    by_cases h1 : rental.owner_id ≠ ownerId
    · simp only [if_pos h1, approveSteps_finished]
    simp only [if_neg h1]
    by_cases h2 : rental.rental_status ≠ "pending_owner_approval"
    · simp only [if_pos h2, approveSteps_finished]
    simp only [if_neg h2]
    rw [approveSteps]
    simp only [approveStep]
    cases hp : rental.product_id.bind (fun pid => ProductModel.findByIdOrSlug w (.id pid)) with
    | none => simp only [approveSteps_finished]
    | some product =>
      simp only []
      by_cases h3 : product.quantity_available < 1 ∧ product.quantity > 0
      · simp only [if_pos h3, approveSteps_finished]
      simp only [if_neg h3]
      rw [approveSteps]
      simp only [approveStep]
      rcases hu : RentalModel.update o w rental.id { rental_status := some "pending_payment" }
        with ⟨ru, w1⟩
      cases ru with
      | error e => simp only [approveSteps_finished]
      | ok updatedRental =>
        simp only []
        rw [approveSteps]
        simp only [approveStep]
        rcases hh : RentalStatusHistoryModel.create o w1 rental.id "pending_payment" ownerId
          "Rental approved by owner." rental.rental_status with ⟨rh, w2⟩
        cases rh with
        | error e => simp only [approveSteps_finished]
        | ok x =>
          simp only []
          rw [approveSteps]
          simp only [approveStep]
          rcases hn : NotificationService.createNotification o w2
            (rentalNotification rental rental.renter_id "rental_approved"
              "คำขอเช่าของคุณได้รับการอนุมัติ"
              ("คำขอเช่าสินค้า " ++ product.title ++ " ได้รับการอนุมัติ")) with ⟨rn, w3⟩
          cases rn with
          | error e => simp only [approveSteps_finished]
          | ok y => simp only [approveSteps]

theorem mem_boolLists (s : List Bool) : s ∈ boolLists s.length := by
  induction s with
  | nil => simp [boolLists]
  | cons x xs ih =>
    cases x <;> simp [boolLists, ih]

theorem phase_run_all :
    ∀ s ∈ boolLists 10, s.count true = 5 → s.count false = 5 →
      Phase.run s (.start, .start, 0) = Phase.expected s := by
  decide!

theorem phase_run_complete (s : List Bool) (hA : s.count true = 5) (hB : s.count false = 5) :
    Phase.run s (.start, .start, 0) = Phase.expected s := by
  have hlen : s.length = 10 := by
    have := List.count_true_add_count_false s
    omega
  have hmem := mem_boolLists s
  rw [hlen] at hmem
  exact phase_run_all s hmem hA hB

theorem worldAt_emit {w0 : World} {k : Identifier} {ownerId : Nat} {rental0 : Rental}
    {n : Nat} {w : World} (hw : WorldAt w0 k ownerId rental0 n w) (e : Effect)
    (he : statusWrites [e] = []) : WorldAt w0 k ownerId rental0 n (w.emit e) := by
  obtain ⟨hprods, ⟨row, hrow, hrid, hrown, hrpid, hrst⟩, ⟨r', hr'⟩, ⟨t, htr, hst⟩⟩ := hw
  refine ⟨hprods, ⟨row, ?_, hrid, hrown, hrpid, hrst⟩, ⟨r', hr'⟩, ⟨t ++ [e], ?_, ?_⟩⟩
  · rw [findByIdentifier_congr w (w.emit e) k rfl]
    exact hrow
  · simp only [World.emit, htr, List.append_assoc]
  · rw [statusWrites_append, hst, he, List.append_nil]

theorem approveStep_sim (o : Outcomes) (w0 : World) (k : Identifier) (ownerId : Nat)
    (rental0 : Rental) (product : Product)
    (hprod : rental0.product_id.bind (fun pid => ProductModel.findByIdOrSlug w0 (.id pid))
      = some product)
    (hstock : ¬ (product.quantity_available < 1 ∧ product.quantity > 0))
    (hu : o.rentalUpdateOk = true) (hh : o.historyOk = true) (hn : o.notifyOk = true)
    (p : Phase) (n : Nat) (c : ApproveCall) (w : World)
    (hc : CallAt rental0 p c) (hw : WorldAt w0 k ownerId rental0 n w) :
    CallAt rental0 (Phase.step p n).1 (approveStep o k ownerId c w).1 ∧
      WorldAt w0 k ownerId rental0 (Phase.step p n).2 (approveStep o k ownerId c w).2 := by
  obtain ⟨hprods, ⟨row, hrow, hrid, hrown, hrpid, hrst⟩, ⟨r', hr'⟩, ⟨t, htr, hst⟩⟩ := hw
  have hw' : WorldAt w0 k ownerId rental0 n w :=
    ⟨hprods, ⟨row, hrow, hrid, hrown, hrpid, hrst⟩, ⟨r', hr'⟩, ⟨t, htr, hst⟩⟩
  cases p <;> cases c <;> simp only [CallAt] at hc <;> try exact absurd hc id
  · -- the load
    simp only [approveStep, hrow, if_neg (not_not.mpr hrown), Phase.step]
    by_cases h0 : n = 0
    · rw [if_pos h0] at hrst
      simp only [if_neg (not_not.mpr hrst), if_pos h0]
      exact ⟨⟨hrid, hrpid⟩, hw'⟩
    · have hrst' : row.rental_status = "pending_payment" := by rw [hrst, if_neg h0]
      have hne : row.rental_status ≠ "pending_owner_approval" := by rw [hrst']; decide
      simp only [if_pos hne, if_neg h0]
      exact ⟨by simp only [CallAt, hrst'], hw'⟩
  · -- the product fetch
    rename_i r
    have hlook : r.product_id.bind (fun pid => ProductModel.findByIdOrSlug w (.id pid))
        = some product := by
      rw [hc.2, ← hprod]
      congr 1
      funext pid
      simp only [ProductModel.findByIdOrSlug, hprods]
    simp only [approveStep, hlook, if_neg hstock, Phase.step]
    exact ⟨by simp only [CallAt]; exact hc.1, hw'⟩
  · -- the update
    rename_i r pr
    simp only [approveStep, RentalModel.update, hu, if_true, hc, hr', Phase.step]
    refine ⟨by simp [CallAt, RentalFields.applyTo], ?_, ?_, ?_, ?_⟩
    · simp only [World.emit]; exact hprods
    · refine ⟨({ rental_status := some "pending_payment" } : RentalFields).applyTo row, ?_,
        by simp [RentalFields.applyTo, hrid], by simp [RentalFields.applyTo, hrown],
        by simp [RentalFields.applyTo, hrpid], by simp [RentalFields.applyTo]⟩
      rw [findByIdentifier_after w _ k rental0.id { rental_status := some "pending_payment" }
        (by simp only [World.emit]), hrow]
      simp [hrid]
    · have := findByIdentifier_after w
        ({ w.emit (.rentalUpdate rental0.id { rental_status := some "pending_payment" }) with
          rentals := w.rentals.map (fun x =>
            if x.id = rental0.id then
              ({ rental_status := some "pending_payment" } : RentalFields).applyTo x
            else x) }) (.id rental0.id) rental0.id { rental_status := some "pending_payment" }
        (by simp only [World.emit])
      simp only [RentalModel.findByIdentifier, hr', Option.map_some'] at this
      exact ⟨_, this⟩
    · refine ⟨t ++ [.rentalUpdate rental0.id { rental_status := some "pending_payment" }], ?_, ?_⟩
      · simp only [World.emit, htr, List.append_assoc]
      · rw [statusWrites_append, hst, List.replicate_succ']
        rfl
  · -- the audit write
    rename_i r pr u
    simp only [approveStep, RentalStatusHistoryModel.create, hh, if_true, Phase.step]
    exact ⟨by simp only [CallAt]; exact hc, worldAt_emit hw' _ rfl⟩
  · -- the notification
    rename_i r pr u
    simp only [approveStep, NotificationService.createNotification, hn, if_true, Phase.step]
    exact ⟨by simp only [CallAt]; exact hc, worldAt_emit hw' _ rfl⟩
  · -- a call that returned
    rename_i res
    cases res with
    | error e => exact absurd hc id
    | ok u => exact ⟨by simp only [approveStep, Phase.step, CallAt]; exact hc, hw'⟩
  · -- a call that threw
    rename_i res
    cases res with
    | error e => exact ⟨by simp only [approveStep, Phase.step, CallAt]; exact hc, hw'⟩
    | ok u => exact absurd hc id

theorem interleave_sim (o : Outcomes) (w0 : World) (k : Identifier) (ownerId : Nat)
    (rental0 : Rental) (product : Product)
    (hprod : rental0.product_id.bind (fun pid => ProductModel.findByIdOrSlug w0 (.id pid))
      = some product)
    (hstock : ¬ (product.quantity_available < 1 ∧ product.quantity > 0))
    (hu : o.rentalUpdateOk = true) (hh : o.historyOk = true) (hn : o.notifyOk = true)
    (s : List Bool) :
    ∀ (pa pb : Phase) (n : Nat) (c : TwoCalls),
      CallAt rental0 pa c.a → CallAt rental0 pb c.b → WorldAt w0 k ownerId rental0 n c.world →
      CallAt rental0 (Phase.run s (pa, pb, n)).1 (interleave o k ownerId s c).a ∧
      CallAt rental0 (Phase.run s (pa, pb, n)).2.1 (interleave o k ownerId s c).b ∧
      WorldAt w0 k ownerId rental0 (Phase.run s (pa, pb, n)).2.2
        (interleave o k ownerId s c).world := by
  induction s with
  | nil => intro pa pb n c ha hb hw; exact ⟨ha, hb, hw⟩
  | cons x xs ih =>
    intro pa pb n c ha hb hw
    cases x with
    | true =>
      obtain ⟨h1, h2⟩ := approveStep_sim o w0 k ownerId rental0 product hprod hstock hu hh hn
        pa n c.a c.world ha hw
      exact ih _ pb _ _ h1 hb h2
    | false =>
      obtain ⟨h1, h2⟩ := approveStep_sim o w0 k ownerId rental0 product hprod hstock hu hh hn
        pb n c.b c.world hb hw
      exact ih pa _ _ _ ha h1 h2

theorem callAt_lost {rental0 : Rental} {c : ApproveCall} (h : CallAt rental0 .lost c) :
    c = .finished (.error (.apiError .BAD_REQUEST (.notPendingOwnerApproval "pending_payment"))) := by
  cases c with
  | finished res =>
    cases res with
    | error e => simp only [CallAt] at h; rw [h]
    | ok u => exact absurd h id
  | _ => exact absurd h id

theorem callAt_succeeded {rental0 : Rental} {c : ApproveCall} (h : CallAt rental0 .succeeded c) :
    ∃ u, c = .finished (.ok u) ∧ u.rental_status = "pending_payment" := by
  cases c with
  | finished res =>
    cases res with
    | error e => exact absurd h id
    | ok u => exact ⟨u, rfl, h⟩
  | _ => exact absurd h id

/-! ## C1: the status moves along the edges of the transition table -/

/-- C1. For every stored rental and every lifecycle operation: when the
operation succeeds it issues exactly one rental update, and the pair (status
read, status written) is the row of the transition table for that operation,
hence an edge of the table or, for a payment verification on a rental that is
not `confirmed`, the unchanged status; the rental returned and the rental
stored afterwards carry the written status.  When the status read is not a
source status the table allows for the operation, the operation fails, issues no
rental update and leaves the stored rentals, hence the status, unchanged. -/
theorem status_moves_along_table_edges (o : Outcomes) (w : World) (k : Identifier) (op : Op)
    (rental : Rental) (hfind : RentalModel.findByIdentifier w k = some rental) :
    (∀ u, (op.run o w k).1 = .ok u →
      ∃ new, statusWrites (issued w (op.run o w k).2) = [new] ∧
        specTransition op rental.rental_status new ∧
        (specEdge rental.rental_status new ∨ new = rental.rental_status) ∧
        u.rental_status = new ∧
        (RentalModel.findByIdentifier (op.run o w k).2 k).map (fun r => r.rental_status)
          = some new) ∧
    (¬ specSource op rental.rental_status →
      (∃ e, (op.run o w k).1 = .error e) ∧
        rentalUpdates (issued w (op.run o w k).2) = [] ∧
        (op.run o w k).2.rentals = w.rentals ∧
        (RentalModel.findByIdentifier (op.run o w k).2 k).map (fun r => r.rental_status)
          = some rental.rental_status) := by
  constructor
  · intro u hu
    obtain ⟨c, new, -, -, -, -, htr, hw, -, hs, hl, -⟩ := run_success o w k op rental u hfind hu
    exact ⟨new, hw, htr, specEdge_of_specTransition op _ _ htr, hs, hl⟩
  · intro hs
    obtain ⟨r, hres, hiss, hrent⟩ := run_follows o w k op rental hfind
    obtain ⟨e, he⟩ := plan_fail_of_not_source o w rental op hs
    rw [he] at hres hiss hrent
    refine ⟨⟨e, by simpa [Plan.result] using hres⟩, ?_, by simpa [Plan.rentals] using hrent, ?_⟩
    · rw [hiss]; rfl
    · have : RentalModel.findByIdentifier (op.run o w k).2 k = RentalModel.findByIdentifier w k := by
        cases k <;> simp only [RentalModel.findByIdentifier] <;> rw [hrent] <;> rfl
      rw [this, hfind]; rfl

/-- Witness of C1: the owner approves a rental that is pending owner approval. -/
theorem status_moves_along_table_edges_witness :
    ∃ new,
      statusWrites (issued (demoWorld [demoRental "pending_owner_approval" "unpaid" none])
        (Op.run allOk (demoWorld [demoRental "pending_owner_approval" "unpaid" none]) (.id 1)
          (.approveRentalRequest 2)).2) = [new] ∧
      specTransition (.approveRentalRequest 2) "pending_owner_approval" new ∧
      (specEdge "pending_owner_approval" new ∨ new = "pending_owner_approval") ∧
      (demoRental "pending_payment" "unpaid" none).rental_status = new ∧
      (RentalModel.findByIdentifier
        (Op.run allOk (demoWorld [demoRental "pending_owner_approval" "unpaid" none]) (.id 1)
          (.approveRentalRequest 2)).2 (.id 1)).map (fun r => r.rental_status) = some new :=
  (status_moves_along_table_edges allOk
    (demoWorld [demoRental "pending_owner_approval" "unpaid" none]) (.id 1)
    (.approveRentalRequest 2) (demoRental "pending_owner_approval" "unpaid" none) rfl).1
    (demoRental "pending_payment" "unpaid" none) rfl

/-! ## C2: the fee breakdown stored at creation -/

/-- C2 (amended). For every successful `createRentalRequest` the stored rental
carries the fee breakdown of the spec evaluated in double arithmetic, every
operation rounded: the subtotal is the price per day times the duration the
service computes, and that duration is `ceil((end_date - start_date) / 1 day) +
1` exactly for valid dates at most `2 ^ 53` milliseconds apart; the deposit is
the product deposit, 0 when it is unset or `NaN`; the delivery fee is the
configured flat fee (0 when it does not parse) for `pickup_method = 'delivery'`
and 0 otherwise; each platform fee is 0 when its configured percentage is not
positive (zero, negative or unparsable) and, for a positive percentage and a
finite subtotal, `subtotal * (percent / 100)`, the division rounded first; the
total due is `((subtotal + deposit) + delivery fee) + renter platform fee`, and
it is the same whatever the owner fee percentage. -/
theorem created_fee_breakdown (o : Outcomes) (w : World) (renterId : Nat)
    (d : RentalRequestData) (u : Rental)
    (hok : (createRentalRequest o w renterId d).1 = .ok u) :
    (∃ product, ProductModel.findByIdOrSlug w d.product_id = some product ∧
      u ∈ (createRentalRequest o w renterId d).2.rentals ∧
      u.rental_price_per_day_at_booking = product.rental_price_per_day ∧
      u.security_deposit_at_booking =
        (match product.security_deposit with
          | some v => if v = .nan then 0 else v
          | none => 0) ∧
      u.calculated_subtotal_rental_fee =
        JsNum.mul product.rental_price_per_day
          (rentalDurationDays d.start_date d.end_date) ∧
      u.delivery_fee =
        (if d.pickup_method = "delivery" then
          (if w.settings.default_delivery_fee = .nan then 0
            else w.settings.default_delivery_fee)
        else 0) ∧
      (¬ 0 < w.settings.platform_fee_renter_percentage → u.platform_fee_renter = 0) ∧
      (0 < w.settings.platform_fee_renter_percentage →
        ∀ s, u.calculated_subtotal_rental_fee = .fin s →
          u.platform_fee_renter = JsNum.mul u.calculated_subtotal_rental_fee
            (JsNum.div w.settings.platform_fee_renter_percentage 100)) ∧
      (¬ 0 < w.settings.platform_fee_owner_percentage → u.platform_fee_owner = 0) ∧
      (0 < w.settings.platform_fee_owner_percentage →
        ∀ s, u.calculated_subtotal_rental_fee = .fin s →
          u.platform_fee_owner = JsNum.mul u.calculated_subtotal_rental_fee
            (JsNum.div w.settings.platform_fee_owner_percentage 100)) ∧
      u.total_amount_due =
        JsNum.add
          (JsNum.add (JsNum.add u.calculated_subtotal_rental_fee u.security_deposit_at_booking)
            u.delivery_fee)
          u.platform_fee_renter) ∧
    (|d.start_date| ≤ 8640000000000000 → |d.end_date| ≤ 8640000000000000 →
      |d.end_date - d.start_date| ≤ 2 ^ 53 →
      rentalDurationDays d.start_date d.end_date =
        .fin (specDurationDays d.start_date d.end_date : ℚ)) ∧
    (∀ q u',
      (createRentalRequest o
        { w with settings := { w.settings with platform_fee_owner_percentage := q } }
        renterId d).1 = .ok u' →
      u'.total_amount_due = u.total_amount_due) := by
  obtain ⟨product, addressId, hprod, hp, hcr, rfl⟩ := create_success o w renterId d u hok
  refine ⟨⟨product, hprod, ?_, ?_, ?_, ?_, ?_, ?_, ?_, ?_, ?_, ?_⟩,
    rentalDurationDays_exact d.start_date d.end_date, ?_⟩
  · rw [hp]
    simp only [RentalModel.create, hcr, if_true, World.emit, List.mem_append,
      List.mem_singleton]
    right
    simp [rentalPayload]
  · simp [RentalFields.applyTo, rentalPayload]
  · simp only [RentalFields.applyTo, rentalPayload, Option.getD_some]
    exact orZero_eq _
  · simp [RentalFields.applyTo, rentalPayload, subtotalRentalFee]
  · simp only [RentalFields.applyTo, rentalPayload, Option.getD_some, deliveryFee, jsOrZero_eq]
  · intro h
    simp only [RentalFields.applyTo, rentalPayload, Option.getD_some]
    exact platformFee_of_not_pos _ _ h
  · intro h s hs
    simp only [RentalFields.applyTo, rentalPayload, Option.getD_some] at hs ⊢
    exact platformFee_of_pos _ _ s hs h
  · intro h
    simp only [RentalFields.applyTo, rentalPayload, Option.getD_some]
    exact platformFee_of_not_pos _ _ h
  · intro h s hs
    simp only [RentalFields.applyTo, rentalPayload, Option.getD_some] at hs ⊢
    exact platformFee_of_pos _ _ s hs h
  · simp [RentalFields.applyTo, rentalPayload]
  · intro q u' hok'
    obtain ⟨product', addressId', hprod', -, -, rfl⟩ := create_success o _ renterId d u' hok'
    have hsame : ProductModel.findByIdOrSlug
        { w with settings := { w.settings with platform_fee_owner_percentage := q } }
        d.product_id = ProductModel.findByIdOrSlug w d.product_id := by
      cases d.product_id <;> rfl
    rw [hsame, hprod] at hprod'
    have hpp : product' = product := (Option.some.inj hprod').symm
    subst hpp
    simp [RentalFields.applyTo, rentalPayload, deliveryFee]

/-- Witness of C2 (amended), the pricing example of the spec: 2024-01-01 to
2024-01-03 at 100 per day, deposit 50, no delivery, renter fee 5 percent gives 3
days, subtotal 300, renter fee 15 and total 365. -/
theorem created_fee_breakdown_witness :
    ∃ u, (createRentalRequest allOk (demoWorld []) 1 demoRequest).1 = .ok u ∧
      rentalDurationDays demoRequest.start_date demoRequest.end_date = 3 ∧
      specDurationDays demoRequest.start_date demoRequest.end_date = 3 ∧
      u.calculated_subtotal_rental_fee = 300 ∧
      u.security_deposit_at_booking = 50 ∧
      u.delivery_fee = 0 ∧
      u.platform_fee_renter = 15 ∧
      u.total_amount_due = 365 := by
  have hok : (createRentalRequest allOk (demoWorld []) 1 demoRequest).1 = .ok
      ((rentalPayload (demoWorld []) 1 demoRequest demoProduct none).applyTo
        (Rental.blank 1 "R-0001" (some ⟨10⟩))) := by
    rw [demoRequest_pass (demoWorld []) rfl]; rfl
  obtain ⟨⟨p, hp, -, -, h2, h3, h4, -, h5, -, -, h7⟩, hdur, -⟩ :=
    created_fee_breakdown allOk (demoWorld []) 1 demoRequest _ hok
  have hpd := demoProduct_lookup (demoWorld []) rfl p hp
  subst hpd
  have hspec : specDurationDays demoRequest.start_date demoRequest.end_date = 3 := by decide!
  have hd3 : rentalDurationDays demoRequest.start_date demoRequest.end_date = 3 := by
    rw [hdur (by decide) (by decide) (by decide), hspec]
    show JsNum.fin ((3 : Int) : ℚ) = JsNum.fin ((3 : Nat) : ℚ)
    norm_num
  have hsub : ((rentalPayload (demoWorld []) 1 demoRequest demoProduct none).applyTo
        (Rental.blank 1 "R-0001" (some ⟨10⟩))).calculated_subtotal_rental_fee = 300 := by
    rw [h3, hd3]; decide!
  have hfee := h5 (by decide!) 300 (by rw [hsub]; decide!)
  refine ⟨_, hok, hd3, hspec, hsub, ?_, ?_, ?_, ?_⟩
  · rw [h2]; decide!
  · rw [h4]; decide!
  · rw [hfee, hsub]; decide!
  · rw [h7, hfee, hsub, h2, h4]; decide!

/-- Counterexample to C2 as stated, on the request of the pricing example.
With the renter fee percentage configured as -5 the stored renter fee is 0, not
`300 * (-5) / 100 = -15`, and the total due is 350.  With the percentage
configured as 7 the stored renter fee is `300 * 0.07` in doubles,
21.000000000000004 (that is `21 + 2 ^ (-48)`), not `300 * 7 / 100 = 21`. -/
theorem created_fee_breakdown_counterexample :
    (∃ u, (createRentalRequest allOk negativeFeeWorld 1 demoRequest).1 = .ok u ∧
      negativeFeeWorld.settings.platform_fee_renter_percentage = .fin (-5) ∧
      u.calculated_subtotal_rental_fee = 300 ∧
      u.platform_fee_renter = 0 ∧
      specPlatformFee 300 (-5) = -15 ∧
      u.total_amount_due = 350) ∧
    (∃ u, (createRentalRequest allOk sevenPercentWorld 1 demoRequest).1 = .ok u ∧
      sevenPercentWorld.settings.platform_fee_renter_percentage = 7 ∧
      u.calculated_subtotal_rental_fee = 300 ∧
      u.platform_fee_renter = .fin (5910974510923777 / 281474976710656) ∧
      specPlatformFee 300 7 = 21 ∧
      (5910974510923777 / 281474976710656 : ℚ) ≠ 21) := by
  have hok1 : (createRentalRequest allOk negativeFeeWorld 1 demoRequest).1 = .ok
      ((rentalPayload negativeFeeWorld 1 demoRequest demoProduct none).applyTo
        (Rental.blank 1 "R-0001" (some ⟨10⟩))) := by
    rw [demoRequest_pass negativeFeeWorld rfl]; rfl
  have hok2 : (createRentalRequest allOk sevenPercentWorld 1 demoRequest).1 = .ok
      ((rentalPayload sevenPercentWorld 1 demoRequest demoProduct none).applyTo
        (Rental.blank 1 "R-0001" (some ⟨10⟩))) := by
    rw [demoRequest_pass sevenPercentWorld rfl]; rfl
  refine ⟨⟨_, hok1, rfl, ?_, ?_, ?_, ?_⟩, ⟨_, hok2, rfl, ?_, ?_, ?_, ?_⟩⟩
  · decide!
  · decide!
  · norm_num [specPlatformFee]
  · decide!
  · decide!
  · decide!
  · norm_num [specPlatformFee]
  · norm_num

/-! ## C3: rejection for the duration -/

/-- C3 (amended). For every product that passes the availability, ownership
and stock checks and every request whose start and end dates are valid dates:
when the dates are at most `2 ^ 53` milliseconds apart, `createRentalRequest`
fails with the minimum- or maximum-duration validation error if and only if
`duration_days` is below the minimum (taken as 1 when unset or 0) or the maximum
is set, is not 0 and `duration_days` exceeds it, where `duration_days =
ceil((end_date - start_date) / 1 day) + 1`; in particular, when that minimum is
at least 1, every request whose end date is one full day or more before its
start date is rejected with the minimum-duration error and nothing is written. -/
theorem duration_rejection (o : Outcomes) (w : World) (renterId : Nat)
    (d : RentalRequestData) (product : Product)
    (hprod : ProductModel.findByIdOrSlug w d.product_id = some product)
    (havail : product.availability_status = "available")
    (happ : product.admin_approval_status = "approved")
    (hown : product.owner_id ≠ renterId)
    (hstock : ¬ (product.quantity_available < 1 ∧ product.quantity > 0))
    (hstart : |d.start_date| ≤ 8640000000000000)
    (hend : |d.end_date| ≤ 8640000000000000) :
    (|d.end_date - d.start_date| ≤ 2 ^ 53 →
      ((∃ m, (createRentalRequest o w renterId d).1 =
            .error (.apiError .BAD_REQUEST (.minimumDuration m)) ∨
          (createRentalRequest o w renterId d).1 =
            .error (.apiError .BAD_REQUEST (.maximumDuration m))) ↔
        (specDurationDays d.start_date d.end_date <
            (match product.min_rental_duration_days with
              | some m => if m = 0 then 1 else m
              | none => 1) ∨
          ∃ m, product.max_rental_duration_days = some m ∧ m ≠ 0 ∧
            specDurationDays d.start_date d.end_date > m))) ∧
    (1 ≤ (match product.min_rental_duration_days with
            | some m => if m = 0 then 1 else m
            | none => 1) →
      d.end_date + 86400000 ≤ d.start_date →
      createRentalRequest o w renterId d =
        (.error (.apiError .BAD_REQUEST
          (.minimumDuration
            (match product.min_rental_duration_days with
              | some m => if m = 0 then 1 else m
              | none => 1))), w)) := by
  have hc := createRentalRequest_checked o w renterId d product hprod havail happ hown hstock
  have hone : (match product.min_rental_duration_days with
      | some m => if m = 0 then 1 else m
      | none => 1) = orOne product.min_rental_duration_days := by
    cases product.min_rental_duration_days with
    | none => rfl
    | some m => by_cases hm : m = 0 <;> simp [orOne, truthyInt, hm]
  rw [hone]
  obtain ⟨c, hcd, hcabs, hcneg⟩ := rentalDurationDays_valid d.start_date d.end_date hstart hend
  have hminiff : (rentalDurationDays d.start_date d.end_date <
      JsNum.ofInt (orOne product.min_rental_duration_days)) ↔
      c < orOne product.min_rental_duration_days := by
    rw [hcd]
    show JsNum.lt _ _ = true ↔ _
    rw [fin_lt_ofInt c _ hcabs, decide_eq_true_eq]
  have hmaxiff : (truthyInt product.max_rental_duration_days = true ∧
      rentalDurationDays d.start_date d.end_date >
        JsNum.ofInt (product.max_rental_duration_days.getD 0)) ↔
      ∃ m, product.max_rental_duration_days = some m ∧ m ≠ 0 ∧ c > m := by
    rw [hcd]
    have : ∀ m : Int, (JsNum.fin (c : ℚ) > JsNum.ofInt m) ↔ c > m := by
      intro m
      show JsNum.lt _ _ = true ↔ _
      rw [ofInt_lt_fin c m hcabs, decide_eq_true_eq]
    cases product.max_rental_duration_days with
    | none => simp [truthyInt]
    | some v => simp [truthyInt, this]
  constructor
  · intro hdiff
    have hex := rentalDurationDays_exact d.start_date d.end_date hstart hend hdiff
    rw [hcd] at hex
    have hcs : c = specDurationDays d.start_date d.end_date := by
      have := JsNum.fin.inj hex
      exact_mod_cast this
    rw [← hcs, hc]
    by_cases h1 : rentalDurationDays d.start_date d.end_date <
        JsNum.ofInt (orOne product.min_rental_duration_days)
    · rw [if_pos h1]
      exact ⟨fun _ => Or.inl (hminiff.mp h1), fun _ => ⟨_, Or.inl rfl⟩⟩
    rw [if_neg h1]
    by_cases h2 : truthyInt product.max_rental_duration_days = true ∧
        rentalDurationDays d.start_date d.end_date >
          JsNum.ofInt (product.max_rental_duration_days.getD 0)
    · rw [if_pos h2]
      exact ⟨fun _ => Or.inr (hmaxiff.mp h2), fun _ => ⟨_, Or.inr rfl⟩⟩
    rw [if_neg h2]
    constructor
    · rintro ⟨m, hm⟩
      exfalso
      cases hv : validDeliveryAddressId w renterId d with
      | error e =>
        simp only [hv] at hm
        rcases validDeliveryAddressId_error w renterId d e hv with rfl | rfl <;> simp at hm
      | ok addressId =>
        simp only [hv] at hm
        rcases create_result o w renterId (rentalPayload w renterId d product addressId)
          with ⟨u, hu⟩ | hu <;> rw [hu] at hm <;> simp at hm
    · rintro (h | h)
      · exact absurd (hminiff.mpr h) h1
      · exact absurd (hmaxiff.mpr h) h2
  · intro hmin hrev
    rw [hc, if_pos]
    exact hminiff.mpr (by have := hcneg hrev; omega)

/-- Witness of C3 (amended): a request that ends two days before it starts is
rejected with the minimum-duration error. -/
theorem duration_rejection_witness :
    createRentalRequest allOk (demoWorld []) 1 reversedRequest =
      (.error (.apiError .BAD_REQUEST (.minimumDuration 1)), demoWorld []) :=
  (duration_rejection allOk (demoWorld []) 1 reversedRequest demoProduct rfl rfl rfl
    (by decide) (by decide) (by decide) (by decide)).2 (by decide) (by decide)

/-- Counterexample to C3 as stated.  A request that ends twelve hours before
it starts has `duration_days = ceil(-0.5) + 1 = 1`, passes the duration check
and is stored as a new rental.  And for a product whose maximum duration is set
to 0, the three-day request of the pricing example, whose duration exceeds that
maximum, is stored as well. -/
theorem duration_rejection_counterexample :
    (lateRequest.end_date < lateRequest.start_date ∧
      ((createRentalRequest allOk (demoWorld []) 1 lateRequest).1.toOption.map
        (fun r => (r.rental_status, r.start_date, r.end_date)))
        = some ("pending_owner_approval", 1704110400000, 1704067200000)) ∧
    (ProductModel.findByIdOrSlug zeroMaxWorld demoRequest.product_id = some zeroMaxProduct ∧
      zeroMaxProduct.max_rental_duration_days = some 0 ∧
      specDurationDays demoRequest.start_date demoRequest.end_date = 3 ∧
      ((createRentalRequest allOk zeroMaxWorld 1 demoRequest).1.toOption.map
        (fun r => (r.rental_status, r.start_date, r.end_date)))
        = some ("pending_owner_approval", 1704067200000, 1704240000000)) := by
  refine ⟨⟨by decide, ?_⟩, rfl, rfl, by decide!, ?_⟩
  · rw [lateRequest_pass]
    rfl
  · have : createRentalRequest allOk zeroMaxWorld 1 demoRequest =
        RentalModel.create allOk zeroMaxWorld 1
          (rentalPayload zeroMaxWorld 1 demoRequest zeroMaxProduct none) := by
      refine createRentalRequest_pass allOk zeroMaxWorld 1 demoRequest zeroMaxProduct none
        rfl rfl rfl (by decide) (by decide) ?_
        (by simp [zeroMaxProduct, demoProduct, truthyInt]) rfl
      decide!
    rw [this]
    rfl

/-! ## C4: only the assigned party may act -/

/-- C4. For every stored rental and every lifecycle operation called by an
actor other than the party the operation is assigned to (the owner for approve,
reject, verify payment and process return; the renter for submit payment proof
and cancel), whatever the status of the rental: the operation fails with
`FORBIDDEN` and returns the world it was given, so no rental update, audit
entry, inventory adjustment or notification is issued. -/
theorem wrong_actor_is_forbidden (o : Outcomes) (w : World) (k : Identifier) (op : Op)
    (rental : Rental) (hfind : RentalModel.findByIdentifier w k = some rental)
    (hactor : op.actor ≠ specActor rental op) :
    (∃ m, op.run o w k = (.error (.apiError .FORBIDDEN m), w)) ∧
      issued w (op.run o w k).2 = [] := by
  have key : ∃ m, op.run o w k = (.error (.apiError .FORBIDDEN m), w) := by
    cases op with
    | approveRentalRequest a =>
      have h : rental.owner_id ≠ a := fun e => hactor e.symm
      exact ⟨.notAuthorizedToApprove, by simp only [Op.run, approveRentalRequest, hfind, if_pos h]⟩
    | rejectRentalRequest a reason =>
      have h : rental.owner_id ≠ a := fun e => hactor e.symm
      exact ⟨.notAuthorizedToReject, by simp only [Op.run, rejectRentalRequest, hfind, if_pos h]⟩
    | submitPaymentProof a f d =>
      have h : rental.renter_id ≠ a := fun e => hactor e.symm
      exact ⟨.notAuthorizedForRental, by simp only [Op.run, submitPaymentProof, hfind, if_pos h]⟩
    | verifyRentalPaymentByOwner a amt =>
      have h : rental.owner_id ≠ a := fun e => hactor e.symm
      exact ⟨.notAuthorizedToVerifyPayment, by simp only [Op.run, verifyRentalPaymentByOwner, hfind, if_pos h]⟩
    | cancelRentalByUser a reason =>
      have h : rental.renter_id ≠ a := fun e => hactor e.symm
      exact ⟨.notAuthorizedToCancel, by simp only [Op.run, cancelRentalByUser, hfind, if_pos h]⟩
    | processReturn a d files =>
      have h : rental.owner_id ≠ a := fun e => hactor e.symm
      exact ⟨.notAuthorizedToProcessReturn, by simp only [Op.run, processReturn, hfind, if_pos h]⟩
  refine ⟨key, ?_⟩
  obtain ⟨m, hm⟩ := key
  rw [hm]
  exact issued_self w

/-- Witness of C4: user 99 processes the return of a rental owned by user 2. -/
theorem wrong_actor_is_forbidden_witness :
    issued (demoWorld [demoRental "confirmed" "pending_verification" none])
      (Op.run allOk (demoWorld [demoRental "confirmed" "pending_verification" none]) (.id 1)
        (.processReturn 99 ⟨none, "good", none, false⟩ [])).2 = [] :=
  (wrong_actor_is_forbidden allOk (demoWorld [demoRental "confirmed" "pending_verification" none])
    (.id 1) (.processReturn 99 ⟨none, "good", none, false⟩ [])
    (demoRental "confirmed" "pending_verification" none) rfl (by decide)).2

/-! ## C5: approving a rental that is not pending owner approval -/

/-- C5 (amended). For every stored rental whose status is not
`pending_owner_approval`: `approveRentalRequest` called by the owner of the
rental fails with the invalid-state error (`BAD_REQUEST`, "Rental is not pending
owner approval"), and called by anyone else it fails with `FORBIDDEN`; in both
cases the world is returned unchanged. -/
theorem approve_wrong_status_by_actor (o : Outcomes) (w : World) (k : Identifier) (ownerId : Nat)
    (rental : Rental) (hfind : RentalModel.findByIdentifier w k = some rental)
    (hstatus : rental.rental_status ≠ "pending_owner_approval") :
    (rental.owner_id = ownerId →
      approveRentalRequest o w k ownerId =
        (.error (.apiError .BAD_REQUEST (.notPendingOwnerApproval rental.rental_status)), w)) ∧
    (rental.owner_id ≠ ownerId →
      approveRentalRequest o w k ownerId =
        (.error (.apiError .FORBIDDEN .notAuthorizedToApprove), w)) := by
  constructor
  · intro h
    simp only [approveRentalRequest, hfind, if_neg (not_not.mpr h), if_pos hstatus]
  · intro h
    simp only [approveRentalRequest, hfind, if_pos h]

/-- Counterexample to C5 as stated: user 99, who is not the owner, approves a
`confirmed` rental and gets `FORBIDDEN`, not the invalid-state error. -/
theorem approve_wrong_status_counterexample :
    RentalModel.findByIdentifier (demoWorld [demoRental "confirmed" "pending_verification" none])
        (.id 1) = some (demoRental "confirmed" "pending_verification" none) ∧
      (demoRental "confirmed" "pending_verification" none).rental_status
        ≠ "pending_owner_approval" ∧
      approveRentalRequest allOk (demoWorld [demoRental "confirmed" "pending_verification" none])
          (.id 1) 99 =
        (.error (.apiError .FORBIDDEN .notAuthorizedToApprove),
          demoWorld [demoRental "confirmed" "pending_verification" none]) ∧
      Thrown.apiError .FORBIDDEN .notAuthorizedToApprove ≠
        Thrown.apiError .BAD_REQUEST (.notPendingOwnerApproval "confirmed") := by
  refine ⟨rfl, by decide, ?_, by decide⟩
  rfl

/-- Witness of C5 (amended): the owner approves a `confirmed` rental. -/
theorem approve_wrong_status_by_actor_witness :
    RentalModel.findByIdentifier (demoWorld [demoRental "confirmed" "pending_verification" none])
        (.id 1) = some (demoRental "confirmed" "pending_verification" none) ∧
    approveRentalRequest allOk (demoWorld [demoRental "confirmed" "pending_verification" none])
          (.id 1) 2 =
        (.error (.apiError .BAD_REQUEST (.notPendingOwnerApproval "confirmed")),
          demoWorld [demoRental "confirmed" "pending_verification" none]) :=
  ⟨rfl, (approve_wrong_status_by_actor allOk
    (demoWorld [demoRental "confirmed" "pending_verification" none]) (.id 1) 2
    (demoRental "confirmed" "pending_verification" none) rfl (by decide)).1 rfl⟩

/-! ## C6: inventory restorations and reservations -/

/-- C6 (code evaluated at the failing input). A rental is requested, approved,
paid, verified and returned in good condition, every collaborator resolving:
the rental ends `completed`, the five operations together attempt one inventory
restoration (`+1`) and no inventory reservation (`-1`). -/
theorem restoration_without_reservation :
    (RentalModel.findByIdentifier scenarioReturned (.id 1)).map (fun r => r.rental_status)
        = some "completed" ∧
      restorations (issued (demoWorld []) scenarioReturned) = 1 ∧
      reservations (issued (demoWorld []) scenarioReturned) = 0 := by
  unfold scenarioReturned scenarioActive scenarioPaid scenarioApproved scenarioCreated
  rw [demoRequest_pass (demoWorld []) rfl]
  decide


/-! ## C7: inventory restoration on cancellation -/

/-- C7 (amended). For every rental in `pending_owner_approval`,
`pending_payment` or `confirmed` that its renter cancels through
`cancelRentalByUser`: if its status was `confirmed` and it was loaded with its
product relation (`rental.product.id` not 0), one inventory restoration (`+1`
on that product) is attempted exactly when `RentalModel.update` and the audit
write both resolve, and no adjustment is attempted otherwise; if its status was
`pending_payment` or `pending_owner_approval`, no inventory adjustment is
attempted; whenever `RentalModel.update` resolves the rental is written as
`cancelled_by_renter`; and when the audit write and the notification resolve
too the call succeeds, whether the restoration resolves or throws. -/
theorem cancel_restores_embedded_product (o : Outcomes) (w : World) (k : Identifier)
    (userId : Nat) (reason : String) (rental : Rental)
    (hfind : RentalModel.findByIdentifier w k = some rental)
    (hrenter : rental.renter_id = userId)
    (hs : rental.rental_status ∈ ["pending_owner_approval", "pending_payment", "confirmed"]) :
    (rental.rental_status = "confirmed" → ∀ p, rental.product = some p → p.id ≠ 0 →
      (quantityAdjustments (issued w (cancelRentalByUser o w k userId reason).2) = [(p.id, 1)] ↔
        (o.rentalUpdateOk = true ∧ o.historyOk = true)) ∧
      (quantityAdjustments (issued w (cancelRentalByUser o w k userId reason).2) = [(p.id, 1)] ∨
        quantityAdjustments (issued w (cancelRentalByUser o w k userId reason).2) = [])) ∧
    (rental.rental_status ≠ "confirmed" →
      quantityAdjustments (issued w (cancelRentalByUser o w k userId reason).2) = []) ∧
    (o.rentalUpdateOk = true →
      statusWrites (issued w (cancelRentalByUser o w k userId reason).2)
        = ["cancelled_by_renter"] ∧
      (RentalModel.findByIdentifier (cancelRentalByUser o w k userId reason).2 k).map
        (fun r => r.rental_status) = some "cancelled_by_renter") ∧
    (o.rentalUpdateOk = true → o.historyOk = true → o.notifyOk = true →
      ∃ u, (cancelRentalByUser o w k userId reason).1 = .ok u ∧
        u.rental_status = "cancelled_by_renter") := by
  obtain ⟨r, hr⟩ := find_id_of_loaded hfind
  obtain ⟨hres, hiss, hrent⟩ := cancel_follows o w k userId reason rental r hfind hr
  have hplan : cancelPlan o rental userId reason = .commit
      { pre := []
        id := rental.id
        fields :=
          { rental_status := some "cancelled_by_renter"
            cancellation_reason := some reason
            cancelled_at := some o.nowIso
            cancelled_by_user_id := some userId }
        entry :=
          { rental_id := rental.id, new_status := "cancelled_by_renter",
            actor_user_id := userId, note := "Cancelled by renter: " ++ reason,
            old_status := some rental.rental_status }
        post := cancelRestoreEffects rental ++
          [.notification (RentalService.rentalNotification rental rental.owner_id
            "rental_cancelled" "ผู้เช่ายกเลิกการเช่า"
            ("ผู้เช่ายกเลิกการเช่าสินค้า รหัส " ++ toString rental.id))]
        postError := notifyError o } := by
    unfold cancelPlan
    rw [if_neg (not_not.mpr hrenter), if_neg (not_not.mpr (by simpa [cancellableStatuses] using hs))]
  rw [hplan] at hres hiss hrent
  obtain ⟨e1, -, -⟩ := cancelRestoreEffects_obs rental
  have hna : rental.rental_status ≠ "active" := by
    intro h; rw [h] at hs; simp at hs
  have hq : quantityAdjustments (issued w (cancelRentalByUser o w k userId reason).2) =
      if o.rentalUpdateOk = true ∧ o.historyOk = true ∧ rental.rental_status = "confirmed" ∧
          truthyId (rental.product.map (fun p => p.id)) = true then
        [((rental.product.map (fun p => p.id)).getD 0, 1)]
      else [] := by
    rw [hiss]
    cases hu : o.rentalUpdateOk with
    | false => simp [Plan.effects, hu, quantityAdjustments]
    | true =>
      cases hh : o.historyOk with
      | false => simp [Plan.effects, hu, hh, quantityAdjustments]
      | true =>
        simp only [Plan.effects, hu, hh, if_true, List.nil_append]
        rw [show ∀ (a b : Effect) (l : List Effect), a :: b :: l = [a, b] ++ l from
            fun _ _ _ => rfl,
          quantityAdjustments_append, quantityAdjustments_append,
          quantityAdjustments_cancelRestoreEffects]
        by_cases hc : rental.rental_status = "confirmed" <;>
          by_cases ht : truthyId (rental.product.map (fun p => p.id)) = true <;>
          simp [hc, ht, hna, quantityAdjustments]
  refine ⟨?_, ?_, ?_, ?_⟩
  · intro hc p hp hp0
    have ht : truthyId (rental.product.map (fun p => p.id)) = true := by
      simp [hp, truthyId, hp0]
    have hg : (rental.product.map (fun p => p.id)).getD 0 = p.id := by simp [hp]
    rw [hq, hg]
    by_cases hcond : o.rentalUpdateOk = true ∧ o.historyOk = true
    · rw [if_pos ⟨hcond.1, hcond.2, hc, ht⟩]
      exact ⟨⟨fun _ => hcond, fun _ => rfl⟩, Or.inl rfl⟩
    · rw [if_neg (fun h => hcond ⟨h.1, h.2.1⟩)]
      refine ⟨⟨fun h => ?_, fun h => absurd h hcond⟩, Or.inr rfl⟩
      simp at h
  · intro hc
    rw [hq, if_neg (fun h => hc h.2.2.1)]
  · intro hu
    constructor
    · rw [hiss]
      exact statusWrites_commit o _ "cancelled_by_renter" onlyUploads_nil
        (by
          rw [statusWrites_append, e1]
          rfl) rfl
    · simp only [Plan.rentals, hu, if_true] at hrent
      rw [findByIdentifier_after w _ k _ _ hrent, hfind]
      simp [RentalFields.applyTo]
  · intro hu hh hn
    refine ⟨_, by rw [hres]; simp only [Plan.result, hu, hh, if_true, notifyError, hn]; rfl, ?_⟩
    simp [RentalFields.applyTo]

/-- Witness of C7 (amended): the renter cancels a `confirmed` rental loaded
with product 10 while the quantity update rejects; one restoration on product 10
is attempted and the call succeeds with the rental `cancelled_by_renter`. -/
theorem cancel_restores_embedded_product_witness :
    quantityAdjustments
        (issued (demoWorld [demoRental "confirmed" "pending_verification" (some ⟨10⟩)])
          (cancelRentalByUser { allOk with quantityOk := false }
            (demoWorld [demoRental "confirmed" "pending_verification" (some ⟨10⟩)]) (.id 1) 1
            "changed plans").2) = [(10, 1)] ∧
      (∃ u, (cancelRentalByUser { allOk with quantityOk := false }
          (demoWorld [demoRental "confirmed" "pending_verification" (some ⟨10⟩)]) (.id 1) 1
          "changed plans").1 = .ok u ∧ u.rental_status = "cancelled_by_renter") :=
  ⟨((cancel_restores_embedded_product { allOk with quantityOk := false }
      (demoWorld [demoRental "confirmed" "pending_verification" (some ⟨10⟩)]) (.id 1) 1
      "changed plans" (demoRental "confirmed" "pending_verification" (some ⟨10⟩)) rfl rfl
      (by decide)).1 rfl ⟨10⟩ rfl (by decide)).1.mpr ⟨rfl, rfl⟩,
    (cancel_restores_embedded_product { allOk with quantityOk := false }
      (demoWorld [demoRental "confirmed" "pending_verification" (some ⟨10⟩)]) (.id 1) 1
      "changed plans" (demoRental "confirmed" "pending_verification" (some ⟨10⟩)) rfl rfl
      (by decide)).2.2.2 rfl rfl rfl⟩

/-- Counterexample to C7 as stated: the renter cancels a `confirmed` rental
loaded with product 10 while the audit write rejects; the rental is stored as
`cancelled_by_renter`, the call fails and no inventory restoration is attempted. -/
theorem cancel_restores_embedded_product_counterexample :
    RentalModel.findByIdentifier
        (demoWorld [demoRental "confirmed" "pending_verification" (some ⟨10⟩)]) (.id 1)
        = some (demoRental "confirmed" "pending_verification" (some ⟨10⟩)) ∧
      (demoRental "confirmed" "pending_verification" (some ⟨10⟩)).rental_status = "confirmed" ∧
      (demoRental "confirmed" "pending_verification" (some ⟨10⟩)).renter_id = 1 ∧
      (cancelRentalByUser { allOk with historyOk := false }
        (demoWorld [demoRental "confirmed" "pending_verification" (some ⟨10⟩)]) (.id 1) 1
        "changed plans").1 = .error (.rejected .RentalStatusHistoryModel) ∧
      (RentalModel.findByIdentifier
        (cancelRentalByUser { allOk with historyOk := false }
          (demoWorld [demoRental "confirmed" "pending_verification" (some ⟨10⟩)]) (.id 1) 1
          "changed plans").2 (.id 1)).map (fun r => r.rental_status)
        = some "cancelled_by_renter" ∧
      quantityAdjustments
        (issued (demoWorld [demoRental "confirmed" "pending_verification" (some ⟨10⟩)])
          (cancelRentalByUser { allOk with historyOk := false }
            (demoWorld [demoRental "confirmed" "pending_verification" (some ⟨10⟩)]) (.id 1) 1
            "changed plans").2) = [] := by
  refine ⟨rfl, rfl, rfl, rfl, ?_, ?_⟩ <;> decide

/-! ## C8: a failing notification dispatch -/

/-- C8 (amended). For each of approve, reject, verify payment and cancel, and
every input on which the operation succeeds when the notification dispatch
resolves: when the dispatch rejects instead, the operation fails with the
rejection of the notification service; the calls it issued and the rentals it
stored are those of the successful run, so the rental update and the one audit
entry stay written with the new status. -/
theorem notification_failure_fails_the_operation (o : Outcomes) (w : World) (k : Identifier)
    (op : Op) (rental u : Rental)
    (hfind : RentalModel.findByIdentifier w k = some rental)
    (hn : op.notifies)
    (hpass : (op.run { o with notifyOk := true } w k).1 = .ok u)
    (hfail : o.notifyOk = false) :
    (op.run o w k).1 = .error (.rejected .NotificationService) ∧
      issued w (op.run o w k).2 = issued w (op.run { o with notifyOk := true } w k).2 ∧
      (op.run o w k).2.rentals = (op.run { o with notifyOk := true } w k).2.rentals ∧
      statusWrites (issued w (op.run o w k).2) = [u.rental_status] ∧
      (historyEntries (issued w (op.run o w k).2)).length = 1 ∧
      (RentalModel.findByIdentifier (op.run o w k).2 k).map (fun r => r.rental_status)
        = some u.rental_status := by
  obtain ⟨r, hres, hiss, hrent⟩ := run_follows o w k op rental hfind
  obtain ⟨r', -, hiss', hrent'⟩ := run_follows { o with notifyOk := true } w k op rental hfind
  obtain ⟨c, new, hc, h1, h2, -, -, hw, hh, hnew, hl, -⟩ :=
    run_success { o with notifyOk := true } w k op rental u hfind hpass
  have hc0 := plan_notify o true w rental op hn c hc
  have h1' : o.rentalUpdateOk = true := h1
  have h2' : o.historyOk = true := h2
  have hissEq : issued w (op.run o w k).2 = issued w (op.run { o with notifyOk := true } w k).2 := by
    rw [hiss, hiss', hc, hc0]; rfl
  have hrentEq : (op.run o w k).2.rentals = (op.run { o with notifyOk := true } w k).2.rentals := by
    rw [hrent, hrent', hc, hc0]; rfl
  refine ⟨?_, hissEq, hrentEq, ?_, ?_, ?_⟩
  · rw [hres, hc0]
    simp [Plan.result, h1', h2', notifyError, hfail]
  · rw [hissEq, hnew]; exact hw
  · rw [hissEq, hh]; rfl
  · have : RentalModel.findByIdentifier (op.run o w k).2 k =
        RentalModel.findByIdentifier (op.run { o with notifyOk := true } w k).2 k := by
      cases k <;> simp only [RentalModel.findByIdentifier] <;> rw [hrentEq]
    rw [this, hnew]; exact hl

/-- Witness of C8 (amended): the owner rejects a pending request while the
notification dispatch rejects. -/
theorem notification_failure_fails_the_operation_witness :
    (Op.run { allOk with notifyOk := false }
        (demoWorld [demoRental "pending_owner_approval" "unpaid" none]) (.id 1)
        (.rejectRentalRequest 2 "not available")).1 = .error (.rejected .NotificationService) ∧
      statusWrites (issued (demoWorld [demoRental "pending_owner_approval" "unpaid" none])
        (Op.run { allOk with notifyOk := false }
          (demoWorld [demoRental "pending_owner_approval" "unpaid" none]) (.id 1)
          (.rejectRentalRequest 2 "not available")).2) = ["rejected_by_owner"] :=
  have h := notification_failure_fails_the_operation { allOk with notifyOk := false }
    (demoWorld [demoRental "pending_owner_approval" "unpaid" none]) (.id 1)
    (.rejectRentalRequest 2 "not available") (demoRental "pending_owner_approval" "unpaid" none)
    _ rfl trivial rfl rfl
  ⟨h.1, h.2.2.2.1⟩

/-- Counterexample to C8 as stated: an approval that succeeds when the
notification dispatch resolves fails when the dispatch rejects. -/
theorem notification_failure_fails_the_operation_counterexample :
    (∃ u, (approveRentalRequest allOk
        (demoWorld [demoRental "pending_owner_approval" "unpaid" none]) (.id 1) 2).1 = .ok u) ∧
      (approveRentalRequest { allOk with notifyOk := false }
        (demoWorld [demoRental "pending_owner_approval" "unpaid" none]) (.id 1) 2).1
        = .error (.rejected .NotificationService) := by
  exact ⟨⟨_, rfl⟩, rfl⟩

/-! ## C9: one audit entry per successful transition -/

/-- C9. Every successful call of a lifecycle operation writes exactly one
status-history entry; its rental id is the rental's, its old status is the
status read before the operation, its new status is the status written by the
rental update of the operation, and its actor is the caller. -/
theorem success_writes_one_history_entry (o : Outcomes) (w : World) (k : Identifier) (op : Op)
    (rental u : Rental) (hfind : RentalModel.findByIdentifier w k = some rental)
    (hok : (op.run o w k).1 = .ok u) :
    ∃ entry new,
      historyEntries (issued w (op.run o w k).2) = [entry] ∧
      statusWrites (issued w (op.run o w k).2) = [new] ∧
      entry.rental_id = rental.id ∧
      entry.old_status = some rental.rental_status ∧
      entry.new_status = new ∧
      entry.actor_user_id = op.actor := by
  obtain ⟨c, new, -, -, -, -, -, hw, hh, -, -, e1, e2, e3, e4⟩ :=
    run_success o w k op rental u hfind hok
  exact ⟨c.entry, new, hh, hw, e1, e3, e2, e4⟩

/-- Witness of C9: the owner verifies the payment of a `confirmed` rental. -/
theorem success_writes_one_history_entry_witness :
    ∃ entry new,
      historyEntries (issued (demoWorld [demoRental "confirmed" "pending_verification" none])
        (Op.run allOk (demoWorld [demoRental "confirmed" "pending_verification" none]) (.id 1)
          (.verifyRentalPaymentByOwner 2 none)).2) = [entry] ∧
      statusWrites (issued (demoWorld [demoRental "confirmed" "pending_verification" none])
        (Op.run allOk (demoWorld [demoRental "confirmed" "pending_verification" none]) (.id 1)
          (.verifyRentalPaymentByOwner 2 none)).2) = [new] ∧
      entry.rental_id = (demoRental "confirmed" "pending_verification" none).id ∧
      entry.old_status = some (demoRental "confirmed" "pending_verification" none).rental_status ∧
      entry.new_status = new ∧
      entry.actor_user_id = (Op.verifyRentalPaymentByOwner 2 none).actor :=
  success_writes_one_history_entry allOk
    (demoWorld [demoRental "confirmed" "pending_verification" none]) (.id 1)
    (.verifyRentalPaymentByOwner 2 none) (demoRental "confirmed" "pending_verification" none)
    _ rfl rfl

/-! ## C10: the status and the restoration decided by a return -/

/-- C10 (amended). For every rental whose status is `active`, `return_pending`
or `late_return` and that has a `product_id`, and every return payload submitted
by its owner: when every image upload resolves, `processReturn` issues one
`RentalModel.update`, which writes `dispute` if `initiate_claim` is truthy and
the condition is `damaged` or `lost`, and `completed` in every other case; when
an upload rejects it fails, issues no update and leaves the rentals as they
were; and it attempts the `+1` inventory restoration exactly when every upload,
`RentalModel.update` and the audit write resolve and the new status is
`completed`, no other inventory adjustment being attempted. -/
theorem return_decides_status_and_restoration (o : Outcomes) (w : World) (k : Identifier)
    (ownerId : Nat) (returnData : ReturnData) (imageFiles : List UploadedFile) (rental : Rental)
    (hfind : RentalModel.findByIdentifier w k = some rental)
    (howner : rental.owner_id = ownerId)
    (hs : rental.rental_status ∈ ["active", "return_pending", "late_return"])
    (hpid : truthyId rental.product_id = true) :
    ((∀ f ∈ imageFiles, o.upload f ≠ none) →
      ∃ fields,
        rentalUpdates (issued w (processReturn o w k ownerId returnData imageFiles).2)
          = [(rental.id, fields)] ∧
        fields.rental_status =
          some (if returnData.initiate_claim = true ∧
              (returnData.return_condition_status = "damaged" ∨
                returnData.return_condition_status = "lost")
            then "dispute" else "completed")) ∧
    ((∃ f ∈ imageFiles, o.upload f = none) →
      (processReturn o w k ownerId returnData imageFiles).1 = .error (.rejected .FileService) ∧
      rentalUpdates (issued w (processReturn o w k ownerId returnData imageFiles).2) = [] ∧
      (processReturn o w k ownerId returnData imageFiles).2.rentals = w.rentals) ∧
    (quantityAdjustments (issued w (processReturn o w k ownerId returnData imageFiles).2) =
        [(rental.product_id.getD 0, 1)] ↔
      ((∀ f ∈ imageFiles, o.upload f ≠ none) ∧ o.rentalUpdateOk = true ∧ o.historyOk = true ∧
        ¬ (returnData.initiate_claim = true ∧
            (returnData.return_condition_status = "damaged" ∨
              returnData.return_condition_status = "lost")))) ∧
    (quantityAdjustments (issued w (processReturn o w k ownerId returnData imageFiles).2) =
        [(rental.product_id.getD 0, 1)] ∨
      quantityAdjustments (issued w (processReturn o w k ownerId returnData imageFiles).2) = [])
    := by
  obtain ⟨r, hr⟩ := find_id_of_loaded hfind
  have hf := return_follows o w k ownerId returnData imageFiles rental r hfind hr
  have hpre := onlyUploads_uploadEffects o rental imageFiles
  unfold returnPlan at hf
  rw [if_neg (not_not.mpr howner),
    if_neg (not_not.mpr (by simpa [validStatusesForReturn] using hs))] at hf
  by_cases hup : ∀ f ∈ imageFiles, o.upload f ≠ none
  · obtain ⟨urls, hurls⟩ := uploadOutcome_ok o imageFiles hup []
    simp only [hurls] at hf
    obtain ⟨-, hiss, -⟩ := hf
    have hq : quantityAdjustments
        (issued w (processReturn o w k ownerId returnData imageFiles).2) =
        if o.rentalUpdateOk = true ∧ o.historyOk = true ∧
            ¬ (returnData.initiate_claim = true ∧
              (returnData.return_condition_status = "damaged" ∨
                returnData.return_condition_status = "lost"))
        then [(rental.product_id.getD 0, 1)] else [] := by
      rw [hiss]
      cases hu : o.rentalUpdateOk with
      | false =>
        simp only [Plan.effects, hu]
        rw [quantityAdjustments_append, quantityAdjustments_onlyUploads hpre]
        simp [quantityAdjustments]
      | true =>
        cases hh : o.historyOk with
        | false =>
          simp only [Plan.effects, hu, hh]
          rw [quantityAdjustments_append, quantityAdjustments_onlyUploads hpre]
          simp [quantityAdjustments]
        | true =>
          simp only [Plan.effects, hu, hh, if_true]
          rw [quantityAdjustments_append, quantityAdjustments_onlyUploads hpre,
            show ∀ (a b : Effect) (l : List Effect), a :: b :: l = [a, b] ++ l from
              fun _ _ _ => rfl,
            quantityAdjustments_append, quantityAdjustments_returnRestoreEffects]
          simp only [newRentalStatus]
          by_cases hd : returnData.initiate_claim = true ∧
              (returnData.return_condition_status = "damaged" ∨
                returnData.return_condition_status = "lost") <;>
            simp [hd, hpid, quantityAdjustments]
    refine ⟨fun _ => ⟨{ actual_return_time := returnData.actual_return_time
                        return_condition_status := some returnData.return_condition_status
                        notes_from_owner_on_return := returnData.notes_from_owner_on_return
                        updated_at := some o.nowIso
                        rental_status := some (newRentalStatus returnData)
                        return_condition_image_urls :=
                          if imageFiles.length > 0 then some urls else none }, ?_, ?_⟩,
      ?_, ?_, ?_⟩
    · rw [hiss]
      exact rentalUpdates_commit o _ hpre (returnRestoreEffects_obs _ _).2.1
    · simp only [newRentalStatus]
    · rintro ⟨f, hfm, hfn⟩
      exact absurd hfn (hup f hfm)
    · rw [hq]
      constructor
      · intro h
        split_ifs at h with hc
        exact ⟨hup, hc⟩
      · rintro ⟨-, hc⟩
        rw [if_pos hc]
    · rw [hq]
      split_ifs
      · exact Or.inl rfl
      · exact Or.inr rfl
  · have hex : ∃ f ∈ imageFiles, o.upload f = none := by
      push_neg at hup
      exact hup
    have herr := uploadOutcome_error o imageFiles hex []
    simp only [herr] at hf
    obtain ⟨g1, g2, -, -, g5, g6⟩ := follows_fail_plan o w r _ _ _ hf hpre
    refine ⟨fun h => absurd h hup, fun _ => ⟨g1, g2, g6⟩, ?_, Or.inr g5⟩
    rw [g5]
    constructor
    · intro h; simp at h
    · rintro ⟨h, -⟩; exact absurd h hup

/-- Witness of C10 (amended): the owner processes the return of an `active`
rental in good condition, every collaborator resolving; one restoration on
product 10 is attempted. -/
theorem return_decides_status_and_restoration_witness :
    quantityAdjustments (issued (demoWorld [demoRental "active" "paid" none])
        (processReturn allOk (demoWorld [demoRental "active" "paid" none]) (.id 1) 2
          ⟨some "2024-01-03T10:00:00Z", "good", none, false⟩ []).2) = [(10, 1)] :=
  (return_decides_status_and_restoration allOk (demoWorld [demoRental "active" "paid" none])
    (.id 1) 2 ⟨some "2024-01-03T10:00:00Z", "good", none, false⟩ []
    (demoRental "active" "paid" none) rfl rfl (by decide) rfl).2.2.1.mpr
      ⟨by simp, rfl, rfl, by decide⟩

/-- Counterexample to C10 as stated: the owner processes the return of an
`active` rental of product 10 in good condition while the audit write rejects;
`completed` is written and stored, the call fails and no inventory restoration
is attempted. -/
theorem return_decides_status_and_restoration_counterexample :
    (processReturn { allOk with historyOk := false }
        (demoWorld [demoRental "active" "paid" none]) (.id 1) 2
        ⟨some "2024-01-03T10:00:00Z", "good", none, false⟩ []).1
        = .error (.rejected .RentalStatusHistoryModel) ∧
      statusWrites (issued (demoWorld [demoRental "active" "paid" none])
        (processReturn { allOk with historyOk := false }
          (demoWorld [demoRental "active" "paid" none]) (.id 1) 2
          ⟨some "2024-01-03T10:00:00Z", "good", none, false⟩ []).2) = ["completed"] ∧
      (RentalModel.findByIdentifier
        (processReturn { allOk with historyOk := false }
          (demoWorld [demoRental "active" "paid" none]) (.id 1) 2
          ⟨some "2024-01-03T10:00:00Z", "good", none, false⟩ []).2 (.id 1)).map
        (fun r => (r.rental_status, r.product_id)) = some ("completed", some 10) ∧
      quantityAdjustments (issued (demoWorld [demoRental "active" "paid" none])
        (processReturn { allOk with historyOk := false }
          (demoWorld [demoRental "active" "paid" none]) (.id 1) 2
          ⟨some "2024-01-03T10:00:00Z", "good", none, false⟩ []).2) = [] := by
  refine ⟨rfl, ?_, ?_, ?_⟩ <;> decide

/-! ## C11: payment verification by the owner -/

/-- C11 (amended). For every existing rental and its owner,
`verifyRentalPaymentByOwner` succeeds if and only if `payment_status` is
`pending_verification` (whatever the `rental_status`) and `RentalModel.update`,
the audit write and the notification dispatch all resolve; when
`payment_status` is `pending_verification` it issues one update, which writes
`payment_status` `paid`, `rental_status` `active` when the status was
`confirmed` and the same status otherwise, and `payment_verified_by_user_id`
the owner; on success the returned rental and the stored rental carry these
values; and when `payment_status` is anything else it fails with the
payment-not-pending-verification error and writes nothing. -/
theorem verify_payment_by_owner (o : Outcomes) (w : World) (k : Identifier) (ownerId : Nat)
    (amount_paid : Option JsValue) (rental : Rental)
    (hfind : RentalModel.findByIdentifier w k = some rental)
    (howner : rental.owner_id = ownerId) :
    ((∃ u, (verifyRentalPaymentByOwner o w k ownerId amount_paid).1 = .ok u) ↔
      (rental.payment_status = "pending_verification" ∧ o.rentalUpdateOk = true ∧
        o.historyOk = true ∧ o.notifyOk = true)) ∧
    (rental.payment_status = "pending_verification" →
      ∃ f, rentalUpdates (issued w (verifyRentalPaymentByOwner o w k ownerId amount_paid).2)
          = [(rental.id, f)] ∧
        f.payment_status = some "paid" ∧
        f.rental_status =
          some (if rental.rental_status = "confirmed" then "active" else rental.rental_status) ∧
        f.payment_verified_by_user_id = some ownerId) ∧
    (∀ u, (verifyRentalPaymentByOwner o w k ownerId amount_paid).1 = .ok u →
      u.payment_status = "paid" ∧
      u.rental_status =
        (if rental.rental_status = "confirmed" then "active" else rental.rental_status) ∧
      u.payment_verified_by_user_id = some ownerId ∧
      (RentalModel.findByIdentifier (verifyRentalPaymentByOwner o w k ownerId amount_paid).2
        k).map (fun r => (r.payment_status, r.rental_status, r.payment_verified_by_user_id))
        = some ("paid",
            (if rental.rental_status = "confirmed" then "active" else rental.rental_status),
            some ownerId)) ∧
    (rental.payment_status ≠ "pending_verification" →
      verifyRentalPaymentByOwner o w k ownerId amount_paid =
        (.error (.apiError .BAD_REQUEST
          (.paymentNotPendingVerification rental.payment_status)), w)) := by
  obtain ⟨r, hr⟩ := find_id_of_loaded hfind
  obtain ⟨hres, hiss, hrent⟩ := verify_follows o w k ownerId amount_paid rental r hfind hr
  have hfail : rental.payment_status ≠ "pending_verification" →
      verifyRentalPaymentByOwner o w k ownerId amount_paid =
        (.error (.apiError .BAD_REQUEST
          (.paymentNotPendingVerification rental.payment_status)), w) := by
    intro hp
    simp only [verifyRentalPaymentByOwner, hfind, if_neg (not_not.mpr howner), if_pos hp]
  by_cases hp : rental.payment_status = "pending_verification"
  · unfold verifyPlan at hres hiss hrent
    rw [if_neg (not_not.mpr howner), if_neg (not_not.mpr hp)] at hres hiss hrent
    have hsucc : ∀ u, (verifyRentalPaymentByOwner o w k ownerId amount_paid).1 = .ok u →
        o.rentalUpdateOk = true ∧ o.historyOk = true ∧ o.notifyOk = true ∧
        u = ({ payment_status := some "paid"
               rental_status := some (verifiedStatus rental)
               final_amount_paid := some (verifiedAmount amount_paid rental)
               payment_verified_at := some o.nowIso
               payment_verified_by_user_id := some ownerId } : RentalFields).applyTo r := by
      intro u hok
      rw [hres] at hok
      simp only [Plan.result, notifyError] at hok
      cases hu : o.rentalUpdateOk <;> cases hh : o.historyOk <;> cases hn : o.notifyOk <;>
        simp [hu, hh, hn] at hok
      exact ⟨rfl, rfl, rfl, hok.symm⟩
    refine ⟨⟨?_, ?_⟩, ?_, ?_, fun h => absurd hp h⟩
    · rintro ⟨u, hok⟩
      obtain ⟨h1, h2, h3, -⟩ := hsucc u hok
      exact ⟨hp, h1, h2, h3⟩
    · rintro ⟨-, hu, hh, hn⟩
      simp only [Plan.result, hu, hh, if_true, notifyError, hn] at hres
      exact ⟨_, hres⟩
    · intro _
      refine ⟨{ payment_status := some "paid"
                rental_status := some (verifiedStatus rental)
                final_amount_paid := some (verifiedAmount amount_paid rental)
                payment_verified_at := some o.nowIso
                payment_verified_by_user_id := some ownerId }, ?_, rfl, rfl, rfl⟩
      rw [hiss]
      exact rentalUpdates_commit o _ onlyUploads_nil rfl
    · intro u hok
      obtain ⟨hu, -, -, rfl⟩ := hsucc u hok
      simp only [Plan.rentals, hu, if_true] at hrent
      refine ⟨by simp [RentalFields.applyTo], by simp [RentalFields.applyTo, verifiedStatus],
        by simp [RentalFields.applyTo], ?_⟩
      rw [findByIdentifier_after w _ k _ _ hrent, hfind]
      simp [RentalFields.applyTo, verifiedStatus]
  · have hf := hfail hp
    refine ⟨⟨?_, fun h => absurd h.1 hp⟩, fun h => absurd h hp, ?_, hfail⟩
    · rintro ⟨u, hok⟩
      rw [hf] at hok; simp at hok
    · intro u hok
      rw [hf] at hok; simp at hok

/-- Witness of C11 (amended): the owner verifies the payment of a rental that
is `cancelled_by_renter` with its payment pending verification, every
collaborator resolving; the call succeeds. -/
theorem verify_payment_by_owner_witness :
    ∃ u, (verifyRentalPaymentByOwner allOk
      (demoWorld [demoRental "cancelled_by_renter" "pending_verification" none]) (.id 1) 2
      none).1 = .ok u :=
  (verify_payment_by_owner allOk
    (demoWorld [demoRental "cancelled_by_renter" "pending_verification" none]) (.id 1) 2 none
    (demoRental "cancelled_by_renter" "pending_verification" none) rfl rfl).1.mpr
      ⟨rfl, rfl, rfl, rfl⟩

/-- Counterexample to C11 as stated: the owner verifies a `confirmed` rental
whose payment is pending verification while the notification dispatch rejects;
the call fails although `paid` and `active` have been stored. -/
theorem verify_payment_by_owner_counterexample :
    (demoRental "confirmed" "pending_verification" none).payment_status
        = "pending_verification" ∧
      (verifyRentalPaymentByOwner { allOk with notifyOk := false }
        (demoWorld [demoRental "confirmed" "pending_verification" none]) (.id 1) 2 none).1
        = .error (.rejected .NotificationService) ∧
      (RentalModel.findByIdentifier
        (verifyRentalPaymentByOwner { allOk with notifyOk := false }
          (demoWorld [demoRental "confirmed" "pending_verification" none]) (.id 1) 2 none).2
        (.id 1)).map (fun r => (r.payment_status, r.rental_status)) = some ("paid", "active") := by
  refine ⟨rfl, rfl, ?_⟩
  decide

/-! ## C12: the payment recorded with a proof -/

/-- C12 (amended). For every rental in `pending_payment` and its renter, with a
proof file present and an upload that returns a non-empty URL:
`submitPaymentProof` issues one `RentalModel.update`, which writes
`rental_status` `confirmed`, `payment_status` `pending_verification`, the proof
URL and `final_amount_paid`, the latter being `parseFloat(amount_paid)` when a
truthy `amount_paid` is supplied and `rental.total_amount_due` when it is
omitted; it creates one payment-transaction record, for that rental and renter
and with that `final_amount_paid` as its amount, exactly when the update and
the audit write both resolve, and none otherwise; when the update resolves the
rental is stored as `confirmed` with its payment pending verification; and the
call succeeds exactly when the update, the audit write and the transaction
write all resolve, returning the rental with these statuses. -/
theorem submit_records_payment (o : Outcomes) (w : World) (k : Identifier) (renterId : Nat)
    (file : UploadedFile) (paymentDetails : PaymentDetails) (rental : Rental) (url : String)
    (hfind : RentalModel.findByIdentifier w k = some rental)
    (hrenter : rental.renter_id = renterId)
    (hstatus : rental.rental_status = "pending_payment")
    (hupload : o.upload file = some (some url)) (hurl : url ≠ "") :
    (∃ f t, rentalUpdates
          (issued w (submitPaymentProof o w k renterId (some file) paymentDetails).2)
          = [(rental.id, f)] ∧
        f.rental_status = some "confirmed" ∧
        f.payment_status = some "pending_verification" ∧
        f.payment_proof_url = some url ∧
        (∀ v, paymentDetails.amount_paid = some v → v.truthy = true →
          f.final_amount_paid = some v.parseFloat) ∧
        (paymentDetails.amount_paid = none →
          f.final_amount_paid = some rental.total_amount_due) ∧
        t.rental_id = rental.id ∧ t.user_id = renterId ∧
        some t.amount = f.final_amount_paid ∧
        paymentTransactions
            (issued w (submitPaymentProof o w k renterId (some file) paymentDetails).2) =
          (if o.rentalUpdateOk = true ∧ o.historyOk = true then [t] else [])) ∧
    (o.rentalUpdateOk = true →
      (RentalModel.findByIdentifier
        (submitPaymentProof o w k renterId (some file) paymentDetails).2 k).map
          (fun r => (r.rental_status, r.payment_status))
        = some ("confirmed", "pending_verification")) ∧
    ((∃ u, (submitPaymentProof o w k renterId (some file) paymentDetails).1 = .ok u) ↔
      (o.rentalUpdateOk = true ∧ o.historyOk = true ∧ o.paymentTransactionOk = true)) ∧
    (∀ u, (submitPaymentProof o w k renterId (some file) paymentDetails).1 = .ok u →
      u.rental_status = "confirmed" ∧ u.payment_status = "pending_verification") := by
  obtain ⟨r, hr⟩ := find_id_of_loaded hfind
  obtain ⟨hres, hiss, hrent⟩ :=
    submit_follows o w k renterId (some file) paymentDetails rental r hfind hr
  have htr : ¬ (truthyStr (some url) = false) := by simp [truthyStr, hurl]
  unfold submitPlan at hres hiss hrent
  rw [if_neg (not_not.mpr hrenter), if_neg (not_not.mpr hstatus)] at hres hiss hrent
  simp only [hupload, if_neg htr] at hres hiss hrent
  have hsucc : ∀ u, (submitPaymentProof o w k renterId (some file) paymentDetails).1 = .ok u →
      o.rentalUpdateOk = true ∧ o.historyOk = true ∧ o.paymentTransactionOk = true ∧
      u = ({ payment_proof_url := some url
             rental_status := some "confirmed"
             payment_status := some "pending_verification"
             final_amount_paid := some (amountPaid paymentDetails rental) } :
            RentalFields).applyTo r := by
    intro u hok
    rw [hres] at hok
    simp only [Plan.result] at hok
    cases hu : o.rentalUpdateOk <;> cases hh : o.historyOk <;>
      cases hp : o.paymentTransactionOk <;> simp [hu, hh, hp] at hok
    exact ⟨rfl, rfl, rfl, hok.symm⟩
  refine ⟨⟨{ payment_proof_url := some url
             rental_status := some "confirmed"
             payment_status := some "pending_verification"
             final_amount_paid := some (amountPaid paymentDetails rental) },
      proofTransaction o rental renterId paymentDetails (some url), ?_, rfl, rfl, rfl, ?_, ?_,
      rfl, rfl, rfl, ?_⟩, ?_, ⟨?_, ?_⟩, ?_⟩
  · rw [hiss]
    exact rentalUpdates_commit o _ (onlyUploads_singleton _ _) rfl
  · intro v hv ht
    simp [amountPaid, hv, truthyValue, ht, parseFloat]
  · intro hv
    simp [amountPaid, hv, truthyValue]
  · rw [hiss]
    cases hu : o.rentalUpdateOk <;> cases hh : o.historyOk <;>
      simp [Plan.effects, hu, hh, paymentTransactions]
  · intro hu
    simp only [Plan.rentals, hu, if_true] at hrent
    rw [findByIdentifier_after w _ k _ _ hrent, hfind]
    simp [RentalFields.applyTo]
  · rintro ⟨u, hok⟩
    obtain ⟨h1, h2, h3, -⟩ := hsucc u hok
    exact ⟨h1, h2, h3⟩
  · rintro ⟨hu, hh, hp⟩
    simp only [Plan.result, hu, hh, hp, if_true] at hres
    exact ⟨_, hres⟩
  · intro u hok
    obtain ⟨-, -, -, rfl⟩ := hsucc u hok
    simp [RentalFields.applyTo]

/-- Witness of C12 (amended): the renter submits a proof with `amount_paid`
400 for a rental in `pending_payment`, every collaborator resolving; the call
succeeds. -/
theorem submit_records_payment_witness :
    ∃ u, (submitPaymentProof allOk (demoWorld [demoRental "pending_payment" "unpaid" none])
        (.id 1) 1 (some ⟨"slip.png"⟩) ⟨some (.number 400), none⟩).1 = .ok u :=
  (submit_records_payment allOk (demoWorld [demoRental "pending_payment" "unpaid" none])
    (.id 1) 1 ⟨"slip.png"⟩ ⟨some (.number 400), none⟩
    (demoRental "pending_payment" "unpaid" none)
    "https://storage.example/proof.png" rfl rfl rfl rfl (by decide)).2.2.1.mpr ⟨rfl, rfl, rfl⟩

/-- Counterexample to C12 as stated: the renter submits a proof with
`amount_paid` 400 while the audit write rejects; the rental is stored as
`confirmed` with `final_amount_paid` 400, the call fails and no
payment-transaction record is created. -/
theorem submit_records_payment_counterexample :
    RentalModel.findByIdentifier (demoWorld [demoRental "pending_payment" "unpaid" none])
        (.id 1) = some (demoRental "pending_payment" "unpaid" none) ∧
      (demoRental "pending_payment" "unpaid" none).renter_id = 1 ∧
      ({ allOk with historyOk := false } : Outcomes).upload ⟨"slip.png"⟩
        = some (some "https://storage.example/proof.png") ∧
      (submitPaymentProof { allOk with historyOk := false }
        (demoWorld [demoRental "pending_payment" "unpaid" none])
        (.id 1) 1 (some ⟨"slip.png"⟩) ⟨some (.number 400), none⟩).1
        = .error (.rejected .RentalStatusHistoryModel) ∧
      (RentalModel.findByIdentifier
        (submitPaymentProof { allOk with historyOk := false }
          (demoWorld [demoRental "pending_payment" "unpaid" none])
          (.id 1) 1 (some ⟨"slip.png"⟩) ⟨some (.number 400), none⟩).2 (.id 1)).map
          (fun r => (r.rental_status, r.payment_status, r.final_amount_paid))
        = some ("confirmed", "pending_verification", some 400) ∧
      paymentTransactions
        (issued (demoWorld [demoRental "pending_payment" "unpaid" none])
          (submitPaymentProof { allOk with historyOk := false }
            (demoWorld [demoRental "pending_payment" "unpaid" none])
            (.id 1) 1 (some ⟨"slip.png"⟩) ⟨some (.number 400), none⟩).2) = [] := by
  refine ⟨rfl, rfl, rfl, rfl, ?_, ?_⟩
  · decide!
  · decide

/-! ## C13: a payment proof without a file or without a URL -/

/-- C13. For every rental identifier and caller: `submitPaymentProof` called
without a file fails and returns the world unchanged (with the "proof required"
validation error when the rental exists, is the caller's and is pending
payment); called with a file whose upload returns no public URL it fails (with
the "failed to upload" error in that same case), issues no rental update, no
audit entry and no payment-transaction record, and leaves the stored rentals
unchanged; and `RentalController.uploadPaymentProof` fails with a `BAD_REQUEST`
validation error, the world unchanged, when `req.file` is missing. -/
theorem submit_without_proof_writes_nothing (o : Outcomes) (w : World) (k : Identifier)
    (renterId : Nat) (paymentDetails : PaymentDetails) :
    (∃ e, submitPaymentProof o w k renterId none paymentDetails = (.error e, w)) ∧
    (∀ rental, RentalModel.findByIdentifier w k = some rental →
      rental.renter_id = renterId → rental.rental_status = "pending_payment" →
      submitPaymentProof o w k renterId none paymentDetails =
        (.error (.apiError .BAD_REQUEST .paymentProofRequired), w)) ∧
    (∀ file publicUrl, o.upload file = some publicUrl → truthyStr publicUrl = false →
      (∃ e, (submitPaymentProof o w k renterId (some file) paymentDetails).1 = .error e) ∧
      rentalUpdates (issued w (submitPaymentProof o w k renterId (some file) paymentDetails).2)
        = [] ∧
      historyEntries (issued w (submitPaymentProof o w k renterId (some file) paymentDetails).2)
        = [] ∧
      paymentTransactions
        (issued w (submitPaymentProof o w k renterId (some file) paymentDetails).2) = [] ∧
      (submitPaymentProof o w k renterId (some file) paymentDetails).2.rentals = w.rentals ∧
      (∀ rental, RentalModel.findByIdentifier w k = some rental →
        rental.renter_id = renterId → rental.rental_status = "pending_payment" →
        (submitPaymentProof o w k renterId (some file) paymentDetails).1 =
          .error (.apiError .INTERNAL_SERVER_ERROR .failedToUploadProof))) ∧
    (∀ req : UploadProofRequest, req.file = none →
      RentalController.uploadPaymentProof o w req =
        (.error (.apiError .BAD_REQUEST .paymentProofFileRequired), w)) := by
  refine ⟨?_, ?_, ?_, ?_⟩
  · cases hfind : RentalModel.findByIdentifier w k with
    | none =>
      exact ⟨.apiError .NOT_FOUND .rentalNotFound, by simp only [submitPaymentProof, hfind]⟩
    | some rental =>
      simp only [submitPaymentProof, hfind]
      by_cases h1 : rental.renter_id ≠ renterId
      · exact ⟨_, by rw [if_pos h1]⟩
      by_cases h2 : rental.rental_status ≠ "pending_payment"
      · exact ⟨_, by rw [if_neg h1, if_pos h2]⟩
      exact ⟨_, by rw [if_neg h1, if_neg h2]⟩
  · intro rental hfind h1 h2
    simp only [submitPaymentProof, hfind, if_neg (not_not.mpr h1), if_neg (not_not.mpr h2)]
  · intro file publicUrl hup hurl
    cases hfind : RentalModel.findByIdentifier w k with
    | none =>
      have h : submitPaymentProof o w k renterId (some file) paymentDetails =
          (.error (.apiError .NOT_FOUND .rentalNotFound), w) := by
        simp only [submitPaymentProof, hfind]
      rw [h]
      refine ⟨⟨_, rfl⟩, ?_, ?_, ?_, rfl, ?_⟩
      · rw [issued_self]; rfl
      · rw [issued_self]; rfl
      · rw [issued_self]; rfl
      · intro rental hr; simp at hr
    | some rental =>
      obtain ⟨r, hr⟩ := find_id_of_loaded hfind
      have hf := submit_follows o w k renterId (some file) paymentDetails rental r hfind hr
      have hplan : ∃ pre e, submitPlan o rental renterId (some file) paymentDetails
          = .fail pre e ∧ OnlyUploads pre ∧
          (rental.renter_id = renterId → rental.rental_status = "pending_payment" →
            e = .apiError .INTERNAL_SERVER_ERROR .failedToUploadProof) := by
        unfold submitPlan
        by_cases h1 : rental.renter_id ≠ renterId
        · exact ⟨_, _, by rw [if_pos h1], onlyUploads_nil, fun h => absurd h h1⟩
        by_cases h2 : rental.rental_status ≠ "pending_payment"
        · exact ⟨_, _, by rw [if_neg h1, if_pos h2], onlyUploads_nil, fun _ h => absurd h h2⟩
        refine ⟨[.upload "payment-proofs" (proofPath o rental file)],
          .apiError .INTERNAL_SERVER_ERROR .failedToUploadProof, ?_,
          onlyUploads_singleton _ _, fun _ _ => rfl⟩
        rw [if_neg h1, if_neg h2]
        simp only [hup, if_pos hurl]
      obtain ⟨pre, e, hp, hpre, he⟩ := hplan
      rw [hp] at hf
      obtain ⟨g1, g2, g3, g4, -, g6⟩ := follows_fail_plan o w r _ pre e hf hpre
      refine ⟨⟨e, g1⟩, g2, g3, g4, g6, ?_⟩
      intro rental' hr' h1 h2
      have : rental' = rental := (Option.some.inj hr').symm
      subst this
      rw [g1, he h1 h2]
  · intro req hfile
    simp only [RentalController.uploadPaymentProof, hfile]

/-- Witness of C13: the renter submits a file whose upload comes back without a
public URL. -/
theorem submit_without_proof_writes_nothing_witness :
    (∃ e, (submitPaymentProof { allOk with upload := fun _ => some none }
        (demoWorld [demoRental "pending_payment" "unpaid" none]) (.id 1) 1
        (some ⟨"slip.png"⟩) ⟨none, none⟩).1 = .error e) ∧
      rentalUpdates (issued (demoWorld [demoRental "pending_payment" "unpaid" none])
        (submitPaymentProof { allOk with upload := fun _ => some none }
          (demoWorld [demoRental "pending_payment" "unpaid" none]) (.id 1) 1
          (some ⟨"slip.png"⟩) ⟨none, none⟩).2) = [] :=
  have h := (submit_without_proof_writes_nothing { allOk with upload := fun _ => some none }
    (demoWorld [demoRental "pending_payment" "unpaid" none]) (.id 1) 1 ⟨none, none⟩).2.2.1
    ⟨"slip.png"⟩ none rfl rfl
  ⟨h.1, h.2.1⟩

/-! ## C14: the creation-time fields are a frame -/

/-- C14. For every lifecycle operation and every input: every update payload
passed to `RentalModel.update` has none of the creation-time keys (`renter_id`,
`owner_id`, `product_id`, `start_date`, `end_date`, the price per day, the
deposit, the subtotal, the delivery fee, the two platform fees and the total
due), and the values of these fields in every stored rental are the same after
the operation as before. -/
theorem updates_leave_creation_fields (o : Outcomes) (w : World) (k : Identifier) (op : Op) :
    (∀ p ∈ rentalUpdates (issued w (op.run o w k).2), p.2.creationKeys = []) ∧
      (op.run o w k).2.rentals.map Rental.creationSnapshot =
        w.rentals.map Rental.creationSnapshot := by
  cases hfind : RentalModel.findByIdentifier w k with
  | none =>
    obtain ⟨m, hm⟩ := run_not_found o w k op hfind
    rw [hm]
    refine ⟨?_, rfl⟩
    intro p hp
    rw [issued_self] at hp
    simp [rentalUpdates] at hp
  | some rental =>
    obtain ⟨r, -, hiss, hrent⟩ := run_follows o w k op rental hfind
    cases hplan : op.plan o w rental with
    | fail pre e =>
      rw [hplan] at hiss hrent
      have hpre := plan_fail_pre o w rental op pre e hplan
      refine ⟨?_, by rw [hrent]; rfl⟩
      intro p hp
      rw [hiss] at hp
      simp only [Plan.effects, rentalUpdates_onlyUploads hpre] at hp
      simp at hp
    | commit c =>
      rw [hplan] at hiss hrent
      obtain ⟨-, hpre, -, hpost, -⟩ := plan_commit o w rental op c hplan
      have hkeys := plan_commit_frame o w rental op c hplan
      refine ⟨?_, ?_⟩
      · intro p hp
        rw [hiss, rentalUpdates_commit o c hpre hpost] at hp
        simp only [List.mem_singleton] at hp
        rw [hp]
        exact hkeys
      · rw [hrent]
        simp only [Plan.rentals]
        split_ifs
        · rw [List.map_map]
          apply List.map_congr_left
          intro x _
          simp only [Function.comp]
          split_ifs
          · exact applyTo_creationSnapshot _ _ hkeys
          · rfl
        · rfl

/-- Witness of C14: the owner approves a request; the creation-time fields of
the stored rentals are those of before. -/
theorem updates_leave_creation_fields_witness :
    (Op.run allOk (demoWorld [demoRental "pending_owner_approval" "unpaid" none]) (.id 1)
        (.approveRentalRequest 2)).2.rentals.map Rental.creationSnapshot =
      (demoWorld [demoRental "pending_owner_approval" "unpaid" none]).rentals.map
        Rental.creationSnapshot :=
  (updates_leave_creation_fields allOk
    (demoWorld [demoRental "pending_owner_approval" "unpaid" none]) (.id 1)
    (.approveRentalRequest 2)).2

/-! ## C15: the two read operations -/

/-- C15. For every rental identifier and user, `checkRentalPaymentStatus` and
`getRentalDetailsForUser` return the world they were given, so any number of
calls leaves the state unchanged and a repeated call returns the same result;
when the rental exists and the user is its renter or owner the first returns
exactly its `payment_status` and `rental_status` and the second the stored
rental, and for any other user both fail with `FORBIDDEN`. -/
theorem reads_write_nothing (w : World) (k : Identifier) (userId : Nat) :
    ((checkRentalPaymentStatus w k userId).2 = w ∧ (getRentalDetailsForUser w k userId).2 = w) ∧
    (∀ n : Nat, (fun w' => (checkRentalPaymentStatus w' k userId).2)^[n] w = w ∧
      (fun w' => (getRentalDetailsForUser w' k userId).2)^[n] w = w) ∧
    (checkRentalPaymentStatus (checkRentalPaymentStatus w k userId).2 k userId
        = checkRentalPaymentStatus w k userId ∧
      getRentalDetailsForUser (getRentalDetailsForUser w k userId).2 k userId
        = getRentalDetailsForUser w k userId) ∧
    (∀ rental, RentalModel.findByIdentifier w k = some rental →
      ((rental.renter_id = userId ∨ rental.owner_id = userId) →
        (checkRentalPaymentStatus w k userId).1 =
          .ok { payment_status := rental.payment_status,
                rental_status := rental.rental_status } ∧
        (getRentalDetailsForUser w k userId).1 = .ok rental) ∧
      ((rental.renter_id ≠ userId ∧ rental.owner_id ≠ userId) →
        (checkRentalPaymentStatus w k userId).1 =
          .error (.apiError .FORBIDDEN .notAuthorizedToViewPaymentStatus) ∧
        (getRentalDetailsForUser w k userId).1 =
          .error (.apiError .FORBIDDEN .notAuthorizedToView))) := by
  have hc : ∀ w', (checkRentalPaymentStatus w' k userId).2 = w' := by
    intro w'
    unfold checkRentalPaymentStatus
    split
    · rfl
    · split_ifs <;> rfl
  have hd : ∀ w', (getRentalDetailsForUser w' k userId).2 = w' := by
    intro w'
    unfold getRentalDetailsForUser
    split
    · rfl
    · split_ifs <;> rfl
  refine ⟨⟨hc w, hd w⟩, ?_, ⟨by rw [hc w], by rw [hd w]⟩, ?_⟩
  · intro n
    constructor
    · induction n with
      | zero => rfl
      | succ n ih => rw [Function.iterate_succ_apply, hc w, ih]
    · induction n with
      | zero => rfl
      | succ n ih => rw [Function.iterate_succ_apply, hd w, ih]
  · intro rental hfind
    constructor
    · intro h
      have h' : ¬ (rental.renter_id ≠ userId ∧ rental.owner_id ≠ userId) := by
        intro ⟨a, b⟩
        rcases h with h | h
        · exact a h
        · exact b h
      simp only [checkRentalPaymentStatus, getRentalDetailsForUser, hfind, if_neg h', and_self]
    · intro h
      simp only [checkRentalPaymentStatus, getRentalDetailsForUser, hfind, if_pos h, and_self]

/-- Witness of C15: the renter reads the payment status of a confirmed rental. -/
theorem reads_write_nothing_witness :
    (checkRentalPaymentStatus (demoWorld [demoRental "confirmed" "pending_verification" none])
        (.id 1) 1).1 =
        .ok { payment_status := "pending_verification", rental_status := "confirmed" } ∧
      (getRentalDetailsForUser (demoWorld [demoRental "confirmed" "pending_verification" none])
        (.id 1) 1).1 = .ok (demoRental "confirmed" "pending_verification" none) :=
  ((reads_write_nothing (demoWorld [demoRental "confirmed" "pending_verification" none])
    (.id 1) 1).2.2.2 (demoRental "confirmed" "pending_verification" none) rfl).1 (Or.inl rfl)

/-! ## C16: terminal statuses are absorbing -/

/-- C16. For every stored rental whose status is `completed`,
`rejected_by_owner`, `cancelled_by_renter`, `cancelled_by_owner` or `dispute`,
and every lifecycle operation, actor and input: the operation fails or writes
the same status; every status it writes, the status of the rental it returns
and the status stored afterwards are the status it read. -/
theorem terminal_status_is_absorbing (o : Outcomes) (w : World) (k : Identifier) (op : Op)
    (rental : Rental) (hfind : RentalModel.findByIdentifier w k = some rental)
    (hterm : rental.rental_status ∈ terminalStatuses) :
    ((∃ e, (op.run o w k).1 = .error e) ∨
        statusWrites (issued w (op.run o w k).2) = [rental.rental_status]) ∧
      (∀ s ∈ statusWrites (issued w (op.run o w k).2), s = rental.rental_status) ∧
      (∀ u, (op.run o w k).1 = .ok u → u.rental_status = rental.rental_status) ∧
      (RentalModel.findByIdentifier (op.run o w k).2 k).map (fun r => r.rental_status)
        = some rental.rental_status := by
  obtain ⟨r, hres, hiss, hrent⟩ := run_follows o w k op rental hfind
  cases hplan : op.plan o w rental with
  | fail pre e =>
    rw [hplan] at hres hiss hrent
    have hpre := plan_fail_pre o w rental op pre e hplan
    simp only [Plan.effects] at hiss
    simp only [Plan.result] at hres
    refine ⟨Or.inl ⟨e, hres⟩, ?_, ?_, ?_⟩
    · intro s hs
      rw [hiss, statusWrites_onlyUploads hpre] at hs
      simp at hs
    · intro u hu
      rw [hres] at hu; simp at hu
    · rw [findByIdentifier_congr w _ k (by rw [hrent]; rfl), hfind]
      rfl
  | commit c =>
    rw [hplan] at hres hiss hrent
    obtain ⟨hid, hpre, hpost, -, -, new, hnew, htr, -⟩ := plan_commit o w rental op c hplan
    have hsame : new = rental.rental_status := terminal_transition op _ _ hterm htr
    subst hsame
    have hw := statusWrites_commit o c _ hpre hpost hnew
    refine ⟨Or.inr (by rw [hiss, hw]), ?_, ?_, ?_⟩
    · intro s hs
      rw [hiss, hw] at hs
      simpa using hs
    · intro u hu
      rw [hres] at hu
      simp only [Plan.result] at hu
      split_ifs at hu
      · split at hu
        · simp at hu
        · rw [← Except.ok.inj hu]
          exact applyTo_status _ _ _ hnew
    · rw [reload_status o w _ k rental c _ hfind hrent hid hnew]
      simp

/-- Witness of C16: the owner verifies the pending payment of a rental that is
`cancelled_by_renter`; the status stored afterwards is still `cancelled_by_renter`. -/
theorem terminal_status_is_absorbing_witness :
    (RentalModel.findByIdentifier
        (Op.run allOk (demoWorld [demoRental "cancelled_by_renter" "pending_verification" none])
          (.id 1) (.verifyRentalPaymentByOwner 2 none)).2 (.id 1)).map
        (fun r => r.rental_status) = some "cancelled_by_renter" :=
  (terminal_status_is_absorbing allOk
    (demoWorld [demoRental "cancelled_by_renter" "pending_verification" none]) (.id 1)
    (.verifyRentalPaymentByOwner 2 none)
    (demoRental "cancelled_by_renter" "pending_verification" none) rfl (by decide)).2.2.2

/-! ## C17: the guards of creation and the initial state -/

/-- C17. `createRentalRequest` fails with `BAD_REQUEST` and returns the world
unchanged, so that no rental is created, whenever the product does not exist,
is not `available`, is not `approved`, belongs to the renter, is stock-tracked
(`quantity > 0`) with `quantity_available < 1`, or the pickup method is
`delivery` and the delivery address is missing or is not an address of the
renter; and every successful `createRentalRequest` appends one rental to the
store, with `rental_status` `pending_owner_approval`, `payment_status` `unpaid`,
the caller as renter and the owner and id of the product. -/
theorem create_guards_and_initial_state (o : Outcomes) (w : World) (renterId : Nat)
    (d : RentalRequestData) :
    ((ProductModel.findByIdOrSlug w d.product_id = none ∨
        ∃ product, ProductModel.findByIdOrSlug w d.product_id = some product ∧
          (product.availability_status ≠ "available" ∨
            product.admin_approval_status ≠ "approved" ∨
            product.owner_id = renterId ∨
            (product.quantity > 0 ∧ product.quantity_available < 1) ∨
            (d.pickup_method = "delivery" ∧
              (truthyId d.delivery_address_id = false ∨
                UserAddressModel.findByIdAndUserId w (d.delivery_address_id.getD 0) renterId
                  = none)))) →
      ∃ m, createRentalRequest o w renterId d = (.error (.apiError .BAD_REQUEST m), w)) ∧
    (∀ u, (createRentalRequest o w renterId d).1 = .ok u →
      u.rental_status = "pending_owner_approval" ∧ u.payment_status = "unpaid" ∧
      u.renter_id = renterId ∧
      (∃ product, ProductModel.findByIdOrSlug w d.product_id = some product ∧
        u.owner_id = product.owner_id ∧ u.product_id = some product.id) ∧
      (createRentalRequest o w renterId d).2.rentals = w.rentals ++ [u]) := by
  constructor
  · intro h
    cases hprod : ProductModel.findByIdOrSlug w d.product_id with
    | none => exact ⟨.productNotAvailable, by simp only [createRentalRequest, hprod]⟩
    | some product =>
      rcases h with h | ⟨p, hp, h⟩
      · rw [hprod] at h; simp at h
      rw [hprod] at hp
      have hpp : p = product := (Option.some.inj hp).symm
      subst hpp
      by_cases hav : p.availability_status ≠ "available" ∨
          p.admin_approval_status ≠ "approved"
      · exact ⟨.productNotAvailable, by simp only [createRentalRequest, hprod, if_pos hav]⟩
      by_cases hown : p.owner_id = renterId
      · exact ⟨.cannotRentOwnProduct,
          by simp only [createRentalRequest, hprod, if_neg hav, if_pos hown]⟩
      by_cases hstock : p.quantity_available < 1 ∧ p.quantity > 0
      · exact ⟨.outOfStock,
          by simp only [createRentalRequest, hprod, if_neg hav, if_neg hown, if_pos hstock]⟩
      have hav' : p.availability_status = "available" ∧
          p.admin_approval_status = "approved" := by
        simpa [not_or] using hav
      have hc := createRentalRequest_checked o w renterId d p hprod hav'.1 hav'.2 hown hstock
      by_cases hmin : rentalDurationDays d.start_date d.end_date <
          JsNum.ofInt (orOne p.min_rental_duration_days)
      · exact ⟨_, by rw [hc, if_pos hmin]⟩
      by_cases hmax : truthyInt p.max_rental_duration_days = true ∧
          rentalDurationDays d.start_date d.end_date >
            JsNum.ofInt (p.max_rental_duration_days.getD 0)
      · exact ⟨_, by rw [hc, if_neg hmin, if_pos hmax]⟩
      rcases h with h | h | h | h | ⟨hdel, haddr⟩
      · exact absurd hav'.1 h
      · exact absurd hav'.2 h
      · exact absurd h hown
      · exact absurd ⟨h.2, h.1⟩ hstock
      · have hv : ∃ m, validDeliveryAddressId w renterId d = .error (.apiError .BAD_REQUEST m) := by
          unfold validDeliveryAddressId
          rw [if_pos hdel]
          by_cases ht : truthyId d.delivery_address_id = false
          · exact ⟨_, by rw [if_pos ht]⟩
          · rcases haddr with haddr | haddr
            · exact absurd haddr ht
            · exact ⟨.invalidDeliveryAddress, by rw [if_neg ht]; simp only [haddr]⟩
        obtain ⟨m, hm⟩ := hv
        exact ⟨m, by rw [hc, if_neg hmin, if_neg hmax]; simp only [hm]⟩
  · intro u hok
    obtain ⟨product, addressId, hprod, hp, hcr, rfl⟩ := create_success o w renterId d u hok
    refine ⟨?_, ?_, ?_, ⟨product, hprod, ?_, ?_⟩, ?_⟩
    · simp [RentalFields.applyTo, rentalPayload, requiresOwnerApproval]
    · simp [RentalFields.applyTo, rentalPayload]
    · simp [RentalFields.applyTo, rentalPayload]
    · simp [RentalFields.applyTo, rentalPayload]
    · simp [RentalFields.applyTo, rentalPayload, Option.or]
    · rw [hp]
      simp [RentalModel.create, hcr, World.emit, rentalPayload]

/-- Witness of C17: the owner of `demoProduct`, user 2, asks to rent it. -/
theorem create_guards_and_initial_state_witness :
    ∃ m, createRentalRequest allOk (demoWorld []) 2 demoRequest =
      (.error (.apiError .BAD_REQUEST m), demoWorld []) :=
  (create_guards_and_initial_state allOk (demoWorld []) 2 demoRequest).1
    (Or.inr ⟨demoProduct, rfl, Or.inr (Or.inr (Or.inl rfl))⟩)

/-! ## C18: two concurrent approvals -/

/-- C18 (amended). The five awaited steps of `approveRentalRequest` run alone
are the operation itself.  For two concurrent calls by the owner on the same
rental in `pending_owner_approval`, with its product stored and in stock and
every collaborator resolving, and for every schedule that interleaves the five
steps of the first call (`true`) with the five steps of the second (`false`):
a call fails with the invalid-state error, `BAD_REQUEST` "Rental is not pending
owner approval. Current status: pending_payment", exactly when the load, the
product check and the update of the other call all ran before its own load, and
otherwise it succeeds with the rental in `pending_payment`; so at least one call
succeeds, and both succeed, each issuing its own update, whenever each call
loads the rental before the other has updated it; the rental ends in
`pending_payment`, written once when a call failed and twice when both
succeeded. -/
theorem concurrent_approvals (o : Outcomes) (w : World) (k : Identifier) (ownerId : Nat)
    (rental : Rental) (product : Product)
    (hfind : RentalModel.findByIdentifier w k = some rental)
    (howner : rental.owner_id = ownerId)
    (hstatus : rental.rental_status = "pending_owner_approval")
    (hprod : rental.product_id.bind (fun pid => ProductModel.findByIdOrSlug w (.id pid))
      = some product)
    (hstock : ¬ (product.quantity_available < 1 ∧ product.quantity > 0))
    (hu : o.rentalUpdateOk = true) (hh : o.historyOk = true) (hn : o.notifyOk = true)
    (s : List Bool) (hA : s.count true = 5) (hB : s.count false = 5) :
    approveSteps o k ownerId 5 (.start, w) =
      (.finished (approveRentalRequest o w k ownerId).1,
        (approveRentalRequest o w k ownerId).2) ∧
    (3 ≤ leadingSteps false s →
      (interleave o k ownerId s ⟨.start, .start, w⟩).a =
        .finished (.error
          (.apiError .BAD_REQUEST (.notPendingOwnerApproval "pending_payment")))) ∧
    (leadingSteps false s < 3 →
      ∃ u, (interleave o k ownerId s ⟨.start, .start, w⟩).a = .finished (.ok u) ∧
        u.rental_status = "pending_payment") ∧
    (3 ≤ leadingSteps true s →
      (interleave o k ownerId s ⟨.start, .start, w⟩).b =
        .finished (.error
          (.apiError .BAD_REQUEST (.notPendingOwnerApproval "pending_payment")))) ∧
    (leadingSteps true s < 3 →
      ∃ u, (interleave o k ownerId s ⟨.start, .start, w⟩).b = .finished (.ok u) ∧
        u.rental_status = "pending_payment") ∧
    (leadingSteps false s < 3 ∨ leadingSteps true s < 3) ∧
    statusWrites (issued w (interleave o k ownerId s ⟨.start, .start, w⟩).world) =
      List.replicate
        (if 3 ≤ leadingSteps false s ∨ 3 ≤ leadingSteps true s then 1 else 2)
        "pending_payment" ∧
    (RentalModel.findByIdentifier (interleave o k ownerId s ⟨.start, .start, w⟩).world k).map
      (fun r => r.rental_status) = some "pending_payment" := by
  have hw0 : WorldAt w k ownerId rental 0 w :=
    ⟨rfl, ⟨rental, hfind, rfl, howner, rfl, by simp [hstatus]⟩, find_id_of_loaded hfind,
      ⟨[], by simp, rfl⟩⟩
  obtain ⟨ha, hb, hw⟩ := interleave_sim o w k ownerId rental product hprod hstock hu hh hn s
    .start .start 0 ⟨.start, .start, w⟩ trivial trivial hw0
  rw [phase_run_complete s hA hB] at ha hb hw
  simp only [Phase.expected] at ha hb hw
  refine ⟨approveSteps_eq o w k ownerId, ?_, ?_, ?_, ?_, ?_, ?_, ?_⟩
  · intro h
    rw [if_pos h] at ha
    exact callAt_lost ha
  · intro h
    rw [if_neg (by omega)] at ha
    exact callAt_succeeded ha
  · intro h
    rw [if_pos h] at hb
    exact callAt_lost hb
  · intro h
    rw [if_neg (by omega)] at hb
    exact callAt_succeeded hb
  · cases s with
    | nil => left; simp [leadingSteps]
    | cons x xs => cases x <;> simp [leadingSteps]
  · obtain ⟨-, -, -, ⟨t, htr, hst⟩⟩ := hw
    simp only [issued, htr, List.drop_left]
    exact hst
  · obtain ⟨-, ⟨row, hrow, -, -, -, hrst⟩, -, -⟩ := hw
    rw [hrow]
    have : (if 3 ≤ leadingSteps false s ∨ 3 ≤ leadingSteps true s then 1 else 2) ≠ 0 := by
      split_ifs <;> omega
    rw [if_neg this] at hrst
    simp [hrst]

/-- Witness of C18 (amended): the two calls run one after the other; the
second fails with the invalid-state error. -/
theorem concurrent_approvals_witness :
    (interleave allOk (.id 1) 2
        [true, true, true, true, true, false, false, false, false, false]
        ⟨.start, .start, demoWorld [demoRental "pending_owner_approval" "unpaid" none]⟩).b =
      .finished (.error
        (.apiError .BAD_REQUEST (.notPendingOwnerApproval "pending_payment"))) :=
  (concurrent_approvals allOk (demoWorld [demoRental "pending_owner_approval" "unpaid" none])
    (.id 1) 2 (demoRental "pending_owner_approval" "unpaid" none) demoProduct rfl rfl rfl rfl
    (by decide) rfl rfl rfl
    [true, true, true, true, true, false, false, false, false, false] (by decide)
    (by decide)).2.2.2.1 (by decide)

/-- Counterexample to C18 as stated: the first call loads the rental, then the
second call loads it, then the first call runs to its end and the second call
after it; both calls succeed and `pending_payment` is written twice. -/
theorem concurrent_approvals_counterexample :
    RentalModel.findByIdentifier (demoWorld [demoRental "pending_owner_approval" "unpaid" none])
        (.id 1) = some (demoRental "pending_owner_approval" "unpaid" none) ∧
      (demoRental "pending_owner_approval" "unpaid" none).owner_id = 2 ∧
      (∃ ua ub,
        (interleave allOk (.id 1) 2
          [true, false, true, true, true, true, false, false, false, false]
          ⟨.start, .start, demoWorld [demoRental "pending_owner_approval" "unpaid" none]⟩).a
          = .finished (.ok ua) ∧
        (interleave allOk (.id 1) 2
          [true, false, true, true, true, true, false, false, false, false]
          ⟨.start, .start, demoWorld [demoRental "pending_owner_approval" "unpaid" none]⟩).b
          = .finished (.ok ub) ∧
        ua.rental_status = "pending_payment" ∧ ub.rental_status = "pending_payment") ∧
      statusWrites
        (issued (demoWorld [demoRental "pending_owner_approval" "unpaid" none])
          (interleave allOk (.id 1) 2
            [true, false, true, true, true, true, false, false, false, false]
            ⟨.start, .start,
              demoWorld [demoRental "pending_owner_approval" "unpaid" none]⟩).world)
        = ["pending_payment", "pending_payment"] := by
  refine ⟨rfl, rfl, ⟨_, _, rfl, rfl, rfl, rfl⟩, ?_⟩
  decide

/-! ## C19: reviewing a completed rental -/

/-- C19 (code evaluated at the failing input). The rental of the scenario has
been returned and its `rental_status` is `completed`; its renter, user 1, has
not reviewed it; `ReviewService.createReview` reads the property `status`, which
the rental does not have, fails with "You can only review completed rentals" and
stores no review.  More generally, on the store left by any sequence of
operations of `RentalService` that starts from the empty store, no rental has a
`status` property, and `createReview` fails and stores no review, whoever calls
it and whatever the review. -/
theorem review_of_completed_rental_is_refused :
    ((RentalModel.findById scenarioReturned 1).map
        (fun r => (r.rental_status, r.status, r.renter_id)) = some ("completed", none, 1) ∧
      ReviewModel.findByRentalId reviewOk [] 1 = .ok none ∧
      ReviewService.createReview reviewOk scenarioReturned [] 1 demoReview =
        (.error (.apiError .BAD_REQUEST .reviewOnlyCompletedRentals), [])) ∧
    (∀ (steps : List (Outcomes × Step)) (ro : ReviewOutcomes) (reviews : List Review)
        (userId : Nat) (reviewData : ReviewData),
      ∃ e, ReviewService.createReview ro (runSteps steps (demoWorld [])) reviews userId
        reviewData = (.error e, reviews)) := by
  refine ⟨⟨scenarioReturned_rental, rfl, ?_⟩, ?_⟩
  · have h := scenarioReturned_rental
    rw [Option.map_eq_some'] at h
    obtain ⟨r, hr, hv⟩ := h
    simp only [Prod.mk.injEq] at hv
    obtain ⟨-, hstatus, hrenter⟩ := hv
    have hr' : RentalModel.findById scenarioReturned demoReview.rental_id = some r := hr
    simp only [ReviewService.createReview, hr', hrenter, hstatus]
    rfl
  · intro steps ro reviews userId reviewData
    have hinv := runSteps_keeps_status_unset steps (demoWorld [])
      (by intro r hr; simp [demoWorld] at hr)
    cases hfind : RentalModel.findById (runSteps steps (demoWorld [])) reviewData.rental_id with
    | none => exact ⟨.apiError .NOT_FOUND .reviewRentalNotFound, by
        simp only [ReviewService.createReview, hfind]⟩
    | some rental =>
      have hs : rental.status = none := hinv rental (List.mem_of_find?_eq_some hfind)
      simp only [ReviewService.createReview, hfind]
      by_cases h1 : rental.renter_id ≠ userId
      · exact ⟨.apiError .FORBIDDEN .reviewOnlyOwnRentals, by rw [if_pos h1]⟩
      · exact ⟨.apiError .BAD_REQUEST .reviewOnlyCompletedRentals, by
          rw [if_neg h1, if_pos (by rw [hs]; simp)]⟩

/-! ## C20: the statuses the engine writes -/

/-- C20. Starting from a store whose rentals all have one of the eight statuses
`pending_owner_approval`, `pending_payment`, `confirmed`, `active`, `completed`,
`dispute`, `rejected_by_owner`, `cancelled_by_renter` (in particular from the
empty store), after every sequence of operations of `RentalService` every
stored rental has one of these statuses; a further `createRentalRequest` stores
`pending_owner_approval`; a further lifecycle operation writes only these
statuses, never `return_pending`, `late_return` or `cancelled_by_owner`; a
further `processReturn` succeeds only on a rental that is `active`; and a
further `cancelRentalByUser` attempts an inventory adjustment only on a rental
that is `confirmed`. -/
theorem engine_statuses_invariant (w0 : World) (steps : List (Outcomes × Step))
    (h0 : ∀ r ∈ w0.rentals, r.rental_status ∈ engineStatuses) :
    (∀ r ∈ (runSteps steps w0).rentals, r.rental_status ∈ engineStatuses) ∧
    (∀ o renterId d u,
      (createRentalRequest o (runSteps steps w0) renterId d).1 = .ok u →
        u.rental_status = "pending_owner_approval") ∧
    (∀ (o : Outcomes) (k : Identifier) (op : Op),
      ∀ s ∈ statusWrites (issued (runSteps steps w0) (op.run o (runSteps steps w0) k).2),
      s ∈ engineStatuses ∧ s ≠ "return_pending" ∧ s ≠ "late_return" ∧
        s ≠ "cancelled_by_owner") ∧
    (∀ o k ownerId returnData imageFiles u,
      (processReturn o (runSteps steps w0) k ownerId returnData imageFiles).1 = .ok u →
        (RentalModel.findByIdentifier (runSteps steps w0) k).map (fun r => r.rental_status)
          = some "active") ∧
    (∀ o k userId reason,
      quantityAdjustments (issued (runSteps steps w0)
        (cancelRentalByUser o (runSteps steps w0) k userId reason).2) ≠ [] →
        (RentalModel.findByIdentifier (runSteps steps w0) k).map (fun r => r.rental_status)
          = some "confirmed") := by
  have hinv := runSteps_preserves steps w0 h0
  refine ⟨hinv, ?_, ?_, ?_, ?_⟩
  · intro o renterId d u hok
    obtain ⟨product, addressId, -, -, -, rfl⟩ := create_success o _ renterId d u hok
    simp [RentalFields.applyTo, rentalPayload, requiresOwnerApproval]
  · intro o k op s hs
    have hin := (op_preserves o _ k op hinv).2 s hs
    refine ⟨hin, ?_, ?_, ?_⟩ <;>
      (intro h; rw [h] at hin; simp [engineStatuses] at hin)
  · intro o k ownerId returnData imageFiles u hok
    cases hfind : RentalModel.findByIdentifier (runSteps steps w0) k with
    | none => simp [processReturn, hfind] at hok
    | some rental =>
      have hmem : rental ∈ (runSteps steps w0).rentals := by
        cases k <;> exact List.mem_of_find?_eq_some hfind
      have hin := hinv rental hmem
      obtain ⟨c, new, -, -, -, -, htr, -⟩ :=
        run_success o _ k (.processReturn ownerId returnData imageFiles) rental u hfind hok
      simp only [specTransition, List.mem_cons, List.mem_singleton, List.not_mem_nil,
        or_false] at htr
      rcases htr.1 with h | h | h
      · simp [h]
      · rw [h] at hin; simp [engineStatuses] at hin
      · rw [h] at hin; simp [engineStatuses] at hin
  · intro o k userId reason hq
    cases hfind : RentalModel.findByIdentifier (runSteps steps w0) k with
    | none =>
      exfalso
      apply hq
      simp only [cancelRentalByUser, hfind, issued_self]
      rfl
    | some rental =>
      obtain ⟨r, hr⟩ := find_id_of_loaded hfind
      obtain ⟨-, hiss, -⟩ := cancel_follows o _ k userId reason rental r hfind hr
      by_cases hc : rental.rental_status = "confirmed"
      · simp [hc]
      exfalso
      apply hq
      rw [hiss]
      unfold cancelPlan
      by_cases h1 : rental.renter_id ≠ userId
      · rw [if_pos h1]; rfl
      by_cases h2 : rental.rental_status ∉ cancellableStatuses
      · rw [if_neg h1, if_pos h2]; rfl
      rw [if_neg h1, if_neg h2]
      have hna : rental.rental_status ≠ "active" := by
        intro h
        apply h2
        rw [h]
        decide
      simp only [Plan.effects, List.nil_append]
      rw [show ∀ (a : Effect) (l : List Effect), a :: l = [a] ++ l from fun _ _ => rfl,
        quantityAdjustments_append]
      cases o.rentalUpdateOk <;> cases o.historyOk <;>
        simp [quantityAdjustments, cancelRestoreEffects, hc, hna]

/-- Witness of C20: the scenario of a rental that runs its whole course,
starting from the empty store. -/
theorem engine_statuses_invariant_witness :
    (∀ r ∈ (demoWorld []).rentals, r.rental_status ∈ engineStatuses) ∧
      (∀ r ∈ (runSteps demoSteps (demoWorld [])).rentals, r.rental_status ∈ engineStatuses) :=
  ⟨by simp [demoWorld],
    (engine_statuses_invariant (demoWorld []) demoSteps (by simp [demoWorld])).1⟩

/-! ## C21: the platform fees are not negative -/

/-- C21 (amended). For every successful `createRentalRequest`: when the stored
subtotal is not negative, neither platform fee is negative; a platform fee is
exactly 0 when its configured percentage is not positive (zero, negative or
unparsable) and, for a positive percentage `p` and a finite subtotal, it is
`subtotal * (p / 100)` in double arithmetic, the division rounded first; and
for valid dates, a product whose price is a double that is not negative, a
deposit that is unset or not negative, a delivery-fee setting that is not
negative, a renter fee percentage that is a double other than `+Infinity`, and
a minimum duration that is unset or not negative, the stored price per day is
at most the subtotal and the subtotal is at most the total due. -/
theorem created_fees_are_nonnegative (o : Outcomes) (w : World) (renterId : Nat)
    (d : RentalRequestData) (u : Rental) (product : Product)
    (hok : (createRentalRequest o w renterId d).1 = .ok u)
    (hprod : ProductModel.findByIdOrSlug w d.product_id = some product) :
    (¬ u.calculated_subtotal_rental_fee < 0 →
      ¬ u.platform_fee_renter < 0 ∧ ¬ u.platform_fee_owner < 0) ∧
    (¬ 0 < w.settings.platform_fee_renter_percentage → u.platform_fee_renter = 0) ∧
    (0 < w.settings.platform_fee_renter_percentage →
      ∀ s, u.calculated_subtotal_rental_fee = .fin s →
        u.platform_fee_renter = JsNum.mul u.calculated_subtotal_rental_fee
          (JsNum.div w.settings.platform_fee_renter_percentage 100)) ∧
    (¬ 0 < w.settings.platform_fee_owner_percentage → u.platform_fee_owner = 0) ∧
    (0 < w.settings.platform_fee_owner_percentage →
      ∀ s, u.calculated_subtotal_rental_fee = .fin s →
        u.platform_fee_owner = JsNum.mul u.calculated_subtotal_rental_fee
          (JsNum.div w.settings.platform_fee_owner_percentage 100)) ∧
    (|d.start_date| ≤ 8640000000000000 → |d.end_date| ≤ 8640000000000000 →
      0 ≤ product.rental_price_per_day →
      product.rental_price_per_day.isDouble = true →
      (∀ v, product.security_deposit = some v → ¬ v < 0) →
      ¬ w.settings.default_delivery_fee < 0 →
      w.settings.platform_fee_renter_percentage.isDouble = true →
      w.settings.platform_fee_renter_percentage ≠ .inf false →
      (∀ m, product.min_rental_duration_days = some m → 0 ≤ m) →
      u.rental_price_per_day_at_booking = product.rental_price_per_day ∧
      u.rental_price_per_day_at_booking ≤ u.calculated_subtotal_rental_fee ∧
      u.calculated_subtotal_rental_fee ≤ u.total_amount_due) := by
  have hdur := create_success_duration o w renterId d u product hok hprod
  obtain ⟨product', addressId, hprod', -, -, rfl⟩ := create_success o w renterId d u hok
  rw [hprod] at hprod'
  have hpp : product' = product := (Option.some.inj hprod').symm
  subst hpp
  simp only [RentalFields.applyTo, rentalPayload, Option.getD_some]
  refine ⟨?_, ?_, ?_, ?_, ?_, ?_⟩
  · intro hsub
    exact ⟨platformFee_not_neg _ _ hsub, platformFee_not_neg _ _ hsub⟩
  · exact platformFee_of_not_pos _ _
  · intro h s hs
    exact platformFee_of_pos _ _ s hs h
  · exact platformFee_of_not_pos _ _
  · intro h s hs
    exact platformFee_of_pos _ _ s hs h
  · intro hstart hend hprice hpd hdep hdel hfd hfinf hmin
    obtain ⟨c, hcd, hcabs, -⟩ := rentalDurationDays_valid d.start_date d.end_date hstart hend
    have hmin1 : 1 ≤ orOne product'.min_rental_duration_days := by
      cases hm : product'.min_rental_duration_days with
      | none => simp [orOne, truthyInt]
      | some m =>
        have := hmin m hm
        by_cases h0 : m = 0
        · simp [orOne, truthyInt, h0]
        · simp only [orOne, truthyInt, bne_iff_ne, ne_eq, h0, not_false_eq_true, if_true,
            Option.getD_some]
          omega
    have hc1 : 1 ≤ c := by
      rw [hcd] at hdur
      have h1 : ¬ (JsNum.lt (JsNum.fin (c : ℚ))
          (JsNum.ofInt (orOne product'.min_rental_duration_days)) = true) := hdur
      rw [fin_lt_ofInt c _ hcabs, decide_eq_true_eq] at h1
      omega
    have hsub : JsNum.le product'.rental_price_per_day
        (subtotalRentalFee product' (rentalDurationDays d.start_date d.end_date)) = true := by
      rw [hcd]
      exact jsnum_le_mul_of_one_le _ c hprice hpd hc1
    have hsub0 : JsNum.le 0
        (subtotalRentalFee product' (rentalDurationDays d.start_date d.end_date)) = true :=
      jsnum_le_trans hprice hsub
    have hdep0 : JsNum.le 0 (orZero product'.security_deposit) = true :=
      orZero_nonneg _ (fun v hv => Bool.eq_false_iff.mpr (hdep v hv))
    have hdel0 : JsNum.le 0 (deliveryFee w.settings d.pickup_method) = true := by
      unfold deliveryFee
      split_ifs
      · exact jsOrZero_nonneg _ (Bool.eq_false_iff.mpr hdel)
      · rw [jsZero_eq]; simp [JsNum.le]
    have h1 := jsnum_le_add_of_nonneg _ _ hsub0 (isDouble_mul _ _) hdep0
    have h1' := jsnum_le_trans hsub0 h1
    have h2 := jsnum_le_add_of_nonneg _ _ h1' (isDouble_add _ _) hdel0
    have h2' := jsnum_le_trans h1' h2
    have h3 := jsnum_le_add_of_nonneg _ _ h2' (isDouble_add _ _)
      (platformFee_nonneg _ w.settings.platform_fee_renter_percentage hsub0 hfd hfinf)
    exact ⟨trivial, hsub, jsnum_le_trans (jsnum_le_trans h1 h2) h3⟩

/-- Witness of C21 (amended), the pricing example of the spec: the price per
day, 100, is at most the subtotal, 300, which is at most the total due, 365. -/
theorem created_fees_are_nonnegative_witness :
    (createRentalRequest allOk (demoWorld []) 1 demoRequest).1 = .ok
        ((rentalPayload (demoWorld []) 1 demoRequest demoProduct none).applyTo
          (Rental.blank 1 "R-0001" (some ⟨10⟩))) ∧
      ((rentalPayload (demoWorld []) 1 demoRequest demoProduct none).applyTo
          (Rental.blank 1 "R-0001" (some ⟨10⟩))).rental_price_per_day_at_booking ≤
        ((rentalPayload (demoWorld []) 1 demoRequest demoProduct none).applyTo
          (Rental.blank 1 "R-0001" (some ⟨10⟩))).calculated_subtotal_rental_fee ∧
      ((rentalPayload (demoWorld []) 1 demoRequest demoProduct none).applyTo
          (Rental.blank 1 "R-0001" (some ⟨10⟩))).calculated_subtotal_rental_fee ≤
        ((rentalPayload (demoWorld []) 1 demoRequest demoProduct none).applyTo
          (Rental.blank 1 "R-0001" (some ⟨10⟩))).total_amount_due :=
  have hok : (createRentalRequest allOk (demoWorld []) 1 demoRequest).1 = .ok
      ((rentalPayload (demoWorld []) 1 demoRequest demoProduct none).applyTo
        (Rental.blank 1 "R-0001" (some ⟨10⟩))) := by
    rw [demoRequest_pass (demoWorld []) rfl]; rfl
  ⟨hok, ((created_fees_are_nonnegative allOk (demoWorld []) 1 demoRequest _ demoProduct hok
    rfl).2.2.2.2.2 (by decide) (by decide) (by decide!) (by decide!)
    (by intro v hv; cases hv; decide!) (by decide!) (by decide!) (by decide)
    (by simp [demoProduct])).2⟩

/-- Counterexample to C21 as stated.  A product priced 100 per day with deposit
0 and a minimum duration of -1, a delivery-fee setting of 0 and a renter fee of
5 percent: the request that ends two days before it starts has a duration of -1
day, passes the duration check and is stored with subtotal -100, renter fee -5
and total due -105, so neither inequality holds.  And on the request of the
pricing example with the renter fee percentage configured as 7 the stored fee
is `21 + 2 ^ (-48)`, not `300 * 7 / 100 = 21`. -/
theorem created_fees_are_nonnegative_counterexample :
    (∃ u, (createRentalRequest allOk negativeMinWorld 1 reversedRequest).1 = .ok u ∧
      ProductModel.findByIdOrSlug negativeMinWorld reversedRequest.product_id =
        some negativeMinProduct ∧
      negativeMinProduct.rental_price_per_day = 100 ∧
      negativeMinProduct.security_deposit = some 0 ∧
      negativeMinWorld.settings.default_delivery_fee = 0 ∧
      negativeMinProduct.min_rental_duration_days = some (-1) ∧
      u.rental_price_per_day_at_booking = 100 ∧
      u.calculated_subtotal_rental_fee = .fin (-100) ∧
      u.platform_fee_renter = .fin (-5) ∧
      u.total_amount_due = .fin (-105) ∧
      ¬ (u.total_amount_due ≥ u.calculated_subtotal_rental_fee) ∧
      ¬ (u.calculated_subtotal_rental_fee ≥ u.rental_price_per_day_at_booking)) ∧
    (∃ u, (createRentalRequest allOk sevenPercentWorld 1 demoRequest).1 = .ok u ∧
      sevenPercentWorld.settings.platform_fee_owner_percentage = 0 ∧
      sevenPercentWorld.settings.platform_fee_renter_percentage = 7 ∧
      u.calculated_subtotal_rental_fee = 300 ∧
      u.platform_fee_renter = .fin (21 + 1 / 2 ^ 48) ∧
      specPlatformFee 300 7 = 21) := by
  have hok1 : (createRentalRequest allOk negativeMinWorld 1 reversedRequest).1 = .ok
      ((rentalPayload negativeMinWorld 1 reversedRequest negativeMinProduct none).applyTo
        (Rental.blank 1 "R-0001" (some ⟨10⟩))) := by
    rw [reversedRequest_negativeMin]; rfl
  have hok2 : (createRentalRequest allOk sevenPercentWorld 1 demoRequest).1 = .ok
      ((rentalPayload sevenPercentWorld 1 demoRequest demoProduct none).applyTo
        (Rental.blank 1 "R-0001" (some ⟨10⟩))) := by
    rw [demoRequest_pass sevenPercentWorld rfl]; rfl
  refine ⟨⟨_, hok1, rfl, rfl, rfl, rfl, rfl, rfl, ?_, ?_, ?_, ?_, ?_⟩,
    ⟨_, hok2, rfl, rfl, ?_, ?_, ?_⟩⟩
  · decide!
  · decide!
  · decide!
  · decide!
  · decide!
  · decide!
  · decide!
  · norm_num [specPlatformFee]

end RentEase
